import Mathlib

/-!
# RuntimeTransformer: the selection manager and gizmo lifecycle of `ATransformerActor`

A shallow embedding of `TransformerActor.cpp` / `TransformerActor.h`.

* Object pointers are `Option` values of an identity type; `none` is `nullptr`.
* The transformer actor's member variables and the part of the engine state that
  its member functions write (gizmo actors, destroyed objects, the calls made to the
  overridable notification hooks) form one record, `ATransformerActor`, that every
  member function takes and returns.
* What the engine answers about the scene (owner, root component, interfaces, ...) is
  the read-only record `World`.
* Scalars are rationals and the vector and quaternion operations are exact. Where the
  rounding of floating-point arithmetic matters, the `Rounded` versions of the operations
  and of `ApplyDeltaTransform` round the result of every operation by a parameter `rnd`.
-/

namespace RuntimeTransformer

/-! ## Identities -/

/-- Identity of a `USceneComponent` object. -/
abbrev CompId := Nat

/-- Identity of an `ABaseGizmo` actor. -/
abbrev GizmoId := Nat

/-- Identity of an `AActor` object. The class test `Cast<ABaseGizmo>(Actor)` succeeds
exactly on the `gizmo` actors. -/
inductive ActorId where
  | scene (n : Nat)
  | gizmo (g : GizmoId)
deriving DecidableEq, Repr

/-- An `FName`. -/
abbrev FName := Nat

/-! ## Enumerations -/

/-- The enumeration `EGizmoPlacement` (TransformerActor.h). -/
inductive EGizmoPlacement where
  | GP_None
  | GP_OnFirstSelection
  | GP_OnLastSelection
deriving DecidableEq, Repr

/-- Modelled from the spec: `ETransformationType` is declared in `RuntimeTransformer.h`,
which is not part of the sources; the four enumerators are the ones the source names. -/
inductive ETransformationType where
  | TT_NoTransform
  | TT_Translation
  | TT_Rotation
  | TT_Scale
deriving DecidableEq, Repr

/-- Modelled from the spec: `ETransformationDomain` is declared in `RuntimeTransformer.h`,
which is not part of the sources. `TD_None` is the enumerator the source names; the
others are the domains the specification lists. -/
inductive ETransformationDomain where
  | TD_None
  | AxisX
  | AxisY
  | AxisZ
  | PlaneXY
  | PlaneYZ
  | PlaneZX
  | Uniform
deriving DecidableEq, Repr

/-- Modelled from the spec: `ESpaceType` is declared in `RuntimeTransformer.h`, which is
not part of the sources; the specification speaks of local and world space. -/
inductive ESpaceType where
  | ST_Local
  | ST_World
deriving DecidableEq, Repr

/-! ## Transforms -/

/-- An `FVector`. Scalars are rationals and `FVector.Add`, `FVector.Sub`, ... are exact; the
floating-point evaluation of the engine is modelled by the `Rounded` operations, which
round the result of every operation. -/
structure FVector where
  X : ℚ
  Y : ℚ
  Z : ℚ
deriving DecidableEq, Repr

/-- An `FQuat`. Scalars are rationals and `FQuat.Mul`, `FQuat.RotateVector`, ... are exact;
the floating-point evaluation is modelled by the `Rounded` operations. -/
structure FQuat where
  X : ℚ
  Y : ℚ
  Z : ℚ
  W : ℚ
deriving DecidableEq, Repr

/-- An `FTransform`: rotation, translation and 3D scale. -/
structure FTransform where
  Rotation : FQuat
  Translation : FVector
  Scale3D : FVector
deriving DecidableEq, Repr

/-- The constant `FVector::ZeroVector`. -/
def FVector.ZeroVector : FVector := ⟨0, 0, 0⟩

/-- The constant `FVector::OneVector`. -/
def FVector.OneVector : FVector := ⟨1, 1, 1⟩

/-- The constant `FQuat::Identity`. -/
def FQuat.Identity : FQuat := ⟨0, 0, 0, 1⟩

/-- The default constructor `FTransform()`: the identity transform. -/
def FTransform.Identity : FTransform := ⟨FQuat.Identity, FVector.ZeroVector, FVector.OneVector⟩

/-- The setter `FTransform::SetScale3D`. -/
def FTransform.SetScale3D (T : FTransform) (v : FVector) : FTransform :=
  { T with Scale3D := v }

/-- The sum of two vectors, `FVector::operator+`. -/
def FVector.Add (a b : FVector) : FVector := ⟨a.X + b.X, a.Y + b.Y, a.Z + b.Z⟩

/-- The difference of two vectors, `FVector::operator-`. -/
def FVector.Sub (a b : FVector) : FVector := ⟨a.X - b.X, a.Y - b.Y, a.Z - b.Z⟩

/-- The product of a scalar and a vector, `operator*`. -/
def FVector.Scale (k : ℚ) (a : FVector) : FVector := ⟨k * a.X, k * a.Y, k * a.Z⟩

/-- The cross product `FVector::CrossProduct`. -/
def FVector.CrossProduct (a b : FVector) : FVector :=
  ⟨a.Y * b.Z - a.Z * b.Y, a.Z * b.X - a.X * b.Z, a.X * b.Y - a.Y * b.X⟩

/-- The quaternion product `FQuat::operator*` (the Hamilton product; `A * B` applies `B`
first, then `A`). -/
def FQuat.Mul (A B : FQuat) : FQuat :=
  ⟨A.W * B.X + A.X * B.W + A.Y * B.Z - A.Z * B.Y,
   A.W * B.Y - A.X * B.Z + A.Y * B.W + A.Z * B.X,
   A.W * B.Z + A.X * B.Y - A.Y * B.X + A.Z * B.W,
   A.W * B.W - A.X * B.X - A.Y * B.Y - A.Z * B.Z⟩

/-- The engine's `FQuat::RotateVector`: with `Q` the vector part and `T = 2 (Q × V)`, the
result is `V + W T + Q × T`. -/
def FQuat.RotateVector (q : FQuat) (V : FVector) : FVector :=
  let Q : FVector := ⟨q.X, q.Y, q.Z⟩
  let TT : FVector := FVector.Scale 2 (FVector.CrossProduct Q V)
  FVector.Add (FVector.Add V (FVector.Scale q.W TT)) (FVector.CrossProduct Q TT)

/-- The engine's `FQuat::UnrotateVector`: the rotation by the inverse, computed with the
negated vector part. -/
def FQuat.UnrotateVector (q : FQuat) (V : FVector) : FVector :=
  let Q : FVector := ⟨-q.X, -q.Y, -q.Z⟩
  let TT : FVector := FVector.Scale 2 (FVector.CrossProduct Q V)
  FVector.Add (FVector.Add V (FVector.Scale q.W TT)) (FVector.CrossProduct Q TT)

/-- The enumeration `EComponentMobility::Type` of the engine. -/
inductive EComponentMobility where
  | Static
  | Stationary
  | Movable
deriving DecidableEq, Repr

/-- An `ECollisionChannel`. -/
abbrev ECollisionChannel := Nat

/-! ## Notifications -/

/-- The object on which an `IFocusableObject` callback is executed: the component itself
(component based) or its owner actor (actor based). -/
inductive UObject where
  | component (c : CompId)
  | actor (a : ActorId)
deriving DecidableEq, Repr

/-- The `UE_LOG` warnings of TransformerActor.cpp. -/
inductive LogMessage where
  | NotMoveable (c : CompId)
  | GizmoPlacementIsNone
  | TransformationTypeNone
  | CloningInNonAuthority
deriving DecidableEq, Repr

/-- The calls the transformer makes to its collaborators' hooks, in the order made:
the three `IFocusableObject` callbacks, the overridable `OnComponentSelectionChange`
event, the log, and the two snapping requests to the gizmo (`ABaseGizmo::GetSnappedTransform`
and `ABaseGizmo::GetSnappedTransformPerComponent`). -/
inductive Event where
  | Focus (obj : UObject) (Component : CompId) (bComponentBased : Bool)
  | Unfocus (obj : UObject) (Component : CompId) (bComponentBased : Bool)
  | OnNewTransformation (obj : UObject) (Component : CompId) (Transform : FTransform)
      (bComponentBased : Bool)
  | OnComponentSelectionChange (Component : Option CompId) (bSelected : Bool)
      (bImplementsUFocusable : Bool)
  | Log (msg : LogMessage)
  | GetSnappedTransform (Gizmo : GizmoId) (Domain : ETransformationDomain)
      (SnappingValue : ℚ)
  | GetSnappedTransformPerComponent (Gizmo : GizmoId) (Domain : ETransformationDomain)
      (SnappingValue : ℚ)
deriving DecidableEq, Repr

/-! ## Gizmo actors -/

/-- A gizmo class, identified by the transformation kind its instances report through
`GetGizmoType`. -/
inductive UClass where
  | ATranslationGizmo
  | ARotationGizmo
  | AScaleGizmo
deriving DecidableEq, Repr

/-- The `GetGizmoType` of the instances of a gizmo class. -/
def UClass.GetGizmoType : UClass → ETransformationType
  | .ATranslationGizmo => .TT_Translation
  | .ARotationGizmo => .TT_Rotation
  | .AScaleGizmo => .TT_Scale

/-- The state of one gizmo actor that the transformer drives through `ABaseGizmo` and
`AActor` calls. -/
structure ABaseGizmo where
  GizmoType : ETransformationType
  bHidden : Bool
  bTickEnabled : Bool
  bEnableCollision : Bool
  AttachParent : Option CompId
  AttachSocket : Option FName
  bTransformInProgress : Bool
  ProgressDomain : ETransformationDomain
  SpaceType : ESpaceType
deriving DecidableEq, Repr

/-- A freshly spawned gizmo actor of a class: visible, ticking, colliding, unattached. -/
def ABaseGizmo.Spawned (c : UClass) : ABaseGizmo :=
  { GizmoType := c.GetGizmoType, bHidden := false, bTickEnabled := true,
    bEnableCollision := true, AttachParent := none, AttachSocket := none,
    bTransformInProgress := false, ProgressDomain := .TD_None, SpaceType := .ST_World }

/-- The fields of an `FHitResult` that the transformer reads: `GetActor()` and
`GetComponent()`. -/
structure FHitResult where
  Actor : Option ActorId
  Component : Option CompId
deriving DecidableEq, Repr

/-- A player controller: it answers the deprojection of the mouse position with a world
location and direction, or fails. -/
structure APlayerController where
  DeprojectMousePositionToWorld : Option (FVector × FVector)

/-! ## The scene as the engine reports it -/

/-- The answers of the engine and of the overridable `ShouldSelect` that the member
functions read and never write. -/
structure World where
  /-- The owner, `USceneComponent::GetOwner`. -/
  GetOwner : CompId → Option ActorId
  /-- The root component, `AActor::GetRootComponent`. -/
  GetRootComponent : ActorId → Option CompId
  /-- The owned components, `AActor::GetComponents`. -/
  GetComponents : ActorId → List CompId
  /-- Whether `Component->Implements<UFocusableObject>()`. -/
  ComponentImplementsFocusable : CompId → Bool
  /-- Whether `Actor->Implements<UFocusableObject>()`. -/
  ActorImplementsFocusable : ActorId → Bool
  /-- The `BlueprintNativeEvent` `ShouldSelect(OwnerActor, Component)`; the default
  implementation returns true. -/
  ShouldSelect : Option ActorId → Option CompId → Bool
  /-- The lookup `ABaseGizmo::GetTransformationDomain(ComponentHit)` (Gizmos/BaseGizmo.h is not part of
  the sources): a pure lookup of the domain a gizmo sub-part is tagged with. -/
  GetTransformationDomain : GizmoId → CompId → ETransformationDomain
  /-- Whether `USceneComponent::DoesSocketExist`. -/
  DoesSocketExist : CompId → FName → Bool
  /-- The cast `static_cast<int32>(TransformationType)`: the ordinal of an enumerator of
  `ETransformationType`, whose declaration is not part of the sources. -/
  TransformationTypeIndex : ETransformationType → Nat
  /-- Whether `GetWorld()` returns a world. -/
  bHasWorld : Bool
  /-- The location `Gizmo->GetActorLocation()` of a gizmo actor, given its state and the
  world transforms of the components (it follows the component it is attached to). -/
  GetActorLocation : GizmoId → ABaseGizmo → (CompId → FTransform) → FVector
  /-- The gizmo's `GetDeltaTransform(LookingVector, RayStartPoint, RayEndPoint, Domain)`
  (Gizmos/BaseGizmo.h is not part of the sources), given its state and the world transforms
  of the components. -/
  GetDeltaTransform : GizmoId → ABaseGizmo → (CompId → FTransform) → FVector → FVector →
    FVector → ETransformationDomain → FTransform
  /-- The gizmo's `GetSnappedTransform(AccumulatedDeltaTransform, DeltaTransform, Domain,
  SnappingValue)` (not part of the sources): the snapped delta and the value it leaves in
  the accumulated transform, which it takes by reference. -/
  GetSnappedTransform : GizmoId → FTransform → FTransform → ETransformationDomain → ℚ →
    FTransform × FTransform
  /-- The gizmo's `GetSnappedTransformPerComponent(ComponentTransform, NewTransform, Domain,
  SnappingValue)` (not part of the sources). -/
  GetSnappedTransformPerComponent : GizmoId → FTransform → FTransform →
    ETransformationDomain → ℚ → FTransform
  /-- The player controller `UGameplayStatics::GetPlayerController(this, 0)`. -/
  GetPlayerController : Option APlayerController
  /-- The query `UWorld::LineTraceMultiByObjectType`: its return value and `OutHits`. -/
  LineTraceMultiByObjectType : FVector → FVector → List ECollisionChannel →
    List (Option ActorId) → Bool → Bool × List FHitResult
  /-- The query `UWorld::LineTraceMultiByChannel`: its return value and `OutHits`. -/
  LineTraceMultiByChannel : FVector → FVector → ECollisionChannel →
    List (Option ActorId) → Bool → Bool × List FHitResult
  /-- The query `UWorld::LineTraceMultiByProfile`: its return value and `OutHits`. -/
  LineTraceMultiByProfile : FVector → FVector → FName →
    List (Option ActorId) → Bool → Bool × List FHitResult

/-! ## The transformer actor -/

/-- The member variables of `ATransformerActor` (TransformerActor.h), followed by the
engine state its member functions write. -/
structure ATransformerActor where
  CurrentSpaceType : ESpaceType
  AccumulatedDeltaTransform : FTransform
  TranslationGizmoClass : Option UClass
  RotationGizmoClass : Option UClass
  ScaleGizmoClass : Option UClass
  /-- The active gizmo, `TWeakObjectPtr<ABaseGizmo> Gizmo`. -/
  Gizmo : Option GizmoId
  GizmoActorPool : List (Option GizmoId)
  CurrentDomain : ETransformationDomain
  GizmoPlacement : EGizmoPlacement
  CurrentTransformation : ETransformationType
  /-- The selection list, `TArray<USceneComponent*> SelectedComponents`. -/
  SelectedComponents : List (Option CompId)
  /-- The map `TMap<ETransformationType, float> SnappingValues`. -/
  SnappingValues : ETransformationType → Option ℚ
  /-- The map `TMap<ETransformationType, bool> SnappingEnabled`. -/
  SnappingEnabled : ETransformationType → Option Bool
  bForceMobility : Bool
  bRotateOnLocalAxis : Bool
  bTransformUFocusableObjects : Bool
  bToggleSelectedInMultiSelection : Bool
  bComponentBased : Bool
  /-- The socket name; `NAME_None` is `none`. -/
  AttachSocketName : Option FName
  /-- Engine state: the gizmo actors. -/
  GizmoActors : GizmoId → ABaseGizmo
  /-- Engine state: how many gizmo actors have been spawned. -/
  SpawnCount : Nat
  /-- Engine state: the actors on which `Destroy` has been called. -/
  DestroyedActors : List ActorId
  /-- Engine state: the components that were destroyed, on their own or with their actor. -/
  DestroyedComponents : List CompId
  /-- Engine state: the world transform `GetComponentTransform()` of each component. -/
  ComponentTransforms : CompId → FTransform
  /-- Engine state: the `Mobility` of each component. -/
  Mobility : CompId → EComponentMobility
  /-- Engine state: the attach parent `GetAttachParent()` of each component. -/
  AttachParents : CompId → Option CompId
  /-- Engine state: the identity that the next duplicated component object gets; the
  identities below it are in use. -/
  ComponentCount : Nat
  /-- The notifications sent so far, oldest first. -/
  EventLog : List Event

/-! ## `TArray` operations -/

/-- The constant `INDEX_NONE`. -/
def INDEX_NONE : Int := -1

/-- The search `TArray::Find`: the index of the first element equal to the item, or `INDEX_NONE`. -/
def TArray.Find {α : Type} [DecidableEq α] : List α → α → Int
  | [], _ => INDEX_NONE
  | y :: ys, x =>
    if y = x then 0
    else if TArray.Find ys x = INDEX_NONE then INDEX_NONE else TArray.Find ys x + 1

/-- The test `TArray::IsValidIndex`. -/
def TArray.IsValidIndex {α : Type} (l : List α) (Index : Int) : Bool :=
  decide (0 ≤ Index ∧ Index < l.length)

/-- The removal `TArray::RemoveAt` at a valid index. -/
def TArray.RemoveAt {α : Type} (l : List α) (Index : Int) : List α :=
  l.eraseIdx Index.toNat

/-- The resize `TArray::SetNum`: truncates, or pads with default (null) elements. -/
def TArray.SetNum {α : Type} (l : List (Option α)) (n : Nat) : List (Option α) :=
  l.take n ++ List.replicate (n - l.length) none

/-! ## Engine calls on the gizmo actors and on scene objects -/

/-- Applies an update to the engine state of one gizmo actor. -/
def ATransformerActor.OnGizmo (s : ATransformerActor) (g : GizmoId)
    (f : ABaseGizmo → ABaseGizmo) : ATransformerActor :=
  { s with GizmoActors := fun a => if a = g then f (s.GizmoActors a) else s.GizmoActors a }

/-- Appends a notification to the log. -/
def ATransformerActor.Emit (s : ATransformerActor) (e : Event) : ATransformerActor :=
  { s with EventLog := s.EventLog ++ [e] }

/-- The test `TWeakObjectPtr::IsValid` on a gizmo pointer: not null and not destroyed. -/
def ATransformerActor.IsValidGizmo (s : ATransformerActor) (p : Option GizmoId) : Bool :=
  match p with
  | some g => !(s.DestroyedActors.contains (ActorId.gizmo g))
  | none => false

/-- The global `IsValid(Component)`: not null and not destroyed. -/
def ATransformerActor.IsValidComponent (s : ATransformerActor) (c : Option CompId) : Bool :=
  match c with
  | some c => !(s.DestroyedComponents.contains c)
  | none => false

/-- The call `AActor::Destroy`: the actor and the components it owns are destroyed. -/
def ATransformerActor.DestroyActor (w : World) (s : ATransformerActor) (a : ActorId) :
    ATransformerActor :=
  { s with DestroyedActors := s.DestroyedActors ++ [a],
           DestroyedComponents := s.DestroyedComponents ++ w.GetComponents a }

/-- The call `UActorComponent::DestroyComponent`. -/
def ATransformerActor.DestroyComponent (s : ATransformerActor) (c : CompId) :
    ATransformerActor :=
  { s with DestroyedComponents := s.DestroyedComponents ++ [c] }

/-- The count `Actor->GetComponents().Num()`: the owned components not yet destroyed. -/
def ATransformerActor.NumComponents (w : World) (s : ATransformerActor) (a : ActorId) : Nat :=
  ((w.GetComponents a).filter (fun c => !(s.DestroyedComponents.contains c))).length

/-! ## Member functions of `ATransformerActor` -/

/-- Source: `ATransformerActor::GetUFocusable` (TransformerActor.cpp 47-62). -/
def GetUFocusable (w : World) (s : ATransformerActor) (Component : Option CompId) :
    Option UObject :=
  match Component with
  | none => none
  | some c =>
    if s.bComponentBased then
      if w.ComponentImplementsFocusable c then some (UObject.component c) else none
    else
      match w.GetOwner c with
      | some ComponentOwner =>
        if w.ActorImplementsFocusable ComponentOwner then some (UObject.actor ComponentOwner)
        else none
      | none => none

/-- Source: `ATransformerActor::Select` (TransformerActor.cpp 79-86); the second component
is the out-parameter `bImplementsUFocusable`. -/
def Select (w : World) (s : ATransformerActor) (Component : Option CompId) :
    ATransformerActor × Bool :=
  match GetUFocusable w s Component, Component with
  | some focusableObject, some c =>
    (s.Emit (Event.Focus focusableObject c s.bComponentBased), true)
  | some _, none => (s, true)
  | none, _ => (s, false)

/-- Source: `ATransformerActor::Deselect` (TransformerActor.cpp 88-95); the second
component is the out-parameter `bImplementsUFocusable`. -/
def Deselect (w : World) (s : ATransformerActor) (Component : Option CompId) :
    ATransformerActor × Bool :=
  match GetUFocusable w s Component, Component with
  | some focusableObject, some c =>
    (s.Emit (Event.Unfocus focusableObject c s.bComponentBased), true)
  | some _, none => (s, true)
  | none, _ => (s, false)

/-- The event `OnComponentSelectionChange` (TransformerActor.h 286-300), recorded as a call to
the overridable hook. -/
def OnComponentSelectionChange (s : ATransformerActor) (Component : Option CompId)
    (bSelected bImplementsUFocusable : Bool) : ATransformerActor :=
  s.Emit (Event.OnComponentSelectionChange Component bSelected bImplementsUFocusable)

/-- Source: `ATransformerActor::ResetDeltaTransform` (TransformerActor.cpp 148-152). -/
def ResetDeltaTransform : FTransform :=
  FTransform.Identity.SetScale3D FVector.ZeroVector

/-- Source: `ATransformerActor::SetDomain` (TransformerActor.cpp 154-162). -/
def SetDomain (s : ATransformerActor) (Domain : ETransformationDomain) : ATransformerActor :=
  let s := { s with CurrentDomain := Domain }
  match s.Gizmo with
  | some g =>
    if s.IsValidGizmo (some g) then
      s.OnGizmo g (fun z => { z with
        bTransformInProgress := decide (s.CurrentDomain ≠ ETransformationDomain.TD_None),
        ProgressDomain := s.CurrentDomain })
    else s
  | none => s

/-- Source: `ATransformerActor::ClearDomain` (TransformerActor.cpp 114-119). -/
def ClearDomain (s : ATransformerActor) : ATransformerActor :=
  let s := { s with AccumulatedDeltaTransform := ResetDeltaTransform }
  SetDomain s ETransformationDomain.TD_None

/-- Source: `ATransformerActor::GetGizmoClass` (TransformerActor.cpp 136-146). -/
def GetGizmoClass (s : ATransformerActor) (TransformationType : ETransformationType) :
    Option UClass :=
  match TransformationType with
  | .TT_Translation => s.TranslationGizmoClass
  | .TT_Rotation => s.RotationGizmoClass
  | .TT_Scale => s.ScaleGizmoClass
  | _ => none

/-- Source: `ATransformerActor::CreateGizmo` (TransformerActor.cpp 895-907). The engine's
`SpawnActor` is taken to succeed with a new gizmo actor of the class. -/
def CreateGizmo (w : World) (s : ATransformerActor) (transformationType : ETransformationType) :
    ATransformerActor × Option GizmoId :=
  if w.bHasWorld then
    match GetGizmoClass s transformationType with
    | some GizmoClass =>
      let g : GizmoId := s.SpawnCount
      let s := { s with SpawnCount := s.SpawnCount + 1 }
      let s := s.OnGizmo g (fun _ => ABaseGizmo.Spawned GizmoClass)
      (s, some g)
    | none => (s, none)
  else (s, none)

/-- Source: `ATransformerActor::ResetGizmo` (TransformerActor.cpp 954-964). -/
def ResetGizmo (s : ATransformerActor) : ATransformerActor :=
  match s.Gizmo with
  | some g =>
    if s.IsValidGizmo (some g) then
      let s := s.OnGizmo g (fun z => { z with AttachParent := none, AttachSocket := none })
      let s := s.OnGizmo g (fun z => { z with bHidden := true })
      let s := s.OnGizmo g (fun z => { z with bTickEnabled := false })
      let s := s.OnGizmo g (fun z => { z with bEnableCollision := false })
      { s with Gizmo := none }
    else s
  | none => s

/-- The `else` branch of the pool lookup in `SetGizmo` (TransformerActor.cpp 939-944): a
gizmo is created and stored in the pool slot of the current kind. -/
def SetGizmo.Create (w : World) (s : ATransformerActor) (index : Nat) : ATransformerActor :=
  let r := CreateGizmo w s s.CurrentTransformation
  let s := { r.1 with Gizmo := r.2 }
  let s := { s with GizmoActorPool := TArray.SetNum s.GizmoActorPool (index + 1) }
  { s with GizmoActorPool := s.GizmoActorPool.set index s.Gizmo }

/-- The block `if (bCreateGizmo)` of `SetGizmo` (TransformerActor.cpp 929-945). -/
def SetGizmo.Acquire (w : World) (s : ATransformerActor) : ATransformerActor :=
  let index : Nat := w.TransformationTypeIndex s.CurrentTransformation
  match s.GizmoActorPool.get? index with
  | some (some g) =>
    if s.IsValidGizmo (some g) then
      let s := { s with Gizmo := some g }
      let s := s.OnGizmo g (fun z => { z with bHidden := false })
      let s := s.OnGizmo g (fun z => { z with bTickEnabled := true })
      s.OnGizmo g (fun z => { z with bEnableCollision := true })
    else SetGizmo.Create w s index
  | _ => SetGizmo.Create w s index

/-- Source: `ATransformerActor::SetGizmo` (TransformerActor.cpp 909-952). The local
`bCreateGizmo` stays true, and the block it guards runs, on every path but the one that
finds a valid gizmo of the current kind. -/
def SetGizmo (w : World) (s : ATransformerActor) : ATransformerActor :=
  if s.SelectedComponents.length > 0 then
    match s.Gizmo with
    | some g =>
      if s.IsValidGizmo (some g) then
        if s.CurrentTransformation = (s.GizmoActors g).GizmoType then s
        else SetGizmo.Acquire w (ResetGizmo s)
      else SetGizmo.Acquire w s
    | none => SetGizmo.Acquire w s
  else
    ResetGizmo s

/-- The `switch (GizmoPlacement)` of `UpdateGizmoPlacement` (TransformerActor.cpp 974-983); the
second component is `ComponentToAttachTo`. When the gizmo is valid the selection is not
empty (`SetGizmo` has just reset the gizmo otherwise), so `SelectedComponents[0]` and
`Last()` are in range. -/
def UpdateGizmoPlacement.Switch (s : ATransformerActor) : ATransformerActor × Option CompId :=
  match s.GizmoPlacement with
  | .GP_OnFirstSelection => (s, s.SelectedComponents.headD none)
  | .GP_OnLastSelection => (s, s.SelectedComponents.getLastD none)
  | .GP_None =>
    (s.Emit (Event.Log LogMessage.GizmoPlacementIsNone), s.SelectedComponents.getLastD none)

/-- The attachment step of `UpdateGizmoPlacement` (TransformerActor.cpp 985-993). -/
def UpdateGizmoPlacement.Attach (w : World) (s : ATransformerActor) (g : GizmoId)
    (ComponentToAttachTo : Option CompId) : ATransformerActor :=
  match ComponentToAttachTo with
  | some c =>
    let socketToAttach : Option FName :=
      match s.AttachSocketName with
      | some n => if w.DoesSocketExist c n then some n else none
      | none => none
    s.OnGizmo g (fun z => { z with AttachParent := some c, AttachSocket := socketToAttach })
  | none => s

/-- Source: `ATransformerActor::UpdateGizmoPlacement` (TransformerActor.cpp 966-996). -/
def UpdateGizmoPlacement (w : World) (s : ATransformerActor) : ATransformerActor :=
  let s := SetGizmo w s
  match s.Gizmo with
  | none => s
  | some g =>
    if !(s.IsValidGizmo (some g)) then s
    else
      let r := UpdateGizmoPlacement.Switch s
      let s := UpdateGizmoPlacement.Attach w r.1 g r.2
      s.OnGizmo g (fun z => { z with SpaceType := s.CurrentSpaceType })

/-- Source: `ATransformerActor::SetSpaceType` (TransformerActor.cpp 102-106). -/
def SetSpaceType (w : World) (s : ATransformerActor) (SpaceType : ESpaceType) :
    ATransformerActor :=
  SetGizmo w { s with CurrentSpaceType := SpaceType }

/-- Source: `ATransformerActor::SetTransformationType` (TransformerActor.cpp 521-538). -/
def SetTransformationType (w : World) (s : ATransformerActor)
    (TransformationType : ETransformationType) : ATransformerActor :=
  if s.CurrentTransformation = TransformationType then s
  else
    let s :=
      if TransformationType = ETransformationType.TT_NoTransform then
        s.Emit (Event.Log LogMessage.TransformationTypeNone)
      else s
    let s := { s with CurrentTransformation := TransformationType }
    let s := { s with AccumulatedDeltaTransform := ResetDeltaTransform }
    UpdateGizmoPlacement w s

/-! ### Selection -/

/-- Source: `ATransformerActor::DeselectComponentAtIndex_Internal` (TransformerActor.cpp
879-893), on the list `SelectedComponents`, the only list it is called with. -/
def DeselectComponentAtIndex_Internal (w : World) (s : ATransformerActor) (Index : Int) :
    ATransformerActor :=
  if TArray.IsValidIndex s.SelectedComponents Index then
    let Component : Option CompId := (s.SelectedComponents.get? Index.toNat).join
    let r := Deselect w s Component
    let s := { r.1 with SelectedComponents := TArray.RemoveAt r.1.SelectedComponents Index }
    OnComponentSelectionChange s Component false r.2
  else s

/-- Source: `ATransformerActor::AddComponent_Internal` (TransformerActor.cpp 851-867), on the
list `SelectedComponents`, the only list it is called with. -/
def AddComponent_Internal (w : World) (s : ATransformerActor) (Component : Option CompId) :
    ATransformerActor :=
  let Index : Int := TArray.Find s.SelectedComponents Component
  if INDEX_NONE = Index then
    let s := { s with SelectedComponents := s.SelectedComponents ++ [Component] }
    let r := Select w s (s.SelectedComponents.getLastD none)
    OnComponentSelectionChange r.1 Component true r.2
  else if s.bToggleSelectedInMultiSelection then
    DeselectComponentAtIndex_Internal w s Index
  else s

/-- Source: `ATransformerActor::DeselectComponent_Internal` (TransformerActor.cpp 869-877),
on the list `SelectedComponents`, the only list it is called with. -/
def DeselectComponent_Internal (w : World) (s : ATransformerActor) (Component : Option CompId) :
    ATransformerActor :=
  let Index : Int := TArray.Find s.SelectedComponents Component
  if INDEX_NONE ≠ Index then DeselectComponentAtIndex_Internal w s Index else s

/-- Source: `ATransformerActor::DeselectComponent` (TransformerActor.cpp 810-815). -/
def DeselectComponent (w : World) (s : ATransformerActor) (Component : Option CompId) :
    ATransformerActor :=
  match Component with
  | none => s
  | some c =>
    let s := DeselectComponent_Internal w s (some c)
    UpdateGizmoPlacement w s

/-- Source: `ATransformerActor::DeselectActor` (TransformerActor.cpp 817-821). -/
def DeselectActor (w : World) (s : ATransformerActor) (Actor : Option ActorId) :
    ATransformerActor :=
  match Actor with
  | some a => DeselectComponent w s (w.GetRootComponent a)
  | none => s

/-- One iteration of the destroy loop of `DeselectAll` (TransformerActor.cpp 834-845). -/
def DestroyDeselected (w : World) (s : ATransformerActor) (c : Option CompId) :
    ATransformerActor :=
  match c with
  | none => s
  | some c' =>
    if !(s.IsValidComponent (some c')) then s
    else
      match w.GetOwner c' with
      | some actor =>
        if s.bComponentBased && decide (s.NumComponents w actor > 1) then s.DestroyComponent c'
        else s.DestroyActor w actor
      | none => s

/-- Source: `ATransformerActor::DeselectAll` (TransformerActor.cpp 823-849); the second
component is the returned array. -/
def DeselectAll (w : World) (s : ATransformerActor) (bDestroyDeselected : Bool) :
    ATransformerActor × List (Option CompId) :=
  let componentsToDeselect := s.SelectedComponents
  let s := componentsToDeselect.foldl (fun s i => DeselectComponent w s i) s
  let s := { s with SelectedComponents := [] }
  let s := UpdateGizmoPlacement w s
  let s := if bDestroyDeselected then componentsToDeselect.foldl (DestroyDeselected w) s else s
  (s, componentsToDeselect)

/-- Source: `ATransformerActor::SelectComponent` (TransformerActor.cpp 736-749). -/
def SelectComponent (w : World) (s : ATransformerActor) (Component : Option CompId)
    (bAppendToList : Bool) : ATransformerActor :=
  match Component with
  | none => s
  | some c =>
    if w.ShouldSelect (w.GetOwner c) (some c) then
      let s := if bAppendToList = false then (DeselectAll w s false).1 else s
      let s := AddComponent_Internal w s (some c)
      UpdateGizmoPlacement w s
    else s

/-- Source: `ATransformerActor::SelectActor` (TransformerActor.cpp 751-763). -/
def SelectActor (w : World) (s : ATransformerActor) (Actor : Option ActorId)
    (bAppendToList : Bool) : ATransformerActor :=
  match Actor with
  | none => s
  | some a =>
    if w.ShouldSelect (some a) (w.GetRootComponent a) then
      let s := if false = bAppendToList then (DeselectAll w s false).1 else s
      let s := AddComponent_Internal w s (w.GetRootComponent a)
      UpdateGizmoPlacement w s
    else s

/-- The loop of `SelectMultipleComponents` (TransformerActor.cpp 770-783), carrying the
locals `bAppendToList` and `bValidList`. -/
def SelectMultipleComponents.Loop (w : World) :
    List (Option CompId) → ATransformerActor → Bool → Bool → ATransformerActor × Bool
  | [], s, _, bValidList => (s, bValidList)
  | none :: cs, s, bAppendToList, bValidList =>
    SelectMultipleComponents.Loop w cs s bAppendToList bValidList
  | some c :: cs, s, bAppendToList, bValidList =>
    if !(w.ShouldSelect (w.GetOwner c) (some c)) then
      SelectMultipleComponents.Loop w cs s bAppendToList bValidList
    else
      let s := if false = bAppendToList then (DeselectAll w s false).1 else s
      let s := AddComponent_Internal w s (some c)
      SelectMultipleComponents.Loop w cs s true true

/-- Source: `ATransformerActor::SelectMultipleComponents` (TransformerActor.cpp 765-786). -/
def SelectMultipleComponents (w : World) (s : ATransformerActor)
    (Components : List (Option CompId)) (bAppendToList : Bool) : ATransformerActor :=
  let r := SelectMultipleComponents.Loop w Components s bAppendToList false
  if r.2 then UpdateGizmoPlacement w r.1 else r.1

/-- The loop of `SelectMultipleActors` (TransformerActor.cpp 792-806), carrying the locals
`bAppendToList` and `bValidList`. -/
def SelectMultipleActors.Loop (w : World) :
    List (Option ActorId) → ATransformerActor → Bool → Bool → ATransformerActor × Bool
  | [], s, _, bValidList => (s, bValidList)
  | none :: as, s, bAppendToList, bValidList =>
    SelectMultipleActors.Loop w as s bAppendToList bValidList
  | some a :: as, s, bAppendToList, bValidList =>
    if !(w.ShouldSelect (some a) (w.GetRootComponent a)) then
      SelectMultipleActors.Loop w as s bAppendToList bValidList
    else
      let s := if false = bAppendToList then (DeselectAll w s false).1 else s
      let s := AddComponent_Internal w s (w.GetRootComponent a)
      SelectMultipleActors.Loop w as s true true

/-- Source: `ATransformerActor::SelectMultipleActors` (TransformerActor.cpp 788-808). -/
def SelectMultipleActors (w : World) (s : ATransformerActor)
    (Actors : List (Option ActorId)) (bAppendToList : Bool) : ATransformerActor :=
  let r := SelectMultipleActors.Loop w Actors s bAppendToList false
  if r.2 then UpdateGizmoPlacement w r.1 else r.1

/-! ### Traces and the mode switch -/

/-- The first loop of `HandleTracedObjects` (TransformerActor.cpp 466-481), entered when
`Gizmo` is the valid gizmo `g`; the second component is true when the loop returned true
from the function. -/
def HandleTracedObjects.GizmoLoop (w : World) (g : GizmoId) :
    List FHitResult → ATransformerActor → ATransformerActor × Bool
  | [], s => (s, false)
  | hitResult :: rest, s =>
    if hitResult.Actor = some (ActorId.gizmo g) then
      match hitResult.Component with
      | some componentHit =>
        let s := SetDomain s (w.GetTransformationDomain g componentHit)
        if s.CurrentDomain ≠ ETransformationDomain.TD_None then
          (s.OnGizmo g (fun z => { z with bTransformInProgress := true,
                                          ProgressDomain := s.CurrentDomain }), true)
        else HandleTracedObjects.GizmoLoop w g rest s
      | none => HandleTracedObjects.GizmoLoop w g rest s
    else HandleTracedObjects.GizmoLoop w g rest s

/-- The second loop of `HandleTracedObjects` (TransformerActor.cpp 484-497) with its
return value. -/
def HandleTracedObjects.SelectLoop (w : World) (bAppendToList : Bool) :
    List FHitResult → ATransformerActor → ATransformerActor × Bool
  | [], s => (s, false)
  | hits :: rest, s =>
    match hits.Actor with
    | some (ActorId.gizmo _) => HandleTracedObjects.SelectLoop w bAppendToList rest s
    | _ =>
      if s.bComponentBased then (SelectComponent w s hits.Component bAppendToList, true)
      else (SelectActor w s hits.Actor bAppendToList, true)

/-- Source: `ATransformerActor::HandleTracedObjects` (TransformerActor.cpp 458-498); the second
component is the returned bool. -/
def HandleTracedObjects (w : World) (s : ATransformerActor) (HitResults : List FHitResult)
    (bAppendToList : Bool) : ATransformerActor × Bool :=
  let s := ClearDomain s
  let r : ATransformerActor × Bool :=
    match s.Gizmo with
    | some g =>
      if s.IsValidGizmo (some g) then HandleTracedObjects.GizmoLoop w g HitResults s
      else (s, false)
    | none => (s, false)
  if r.2 then (r.1, true)
  else HandleTracedObjects.SelectLoop w bAppendToList HitResults r.1

/-- The loop `actors.Add(c->GetOwner())` of `SetComponentBased` (TransformerActor.cpp 508-510);
`none` when a null entry is dereferenced. -/
def SetComponentBased.Owners (w : World) : List (Option CompId) → Option (List (Option ActorId))
  | [] => some []
  | none :: _ => none
  | some c :: cs =>
    match SetComponentBased.Owners w cs with
    | some actors => some (w.GetOwner c :: actors)
    | none => none

/-- Source: `ATransformerActor::SetComponentBased` (TransformerActor.cpp 500-514); `none` when
the function dereferences a null pointer. -/
def SetComponentBased (w : World) (s : ATransformerActor) (bIsComponentBased : Bool) :
    Option ATransformerActor :=
  let r := DeselectAll w s false
  let selectedComponents := r.2
  let s := { r.1 with bComponentBased := bIsComponentBased }
  if s.bComponentBased then
    some (SelectMultipleComponents w s selectedComponents false)
  else
    match SetComponentBased.Owners w selectedComponents with
    | some actors => some (SelectMultipleActors w s actors false)
    | none => none

/-- Source: the constructor `ATransformerActor::ATransformerActor` (TransformerActor.cpp 22-45):
the member values when it returns. Its two setter calls change nothing, as the kind is
already the current one and, with nothing selected, `SetGizmo` finds no gizmo to reset. -/
def ATransformerActor.Constructed : ATransformerActor :=
  { CurrentSpaceType := ESpaceType.ST_World
    AccumulatedDeltaTransform := ResetDeltaTransform
    TranslationGizmoClass := some UClass.ATranslationGizmo
    RotationGizmoClass := some UClass.ARotationGizmo
    ScaleGizmoClass := some UClass.AScaleGizmo
    Gizmo := none
    GizmoActorPool := []
    CurrentDomain := ETransformationDomain.TD_None
    GizmoPlacement := EGizmoPlacement.GP_OnLastSelection
    CurrentTransformation := ETransformationType.TT_Translation
    SelectedComponents := []
    SnappingValues := fun _ => none
    SnappingEnabled := fun _ => none
    bForceMobility := false
    bRotateOnLocalAxis := false
    bTransformUFocusableObjects := true
    bToggleSelectedInMultiSelection := true
    bComponentBased := false
    AttachSocketName := none
    GizmoActors := fun _ => ABaseGizmo.Spawned UClass.ATranslationGizmo
    SpawnCount := 0
    DestroyedActors := []
    DestroyedComponents := []
    ComponentTransforms := fun _ => FTransform.Identity
    Mobility := fun _ => EComponentMobility.Movable
    AttachParents := fun _ => none
    ComponentCount := 0
    EventLog := [] }

/-! ### Transforming the selection -/

/-- The call `USceneComponent::SetWorldTransform`: the component's world transform becomes
the given one. Each component's world transform is kept on its own. -/
def ATransformerActor.SetWorldTransform (s : ATransformerActor) (c : CompId)
    (Transform : FTransform) : ATransformerActor :=
  { s with ComponentTransforms := fun x => if x = c then Transform else s.ComponentTransforms x }

/-- The call `USceneComponent::SetMobility`. -/
def ATransformerActor.SetMobility (s : ATransformerActor) (c : CompId)
    (NewMobility : EComponentMobility) : ATransformerActor :=
  { s with Mobility := fun x => if x = c then NewMobility else s.Mobility x }

/-- Source: `ATransformerActor::SetTransform` (TransformerActor.cpp 64-77). -/
def SetTransform (w : World) (s : ATransformerActor) (Component : Option CompId)
    (Transform : FTransform) : ATransformerActor :=
  match Component with
  | none => s
  | some c =>
    match GetUFocusable w s (some c) with
    | some focusableObject =>
      let s := s.Emit (Event.OnNewTransformation focusableObject c Transform s.bComponentBased)
      if s.bTransformUFocusableObjects then s.SetWorldTransform c Transform else s
    | none => s.SetWorldTransform c Transform

/-- The two lookups `SnappingEnabled.Find(CurrentTransformation)` and
`SnappingValues.Find(CurrentTransformation)` with the test
`snappingEnabled && *snappingEnabled && snappingValue` (TransformerActor.cpp 396-399 and
410-411, 443): the value `*snappingValue` when the test holds. -/
def ATransformerActor.ActiveSnappingValue (s : ATransformerActor) : Option ℚ :=
  match s.SnappingEnabled s.CurrentTransformation, s.SnappingValues s.CurrentTransformation with
  | some true, some snappingValue => some snappingValue
  | _, _ => none

/-- The transform `newTransform` that `ApplyDeltaTransform` computes for one component
(TransformerActor.cpp 418-439), from the delta, the component's transform, the gizmo's
location and `bRotateOnLocalAxis`. -/
def ApplyDeltaTransform.NewTransform (DeltaTransform componentTransform : FTransform)
    (GizmoLocation : FVector) (bRotateOnLocalAxis : Bool) : FTransform :=
  let deltaRotation : FQuat := DeltaTransform.Rotation
  let deltaLocation : FVector := FVector.Sub componentTransform.Translation GizmoLocation
  let deltaScale : FVector := componentTransform.Rotation.UnrotateVector DeltaTransform.Scale3D
  let deltaLocation : FVector :=
    if false = bRotateOnLocalAxis then deltaRotation.RotateVector deltaLocation
    else deltaLocation
  ⟨FQuat.Mul deltaRotation componentTransform.Rotation,
   FVector.Add (FVector.Add deltaLocation GizmoLocation) DeltaTransform.Translation,
   FVector.Add deltaScale componentTransform.Scale3D⟩

/-- One iteration of the loop of `ApplyDeltaTransform` (TransformerActor.cpp 415-454);
`snapping` is the result of the lookups made before the loop. The result is `none` when
`Gizmo->GetActorLocation()` dereferences a gizmo pointer that is not valid. -/
def ApplyDeltaTransform.Step (w : World) (DeltaTransform : FTransform) (snapping : Option ℚ)
    (s : ATransformerActor) (sc : Option CompId) : Option ATransformerActor :=
  match sc with
  | none => some s
  | some c =>
    if s.bForceMobility || decide (s.Mobility c = EComponentMobility.Movable) then
      match s.Gizmo with
      | some g =>
        if s.IsValidGizmo (some g) then
          let componentTransform : FTransform := s.ComponentTransforms c
          let GizmoLocation : FVector :=
            w.GetActorLocation g (s.GizmoActors g) s.ComponentTransforms
          let newTransform : FTransform :=
            ApplyDeltaTransform.NewTransform DeltaTransform componentTransform GizmoLocation
              s.bRotateOnLocalAxis
          let r : ATransformerActor × FTransform :=
            match snapping with
            | some snappingValue =>
              (s.Emit (Event.GetSnappedTransformPerComponent g s.CurrentDomain snappingValue),
               w.GetSnappedTransformPerComponent g componentTransform newTransform
                 s.CurrentDomain snappingValue)
            | none => (s, newTransform)
          let s := r.1.SetMobility c EComponentMobility.Movable
          some (SetTransform w s (some c) r.2)
        else none
      | none => none
    else some (s.Emit (Event.Log (LogMessage.NotMoveable c)))

/-- The loop `for (auto& sc : SelectedComponents)` of `ApplyDeltaTransform`. -/
def ApplyDeltaTransform.Loop (w : World) (DeltaTransform : FTransform) (snapping : Option ℚ) :
    List (Option CompId) → ATransformerActor → Option ATransformerActor
  | [], s => some s
  | sc :: rest, s =>
    match ApplyDeltaTransform.Step w DeltaTransform snapping s sc with
    | some t => ApplyDeltaTransform.Loop w DeltaTransform snapping rest t
    | none => none

/-- Source: `ATransformerActor::ApplyDeltaTransform` (TransformerActor.cpp 408-456); `none`
when the function dereferences a null pointer. -/
def ApplyDeltaTransform (w : World) (s : ATransformerActor) (DeltaTransform : FTransform) :
    Option ATransformerActor :=
  ApplyDeltaTransform.Loop w DeltaTransform s.ActiveSnappingValue s.SelectedComponents s

/-- Source: `ATransformerActor::UpdateTransform` (TransformerActor.cpp 378-406); the second
component is the returned transform, and the result is `none` when a null pointer is
dereferenced. -/
def UpdateTransform (w : World) (s : ATransformerActor)
    (LookingVector RayOrigin RayDirection : FVector) : Option (ATransformerActor × FTransform) :=
  let deltaTransform : FTransform := FTransform.Identity.SetScale3D FVector.ZeroVector
  match s.Gizmo with
  | none => some (s, deltaTransform)
  | some g =>
    if !(s.IsValidGizmo (some g)) || decide (s.CurrentDomain = ETransformationDomain.TD_None)
    then some (s, deltaTransform)
    else
      let rayEnd : FVector := FVector.Add RayOrigin (FVector.Scale 100000000 RayDirection)
      let calcDeltaTransform : FTransform :=
        w.GetDeltaTransform g (s.GizmoActors g) s.ComponentTransforms LookingVector RayOrigin
          rayEnd s.CurrentDomain
      let r : ATransformerActor × FTransform :=
        match s.ActiveSnappingValue with
        | some snappingValue =>
          let snapped := w.GetSnappedTransform g s.AccumulatedDeltaTransform calcDeltaTransform
            s.CurrentDomain snappingValue
          ({ s.Emit (Event.GetSnappedTransform g s.CurrentDomain snappingValue) with
             AccumulatedDeltaTransform := snapped.2 }, snapped.1)
        | none => (s, calcDeltaTransform)
      match ApplyDeltaTransform w r.1 r.2 with
      | some t => some (t, r.2)
      | none => none

/-- Source: `ATransformerActor::GetCurrentDomain` (TransformerActor.cpp 108-112): the out
parameter `TransformInProgress` and the returned domain. -/
def GetCurrentDomain (s : ATransformerActor) : Bool × ETransformationDomain :=
  (decide (s.CurrentDomain ≠ ETransformationDomain.TD_None), s.CurrentDomain)

/-- Source: `ATransformerActor::SetRotateOnLocalAxis` (TransformerActor.cpp 516-519). -/
def SetRotateOnLocalAxis (s : ATransformerActor) (bRotateLocalAxis : Bool) : ATransformerActor :=
  { s with bRotateOnLocalAxis := bRotateLocalAxis }

/-- Source: `ATransformerActor::SetSnappingEnabled` (TransformerActor.cpp 540-543). -/
def SetSnappingEnabled (s : ATransformerActor) (TransformationType : ETransformationType)
    (bSnappingEnabled : Bool) : ATransformerActor :=
  { s with SnappingEnabled := fun t =>
      if t = TransformationType then some bSnappingEnabled else s.SnappingEnabled t }

/-- Source: `ATransformerActor::SetSnappingValue` (TransformerActor.cpp 545-548). -/
def SetSnappingValue (s : ATransformerActor) (TransformationType : ETransformationType)
    (SnappingValue : ℚ) : ATransformerActor :=
  { s with SnappingValues := fun t =>
      if t = TransformationType then some SnappingValue else s.SnappingValues t }

/-! ### Mouse and line traces -/

/-- Source: `ATransformerActor::FilterHits` (TransformerActor.cpp 97-100): the body is empty. -/
def FilterHits (outHits : List FHitResult) : List FHitResult := outHits

/-- Source: `ATransformerActor::CalculateMouseWorldPosition` (TransformerActor.cpp 121-134):
the start and end point when it returns true, `none` when it returns false. -/
def CalculateMouseWorldPosition (w : World) (TraceDistance : ℚ) : Option (FVector × FVector) :=
  match w.GetPlayerController with
  | some PlayerController =>
    match PlayerController.DeprojectMousePositionToWorld with
    | some (worldLocation, worldDirection) =>
      some (worldLocation, FVector.Add worldLocation (FVector.Scale TraceDistance worldDirection))
    | none => none
  | none => none

/-- Source: `ATransformerActor::TraceByObjectTypes` (TransformerActor.cpp 205-233). -/
def TraceByObjectTypes (w : World) (s : ATransformerActor) (StartLocation EndLocation : FVector)
    (CollisionChannels : List ECollisionChannel) (IgnoredActors : List (Option ActorId))
    (bAppendToList bTraceComplex : Bool) : ATransformerActor × Bool :=
  if w.bHasWorld then
    let r := w.LineTraceMultiByObjectType StartLocation EndLocation CollisionChannels
      IgnoredActors bTraceComplex
    if r.1 then HandleTracedObjects w s (FilterHits r.2) bAppendToList else (s, false)
  else (s, false)

/-- Source: `ATransformerActor::TraceByChannel` (TransformerActor.cpp 235-259). -/
def TraceByChannel (w : World) (s : ATransformerActor) (StartLocation EndLocation : FVector)
    (TraceChannel : ECollisionChannel) (IgnoredActors : List (Option ActorId))
    (bAppendToList bTraceComplex : Bool) : ATransformerActor × Bool :=
  if w.bHasWorld then
    let r := w.LineTraceMultiByChannel StartLocation EndLocation TraceChannel
      IgnoredActors bTraceComplex
    if r.1 then HandleTracedObjects w s (FilterHits r.2) bAppendToList else (s, false)
  else (s, false)

/-- Source: `ATransformerActor::TraceByProfile` (TransformerActor.cpp 261-282). -/
def TraceByProfile (w : World) (s : ATransformerActor) (StartLocation EndLocation : FVector)
    (ProfileName : FName) (IgnoredActors : List (Option ActorId))
    (bAppendToList bTraceComplex : Bool) : ATransformerActor × Bool :=
  if w.bHasWorld then
    let r := w.LineTraceMultiByProfile StartLocation EndLocation ProfileName
      IgnoredActors bTraceComplex
    if r.1 then HandleTracedObjects w s (FilterHits r.2) bAppendToList else (s, false)
  else (s, false)

/-- Source: `ATransformerActor::MouseTraceByObjectTypes` (TransformerActor.cpp 164-175). -/
def MouseTraceByObjectTypes (w : World) (s : ATransformerActor) (TraceDistance : ℚ)
    (CollisionChannels : List ECollisionChannel) (IgnoredActors : List (Option ActorId))
    (bAppendToList bTraceComplex : Bool) : ATransformerActor × Bool :=
  match CalculateMouseWorldPosition w TraceDistance with
  | some (start, stop) =>
    let r := TraceByObjectTypes w s start stop CollisionChannels IgnoredActors bAppendToList
      bTraceComplex
    let bTraceSuccessful : Bool := r.2
    (r.1, bTraceSuccessful)
  | none => (s, false)

/-- Source: `ATransformerActor::MouseTraceByChannel` (TransformerActor.cpp 177-188). The
function ends with `return false;`, not with `return bTraceSuccessful;`. -/
def MouseTraceByChannel (w : World) (s : ATransformerActor) (TraceDistance : ℚ)
    (TraceChannel : ECollisionChannel) (IgnoredActors : List (Option ActorId))
    (bAppendToList bTraceComplex : Bool) : ATransformerActor × Bool :=
  match CalculateMouseWorldPosition w TraceDistance with
  | some (start, stop) =>
    let r := TraceByChannel w s start stop TraceChannel IgnoredActors bAppendToList
      bTraceComplex
    (r.1, false)
  | none => (s, false)

/-- Source: `ATransformerActor::MouseTraceByProfile` (TransformerActor.cpp 190-203). -/
def MouseTraceByProfile (w : World) (s : ATransformerActor) (TraceDistance : ℚ)
    (ProfileName : FName) (IgnoredActors : List (Option ActorId))
    (bAppendToList bTraceComplex : Bool) : ATransformerActor × Bool :=
  match CalculateMouseWorldPosition w TraceDistance with
  | some (start, stop) =>
    let r := TraceByProfile w s start stop ProfileName IgnoredActors bAppendToList
      bTraceComplex
    let bTraceSuccessful : Bool := r.2
    (r.1, bTraceSuccessful)
  | none => (s, false)

/-! ### Sequences of public selection calls -/

/-- A call of one of the public select / deselect functions, with its arguments. -/
inductive SelectionCall where
  | SelectComponent (Component : Option CompId) (bAppendToList : Bool)
  | SelectActor (Actor : Option ActorId) (bAppendToList : Bool)
  | SelectMultipleComponents (Components : List (Option CompId)) (bAppendToList : Bool)
  | SelectMultipleActors (Actors : List (Option ActorId)) (bAppendToList : Bool)
  | DeselectComponent (Component : Option CompId)
  | DeselectActor (Actor : Option ActorId)
  | DeselectAll (bDestroyDeselected : Bool)
deriving DecidableEq, Repr

/-- Executes one public selection call. -/
def SelectionCall.Run (w : World) (s : ATransformerActor) : SelectionCall → ATransformerActor
  | .SelectComponent c b => RuntimeTransformer.SelectComponent w s c b
  | .SelectActor a b => RuntimeTransformer.SelectActor w s a b
  | .SelectMultipleComponents cs b => RuntimeTransformer.SelectMultipleComponents w s cs b
  | .SelectMultipleActors as b => RuntimeTransformer.SelectMultipleActors w s as b
  | .DeselectComponent c => RuntimeTransformer.DeselectComponent w s c
  | .DeselectActor a => RuntimeTransformer.DeselectActor w s a
  | .DeselectAll b => (RuntimeTransformer.DeselectAll w s b).1

/-- Executes a sequence of public selection calls, first call first. -/
def RunCalls (w : World) (s : ATransformerActor) (calls : List SelectionCall) :
    ATransformerActor :=
  calls.foldl (SelectionCall.Run w) s

/-- The `OnComponentSelectionChange` notifications in a log, in order: the component and
whether it became selected. -/
def SelectionChanges (log : List Event) : List (Option CompId × Bool) :=
  log.filterMap (fun e =>
    match e with
    | Event.OnComponentSelectionChange c b _ => some (c, b)
    | _ => none)

/-- The second state has the selection list, the selection flags and the selection-change
notifications of the first: what the gizmo bookkeeping leaves alone. -/
structure SelectionFrame (s t : ATransformerActor) : Prop where
  SelectedComponents : t.SelectedComponents = s.SelectedComponents
  bToggleSelectedInMultiSelection :
    t.bToggleSelectedInMultiSelection = s.bToggleSelectedInMultiSelection
  bComponentBased : t.bComponentBased = s.bComponentBased
  SelectionChanges : SelectionChanges t.EventLog = SelectionChanges s.EventLog

/-- The second state has the selection list `L`, the selection flags of the first state and
its selection-change notifications followed by `n`. -/
structure SelectionStep (s t : ATransformerActor) (L : List (Option CompId))
    (n : List (Option CompId × Bool)) : Prop where
  SelectedComponents : t.SelectedComponents = L
  bToggleSelectedInMultiSelection :
    t.bToggleSelectedInMultiSelection = s.bToggleSelectedInMultiSelection
  bComponentBased : t.bComponentBased = s.bComponentBased
  SelectionChanges : SelectionChanges t.EventLog = SelectionChanges s.EventLog ++ n

/-- A hit on the gizmo `g` whose component resolves to a domain other than `TD_None`. -/
def IsGizmoDomainHit (w : World) (g : GizmoId) (h : FHitResult) : Bool :=
  decide (h.Actor = some (ActorId.gizmo g)) &&
    (match h.Component with
     | some c => decide (w.GetTransformationDomain g c ≠ ETransformationDomain.TD_None)
     | none => false)

/-- A hit that the second loop of `HandleTracedObjects` does not skip: its actor is not a
gizmo (`Cast<ABaseGizmo>` fails, as it does on a null actor). -/
def IsOtherActorHit (h : FHitResult) : Bool :=
  match h.Actor with
  | some (ActorId.gizmo _) => false
  | _ => true

/-- A state of the transformer as constructed whose selection list is the given one. -/
def WithSelection (L : List (Option CompId)) : ATransformerActor :=
  { ATransformerActor.Constructed with SelectedComponents := L }

/-- The second state has the session fields of the first: the current domain and kind, the
accumulated transform, the snapping tables, and the transform and mobility of every
component. It is what the selection and gizmo bookkeeping leaves alone. -/
structure SessionFrame (s t : ATransformerActor) : Prop where
  CurrentDomain : t.CurrentDomain = s.CurrentDomain
  CurrentTransformation : t.CurrentTransformation = s.CurrentTransformation
  AccumulatedDeltaTransform : t.AccumulatedDeltaTransform = s.AccumulatedDeltaTransform
  SnappingEnabled : t.SnappingEnabled = s.SnappingEnabled
  SnappingValues : t.SnappingValues = s.SnappingValues
  ComponentTransforms : t.ComponentTransforms = s.ComponentTransforms
  Mobility : t.Mobility = s.Mobility

/-- The second state has everything of the first that applying a transform leaves alone:
all but the transforms and mobility of the components and the log. -/
structure TransformFrame (s t : ATransformerActor) : Prop where
  Gizmo : t.Gizmo = s.Gizmo
  GizmoActors : t.GizmoActors = s.GizmoActors
  DestroyedActors : t.DestroyedActors = s.DestroyedActors
  SelectedComponents : t.SelectedComponents = s.SelectedComponents
  CurrentDomain : t.CurrentDomain = s.CurrentDomain
  CurrentTransformation : t.CurrentTransformation = s.CurrentTransformation
  AccumulatedDeltaTransform : t.AccumulatedDeltaTransform = s.AccumulatedDeltaTransform
  SnappingEnabled : t.SnappingEnabled = s.SnappingEnabled
  SnappingValues : t.SnappingValues = s.SnappingValues
  bForceMobility : t.bForceMobility = s.bForceMobility
  bRotateOnLocalAxis : t.bRotateOnLocalAxis = s.bRotateOnLocalAxis
  bTransformUFocusableObjects : t.bTransformUFocusableObjects = s.bTransformUFocusableObjects
  bComponentBased : t.bComponentBased = s.bComponentBased

/-- The gizmo requests for a snapped transform in a log. -/
def SnapRequests (log : List Event) : List Event :=
  log.filter (fun e =>
    match e with
    | Event.GetSnappedTransform _ _ _ => true
    | Event.GetSnappedTransformPerComponent _ _ _ => true
    | _ => false)

/-- A scene of plain actors for examples: actor `scene n` owns the components `10 * n`
(its root) and `10 * n + 1`, except actor `scene 0`, which has no root component; nothing
implements the focusable interface and `ShouldSelect` is the default implementation. A
gizmo sits on the component it is attached to, moves along the X axis with the ray origin,
and snaps the X translation to the nearest multiple of the snapping value, passing its
input through when that value is zero; every trace hits component 30 of actor `scene 3`. -/
def ExampleWorld : World :=
  { GetOwner := fun c => some (ActorId.scene (c / 10))
    GetRootComponent := fun a =>
      match a with
      | ActorId.scene 0 => none
      | ActorId.scene n => some (10 * n)
      | ActorId.gizmo g => some (1000 + 10 * g)
    GetComponents := fun a =>
      match a with
      | ActorId.scene n => [10 * n, 10 * n + 1]
      | ActorId.gizmo g => [1000 + 10 * g, 1000 + 10 * g + 1]
    ComponentImplementsFocusable := fun _ => false
    ActorImplementsFocusable := fun _ => false
    ShouldSelect := fun _ _ => true
    GetTransformationDomain := fun _ c =>
      if c % 10 = 1 then ETransformationDomain.AxisX else ETransformationDomain.TD_None
    DoesSocketExist := fun _ _ => false
    TransformationTypeIndex := fun t =>
      match t with
      | .TT_NoTransform => 0
      | .TT_Translation => 1
      | .TT_Rotation => 2
      | .TT_Scale => 3
    bHasWorld := true
    GetActorLocation := fun _ z T =>
      match z.AttachParent with
      | some c => (T c).Translation
      | none => FVector.ZeroVector
    GetDeltaTransform := fun _ _ _ _ RayStartPoint _ Domain =>
      match Domain with
      | ETransformationDomain.AxisX =>
        ⟨FQuat.Identity, ⟨RayStartPoint.X, 0, 0⟩, FVector.ZeroVector⟩
      | _ => ⟨FQuat.Identity, FVector.ZeroVector, FVector.ZeroVector⟩
    GetSnappedTransform := fun _ Accumulated Delta _ SnappingValue =>
      if SnappingValue = 0 then (Delta, Accumulated)
      else
        let sum : ℚ := Accumulated.Translation.X + Delta.Translation.X
        let snapped : ℚ := ⌊sum / SnappingValue + 1 / 2⌋ * SnappingValue
        ({ Delta with Translation := ⟨snapped, Delta.Translation.Y, Delta.Translation.Z⟩ },
         { Accumulated with Translation := ⟨sum - snapped, Accumulated.Translation.Y,
             Accumulated.Translation.Z⟩ })
    GetSnappedTransformPerComponent := fun _ _ NewTransform _ SnappingValue =>
      if SnappingValue = 0 then NewTransform
      else
        { NewTransform with Translation :=
            ⟨⌊NewTransform.Translation.X / SnappingValue + 1 / 2⌋ * SnappingValue,
             NewTransform.Translation.Y, NewTransform.Translation.Z⟩ }
    GetPlayerController := some ⟨some (⟨0, 0, 0⟩, ⟨1, 0, 0⟩)⟩
    LineTraceMultiByObjectType := fun _ _ _ _ _ => (true, [⟨some (ActorId.scene 3), some 30⟩])
    LineTraceMultiByChannel := fun _ _ _ _ _ => (true, [⟨some (ActorId.scene 3), some 30⟩])
    LineTraceMultiByProfile := fun _ _ _ _ _ => (true, [⟨some (ActorId.scene 3), some 30⟩]) }

/-- The example scene with the transformer as constructed after SelectComponent(10,
append=false): gizmo 0 is active and attached to component 10. -/
def ExampleSelected : ATransformerActor :=
  SelectComponent ExampleWorld ATransformerActor.Constructed (some 10) false

/-- The example state after a click on the X handle of the active gizmo: the current domain
is `AxisX`. -/
def ExampleDragging : ATransformerActor :=
  (HandleTracedObjects ExampleWorld ExampleSelected [⟨some (ActorId.gizmo 0), some 1001⟩]
    false).1

/-- A delta for examples: a half turn about the Z axis with the translation (1, 2, 3). -/
def ExampleDelta : FTransform := ⟨⟨0, 0, 1, 0⟩, ⟨1, 2, 3⟩, FVector.ZeroVector⟩

/-- The example scene in which component 20 and its owner implement the focusable
interface. -/
def FocusableWorld : World :=
  { ExampleWorld with
    ComponentImplementsFocusable := fun c => decide (c = 20)
    ActorImplementsFocusable := fun a => decide (a = ActorId.scene 2) }

/-- The example state during the drag with translation snapping enabled and the snapping
value zero. -/
def ExampleZeroSnap : ATransformerActor :=
  SetSnappingValue (SetSnappingEnabled ExampleDragging ETransformationType.TT_Translation true)
    ETransformationType.TT_Translation 0

/-- The focusable scene in component mode with bTransformUFocusableObjects switched off,
after SelectComponent(20, append=false): the selected component is movable and implements
the focusable interface. -/
def ExampleFocusable : ATransformerActor :=
  SelectComponent FocusableWorld
    { ATransformerActor.Constructed with
      bComponentBased := true, bTransformUFocusableObjects := false } (some 20) false

/-! ### Gizmo pool, multiple selection and cloning -/

/-- The entries of a component list that the loop of `SelectMultipleComponents` does not
skip: not null and accepted by `ShouldSelect`. -/
def AcceptedComponents (w : World) (Components : List (Option CompId)) : List CompId :=
  Components.filterMap (fun x =>
    match x with
    | some c => if w.ShouldSelect (w.GetOwner c) (some c) then some c else none
    | none => none)

/-- The entries of an actor list that the loop of `SelectMultipleActors` does not skip:
not null and accepted by `ShouldSelect`. -/
def AcceptedActors (w : World) (Actors : List (Option ActorId)) : List ActorId :=
  Actors.filterMap (fun x =>
    match x with
    | some a => if w.ShouldSelect (some a) (w.GetRootComponent a) then some a else none
    | none => none)

/-- How often a component occurs in a list. -/
def Occurrences (c : CompId) (l : List CompId) : Nat :=
  (l.filter (fun x => decide (x = c))).length

/-- The list that `AddComponent_Internal` leaves: the entry is appended when it is new,
removed when it is present and the toggle policy is on, and the list is kept otherwise. -/
def ToggleEntry (bToggle : Bool) (L : List (Option CompId)) (c : Option CompId) :
    List (Option CompId) :=
  if c ∈ L then (if bToggle then L.erase c else L) else L ++ [c]

/-- The example scene with a `ShouldSelect` override that rejects component 20 and the
actor `scene 2`. -/
def PickyWorld : World :=
  { ExampleWorld with
    ShouldSelect := fun a c => decide (c ≠ some 20) && decide (a ≠ some (ActorId.scene 2)) }

/-- The gizmo of a state is placed by the rule of `UpdateGizmoPlacement`: with an empty
selection no gizmo is active, and an active gizmo is attached to the first selected entry
under `GP_OnFirstSelection` and to the last one otherwise, whenever that entry is a
component (not null). -/
structure GizmoPlaced (s : ATransformerActor) : Prop where
  empty : s.SelectedComponents = [] → s.IsValidGizmo s.Gizmo = false
  first : ∀ g c, s.Gizmo = some g → s.IsValidGizmo (some g) = true →
    s.GizmoPlacement = EGizmoPlacement.GP_OnFirstSelection →
    s.SelectedComponents.head? = some (some c) →
    (s.GizmoActors g).AttachParent = some c
  last : ∀ g c, s.Gizmo = some g → s.IsValidGizmo (some g) = true →
    s.GizmoPlacement ≠ EGizmoPlacement.GP_OnFirstSelection →
    s.SelectedComponents.getLast? = some (some c) →
    (s.GizmoActors g).AttachParent = some c

/-- The second state has the gizmo, the gizmo actors, the pool and the placement policy
of the first, and no gizmo actor is valid in it that was not valid in the first. -/
structure GizmoFrame (s t : ATransformerActor) : Prop where
  Gizmo : t.Gizmo = s.Gizmo
  GizmoActors : t.GizmoActors = s.GizmoActors
  GizmoActorPool : t.GizmoActorPool = s.GizmoActorPool
  SpawnCount : t.SpawnCount = s.SpawnCount
  GizmoPlacement : t.GizmoPlacement = s.GizmoPlacement
  valid : ∀ p, t.IsValidGizmo p = true → s.IsValidGizmo p = true

/-- The removal `TArray::RemoveAtSwap` at a valid index: the last element takes the place
of the removed one. -/
def TArray.RemoveAtSwap {α : Type} (l : List α) (Index : Nat) : List α :=
  match l.getLast? with
  | some last => (l.set Index last).dropLast
  | none => l

/-- The loop over `GizmoActorPool.CreateIterator()` of `BeginPlay` (TransformerActor.cpp
319-326) with the iterator at `Index`: a valid pooled gizmo is destroyed and removed with
`RemoveCurrentSwap`, which leaves the iterator on the element swapped in; another entry is
stepped over. Every iteration removes an entry or advances, so `fuel` iterations suffice
when `fuel` is the pool length minus `Index`. -/
def BeginPlay.DestroyLoop (w : World) : Nat → Nat → ATransformerActor → ATransformerActor
  | 0, _, s => s
  | fuel + 1, Index, s =>
    match s.GizmoActorPool.get? Index with
    | none => s
    | some p =>
      match p with
      | some g =>
        if s.IsValidGizmo (some g) then
          let s := s.DestroyActor w (ActorId.gizmo g)
          let s := { s with GizmoActorPool := TArray.RemoveAtSwap s.GizmoActorPool Index }
          BeginPlay.DestroyLoop w fuel Index s
        else BeginPlay.DestroyLoop w fuel (Index + 1) s
      | none => BeginPlay.DestroyLoop w fuel (Index + 1) s

/-- Source: `ATransformerActor::BeginPlay` (TransformerActor.cpp 315-350); `none` when a null
gizmo is dereferenced. The loop over the three transformation kinds executes `return` at
the end of its first iteration, so only `TT_Translation` with `i = 0` is processed. -/
def BeginPlay (w : World) (s : ATransformerActor) : Option ATransformerActor :=
  let s := BeginPlay.DestroyLoop w s.GizmoActorPool.length 0 s
  let s := { s with GizmoActorPool := TArray.SetNum s.GizmoActorPool 3 }
  let r := CreateGizmo w s ETransformationType.TT_Translation
  match r.2 with
  | some gizmo =>
    let s := r.1.OnGizmo gizmo (fun z => { z with bHidden := true })
    let s := s.OnGizmo gizmo (fun z => { z with bEnableCollision := false })
    let s := s.OnGizmo gizmo (fun z => { z with bTickEnabled := false })
    some { s with GizmoActorPool := s.GizmoActorPool.set 0 (some gizmo) }
  | none => none

/-- A call of a public function that the gizmo lifecycle depends on: a selection call,
`SetTransformationType` or `SetSpaceType`. -/
inductive PublicCall where
  | Selection (call : SelectionCall)
  | SetTransformationType (TransformationType : ETransformationType)
  | SetSpaceType (SpaceType : ESpaceType)
deriving DecidableEq, Repr

/-- Executes one public call. -/
def PublicCall.Run (w : World) (s : ATransformerActor) : PublicCall → ATransformerActor
  | .Selection call => call.Run w s
  | .SetTransformationType t => RuntimeTransformer.SetTransformationType w s t
  | .SetSpaceType st => RuntimeTransformer.SetSpaceType w s st

/-- Executes a sequence of public calls, first call first. -/
def RunPublicCalls (w : World) (s : ATransformerActor) (calls : List PublicCall) :
    ATransformerActor :=
  calls.foldl (PublicCall.Run w) s

/-- A gizmo actor that is hidden, does not tick and does not collide. -/
def ABaseGizmo.IsOff (z : ABaseGizmo) : Bool :=
  z.bHidden && !z.bTickEnabled && !z.bEnableCollision

/-- Every valid gizmo actor that the transformer has spawned, other than the active one, is
hidden with tick and collision disabled, and the pool holds only spawned gizmo actors. -/
structure GizmoInvariant (s : ATransformerActor) : Prop where
  off : ∀ g, g < s.SpawnCount → s.IsValidGizmo (some g) = true → s.Gizmo ≠ some g →
    (s.GizmoActors g).IsOff = true
  pooled : ∀ g, some g ∈ s.GizmoActorPool → g < s.SpawnCount

/-- The example scene once play has begun: the transformer as constructed after
`BeginPlay`. -/
def ExamplePlaying : ATransformerActor :=
  (BeginPlay ExampleWorld ATransformerActor.Constructed).getD ATransformerActor.Constructed

/-! ### Cloning -/

/-- How a function that dereferences pointers and loops with `while (1)` ends: it returns,
it dereferences a null pointer, or the loop has not ended within the given number of
iterations. -/
inductive Outcome (α : Type) where
  | done (a : α)
  | nullDereference
  | outOfFuel

/-- The lookup `TMap::Find`; the map is the list of its pairs in insertion order. -/
def TMap.Find {K V : Type} [DecidableEq K] : List (K × V) → K → Option V
  | [], _ => none
  | (k', v) :: rest, k => if k' = k then some v else TMap.Find rest k

/-- The insertion `TMap::Add`: the value of a key that is present is replaced. -/
def TMap.Add {K V : Type} [DecidableEq K] : List (K × V) → K → V → List (K × V)
  | [], k, v => [(k, v)]
  | (k', v') :: rest, k, v =>
    if k' = k then (k, v) :: rest else (k', v') :: TMap.Add rest k v

/-- The engine's duplication of a component (`StaticDuplicateObject`, and the copy of the
root component that `SpawnActor` makes from a template actor), taken to succeed: the new
component object has the next unused identity and the template's transform, mobility and
attach parent. -/
def ATransformerActor.StaticDuplicateObject (s : ATransformerActor) (template : CompId) :
    ATransformerActor × CompId :=
  let clone : CompId := s.ComponentCount
  ({ s with
     ComponentCount := s.ComponentCount + 1
     ComponentTransforms := fun c =>
       if c = clone then s.ComponentTransforms template else s.ComponentTransforms c
     Mobility := fun c => if c = clone then s.Mobility template else s.Mobility c
     AttachParents := fun c =>
       if c = clone then s.AttachParents template else s.AttachParents c }, clone)

/-- The call `USceneComponent::AttachToComponent` with the rule `KeepWorld`; a null parent
is refused. -/
def ATransformerActor.AttachToComponent (s : ATransformerActor) (c : CompId)
    (Parent : Option CompId) : ATransformerActor :=
  match Parent with
  | some p => { s with AttachParents := fun x => if x = c then some p else s.AttachParents x }
  | none => s

/-- The loop of `CloneActors` (TransformerActor.cpp 617-637), carrying the set
`actorsProcessed` and `outClones`. `SpawnActor` is taken to succeed; the root component of
the copy is a duplicate of the template's root component, if it has one. -/
def CloneActors.Loop (w : World) :
    List (Option ActorId) → ATransformerActor → List ActorId → List (Option CompId) →
      ATransformerActor × List (Option CompId)
  | [], s, _, outClones => (s, outClones)
  | none :: rest, s, actorsProcessed, outClones =>
    CloneActors.Loop w rest s actorsProcessed outClones
  | some templateActor :: rest, s, actorsProcessed, outClones =>
    if templateActor ∈ actorsProcessed then
      CloneActors.Loop w rest s actorsProcessed outClones
    else
      match w.GetRootComponent templateActor with
      | some root =>
        let r := s.StaticDuplicateObject root
        CloneActors.Loop w rest r.1 (actorsProcessed ++ [templateActor])
          (outClones ++ [some r.2])
      | none =>
        CloneActors.Loop w rest s (actorsProcessed ++ [templateActor]) (outClones ++ [none])

/-- Source: `ATransformerActor::CloneActors` (TransformerActor.cpp 609-639). -/
def CloneActors (w : World) (s : ATransformerActor) (Actors : List (Option ActorId)) :
    ATransformerActor × List (Option CompId) :=
  if !w.bHasWorld then (s, [])
  else CloneActors.Loop w Actors s [] []

/-- The locals of `CloneComponents`: `outClones` and the maps `OcCc` (original component to
clone component) and `CcOp` (clone component to original parent). -/
structure CloneComponents.Locals where
  outClones : List (Option CompId)
  OcCc : List (Option CompId × Option CompId)
  CcOp : List (Option CompId × Option CompId)

/-- The clone phase of `CloneComponents` (TransformerActor.cpp 652-676). -/
def CloneComponents.ClonePhase (w : World) :
    List (Option CompId) → ATransformerActor → CloneComponents.Locals →
      ATransformerActor × CloneComponents.Locals
  | [], s, l => (s, l)
  | none :: rest, s, l => CloneComponents.ClonePhase w rest s l
  | some templateComponent :: rest, s, l =>
    match w.GetOwner templateComponent with
    | none => CloneComponents.ClonePhase w rest s l
    | some owner =>
      let r := s.StaticDuplicateObject templateComponent
      let clone : CompId := r.2
      let l := { l with outClones := l.outClones ++ [some clone] }
      let l := { l with OcCc := TMap.Add l.OcCc (some templateComponent) (some clone) }
      let l :=
        if some templateComponent = w.GetRootComponent owner then
          { l with CcOp := TMap.Add l.CcOp (some clone) (w.GetRootComponent owner) }
        else
          { l with CcOp := TMap.Add l.CcOp (some clone) (r.1.AttachParents templateComponent) }
      CloneComponents.ClonePhase w rest r.1 l

/-- The loop `while (1)` of the reparenting phase (TransformerActor.cpp 698-716) with the
local `parent`; `cpValue` is `cp.Value`, and the result is the `parent` it breaks with. -/
def CloneComponents.Walk (w : World) (s : ATransformerActor)
    (OcCc : List (Option CompId × Option CompId)) (actorOwner : Option ActorId)
    (cpValue : Option CompId) : Nat → Option CompId → Outcome (Option CompId)
  | 0, _ => Outcome.outOfFuel
  | fuel + 1, parent =>
    match actorOwner with
    | none => Outcome.nullDereference
    | some a =>
      if parent = w.GetRootComponent a then Outcome.done cpValue
      else
        match parent with
        | none => Outcome.nullDereference
        | some p =>
          match TMap.Find OcCc (s.AttachParents p) with
          | some cloneParent => Outcome.done cloneParent
          | none => CloneComponents.Walk w s OcCc actorOwner cpValue fuel (s.AttachParents p)

/-- The computation of `parent` for one pair `cp` of `CcOp` in the reparenting phase
(TransformerActor.cpp 684-717). -/
def CloneComponents.NewParent (w : World) (s : ATransformerActor)
    (OcCc : List (Option CompId × Option CompId)) (fuel : Nat)
    (cp : Option CompId × Option CompId) : Outcome (Option CompId) :=
  match cp.2 with
  | none => Outcome.nullDereference
  | some v =>
    let actorOwner : Option ActorId := w.GetOwner v
    match TMap.Find OcCc cp.2 with
    | some cloneParent => Outcome.done (if cloneParent ≠ cp.1 then cloneParent else cp.2)
    | none => CloneComponents.Walk w s OcCc actorOwner cp.2 fuel cp.2

/-- The reparenting phase of `CloneComponents` (TransformerActor.cpp 678-729): the loop over
the pairs of `CcOp`. -/
def CloneComponents.ReparentPhase (w : World)
    (OcCc : List (Option CompId × Option CompId)) (fuel : Nat) :
    List (Option CompId × Option CompId) → ATransformerActor → Outcome ATransformerActor
  | [], s => Outcome.done s
  | cp :: rest, s =>
    match CloneComponents.NewParent w s OcCc fuel cp with
    | Outcome.done parent =>
      match cp.1 with
      | some key =>
        CloneComponents.ReparentPhase w OcCc fuel rest (s.AttachToComponent key parent)
      | none => Outcome.nullDereference
    | Outcome.nullDereference => Outcome.nullDereference
    | Outcome.outOfFuel => Outcome.outOfFuel

/-- Source: `ATransformerActor::CloneComponents` (TransformerActor.cpp 641-734); `fuel` bounds
the iterations of each `while (1)` loop. -/
def CloneComponents (w : World) (s : ATransformerActor) (fuel : Nat)
    (Components : List (Option CompId)) :
    Outcome (ATransformerActor × List (Option CompId)) :=
  if !w.bHasWorld then Outcome.done (s, [])
  else
    let r := CloneComponents.ClonePhase w Components s ⟨[], [], []⟩
    match CloneComponents.ReparentPhase w r.2.OcCc fuel r.2.CcOp r.1 with
    | Outcome.done t => Outcome.done (t, r.2.outClones)
    | Outcome.nullDereference => Outcome.nullDereference
    | Outcome.outOfFuel => Outcome.outOfFuel

/-- The list `Actors` that `CloneFromList` builds (TransformerActor.cpp 595-600): the owner
of every entry that is not null. -/
def CloneFromList.Actors (w : World) : List (Option CompId) → List (Option ActorId)
  | [] => []
  | none :: rest => CloneFromList.Actors w rest
  | some i :: rest => w.GetOwner i :: CloneFromList.Actors w rest

/-- The list `Components` that `CloneFromList` builds (TransformerActor.cpp 585-590): the
entries that are not null. -/
def CloneFromList.Components : List (Option CompId) → List (Option CompId)
  | [] => []
  | none :: rest => CloneFromList.Components rest
  | some i :: rest => some i :: CloneFromList.Components rest

/-- Source: `ATransformerActor::CloneFromList` (TransformerActor.cpp 578-607). -/
def CloneFromList (w : World) (s : ATransformerActor) (fuel : Nat)
    (ComponentList : List (Option CompId)) :
    Outcome (ATransformerActor × List (Option CompId)) :=
  let r : Outcome (ATransformerActor × List (Option CompId)) :=
    if s.bComponentBased then
      CloneComponents w s fuel (CloneFromList.Components ComponentList)
    else Outcome.done (CloneActors w s (CloneFromList.Actors w ComponentList))
  match r with
  | Outcome.done (s, outClones) =>
    let s :=
      match s.Gizmo with
      | some g =>
        if decide (s.CurrentDomain ≠ ETransformationDomain.TD_None) && s.IsValidGizmo (some g)
        then s.OnGizmo g (fun z => { z with bTransformInProgress := true,
                                            ProgressDomain := s.CurrentDomain })
        else s
      | none => s
    Outcome.done (s, outClones)
  | Outcome.nullDereference => Outcome.nullDereference
  | Outcome.outOfFuel => Outcome.outOfFuel

/-- The ancestor of a component `n` attach-parent links up. -/
def ATransformerActor.Ancestor (s : ATransformerActor) : Nat → Option CompId → Option CompId
  | 0, c => c
  | n + 1, c =>
    match c with
    | some c => s.Ancestor n (s.AttachParents c)
    | none => none

/-- The components of a list that `CloneComponents` clones, in order: the entries that are
not null and have an owner. -/
def ClonedTemplates (w : World) (Components : List (Option CompId)) : List CompId :=
  Components.filterMap (fun x =>
    match x with
    | some c => if (w.GetOwner c).isSome then some c else none
    | none => none)

/-- The clone of a component when the components `templates` are cloned in order and the
first clone gets the identity `N`: the clone made for its last occurrence. -/
def CloneOf : List CompId → Nat → CompId → Option CompId
  | [], _, _ => none
  | t :: ts, N, c =>
    match CloneOf ts (N + 1) c with
    | some clone => some clone
    | none => if t = c then some N else none

/-- In the words of the specification: going up from a component through the attach
parents, the clone of the first component that was cloned, until the root of the actor
is reached; `none` when there is none. -/
def NearestClonedAncestor (cloneOf : CompId → Option CompId) (s : ATransformerActor)
    (root : Option CompId) : Nat → Option CompId → Option CompId
  | 0, _ => none
  | _ + 1, none => none
  | n + 1, some c =>
    match cloneOf c with
    | some clone => some clone
    | none =>
      if some c = root then none
      else NearestClonedAncestor cloneOf s root n (s.AttachParents c)

/-- A scene for cloning in component mode: a thousand component objects exist; in every
actor the components 1, 2, 3 and 5 to 9 are attached to the root component 0 and
component 4 is attached to component 1. -/
def ExampleCloning : ATransformerActor :=
  { ATransformerActor.Constructed with
    bComponentBased := true
    ComponentCount := 1000
    AttachParents := fun c =>
      if 1000 ≤ c then none
      else if c % 10 = 0 then none
      else if c % 10 = 4 then some (c - 3)
      else some (c - c % 10) }

/-- The value that the clone phase of `CloneComponents` stores in `CcOp` for the clone of a
component: the root component of its owner when the component is that root, and its
attach parent otherwise. -/
def OriginalParent (w : World) (s : ATransformerActor) (c : CompId) : Option CompId :=
  match w.GetOwner c with
  | some owner =>
    if some c = w.GetRootComponent owner then w.GetRootComponent owner
    else s.AttachParents c
  | none => none

/-- The pairs that the clone phase of `CloneComponents` adds to `CcOp` when it clones the
components `templates` in order and the first clone gets the identity `N`. -/
def CloneEntries (w : World) (s : ATransformerActor) :
    List CompId → Nat → List (Option CompId × Option CompId)
  | [], _ => []
  | t :: ts, N => (some N, OriginalParent w s t) :: CloneEntries w s ts (N + 1)

/-- The conditions under which `CloneComponents` is studied: the world exists; the attach
parents and the components to clone are existing component objects; and from the attach
parent of every component to clone that is not the root of its owner, the attach-parent
links lead to the root component of that parent's owner in fewer than `fuel` steps. -/
structure Clonable (w : World) (s : ATransformerActor) (fuel : Nat)
    (Components : List (Option CompId)) : Prop where
  world : w.bHasWorld = true
  existing : ∀ c p, s.AttachParents c = some p → p < s.ComponentCount
  templates : ∀ c, c ∈ ClonedTemplates w Components → c < s.ComponentCount
  rooted : ∀ c, c ∈ ClonedTemplates w Components → ∀ owner, w.GetOwner c = some owner →
    w.GetRootComponent owner ≠ some c →
    ∃ p a r n, s.AttachParents c = some p ∧ w.GetOwner p = some a ∧
      w.GetRootComponent a = some r ∧ s.Ancestor n (some p) = some r ∧ n < fuel

/-- In the words of the specification: the component to which the clone of a component
with the attach parent `p` is attached, when the components `templates` are cloned: the
clone of the nearest cloned component on the way from `p` up to the root component of the
actor, and `p` itself when there is none. -/
def SpecifiedParent (w : World) (s : ATransformerActor) (templates : List CompId)
    (fuel : Nat) (p : CompId) : CompId :=
  (NearestClonedAncestor (CloneOf templates s.ComponentCount) s
    ((w.GetOwner p).bind w.GetRootComponent) (fuel + 1) (some p)).getD p

/-- The attach parent of a clone `par` is the one the specification gives to the clone of
the component `c`, if `c` is not the root component of its owner. -/
def AttachedAsSpecified (w : World) (s : ATransformerActor) (templates : List CompId)
    (fuel : Nat) (c par : CompId) : Prop :=
  ∀ owner p, w.GetOwner c = some owner → w.GetRootComponent owner ≠ some c →
    s.AttachParents c = some p → par = SpecifiedParent w s templates fuel p

/-- The example state after `SetTransformationType(TT_NoTransform)`: component 10 is
selected and there is no gizmo. -/
def ExampleNoTransform : ATransformerActor :=
  SetTransformationType ExampleWorld ExampleSelected ETransformationType.TT_NoTransform

/-- A transformer whose scale gizmo class is not set, after `BeginPlay`, the selection of
component 10 and `SetTransformationType(TT_Scale)`. -/
def ExampleNoScaleGizmo : ATransformerActor :=
  RunPublicCalls ExampleWorld
    ((BeginPlay ExampleWorld
        { ATransformerActor.Constructed with ScaleGizmoClass := none }).getD
      ATransformerActor.Constructed)
    [PublicCall.Selection (SelectionCall.SelectComponent (some 10) false),
     PublicCall.SetTransformationType ETransformationType.TT_Scale]

/-! ### The applied transform in floating-point arithmetic -/

/-- The floating-point sum of two vectors: each coordinate is the exact sum rounded by
`rnd`, the rounding of the engine's scalar type. -/
def FVector.AddRounded (rnd : ℚ → ℚ) (a b : FVector) : FVector :=
  ⟨rnd (a.X + b.X), rnd (a.Y + b.Y), rnd (a.Z + b.Z)⟩

/-- The floating-point difference of two vectors. -/
def FVector.SubRounded (rnd : ℚ → ℚ) (a b : FVector) : FVector :=
  ⟨rnd (a.X - b.X), rnd (a.Y - b.Y), rnd (a.Z - b.Z)⟩

/-- The floating-point product of a scalar and a vector. -/
def FVector.ScaleRounded (rnd : ℚ → ℚ) (k : ℚ) (a : FVector) : FVector :=
  ⟨rnd (k * a.X), rnd (k * a.Y), rnd (k * a.Z)⟩

/-- The floating-point cross product: both products and their difference are rounded. -/
def FVector.CrossProductRounded (rnd : ℚ → ℚ) (a b : FVector) : FVector :=
  ⟨rnd (rnd (a.Y * b.Z) - rnd (a.Z * b.Y)),
   rnd (rnd (a.Z * b.X) - rnd (a.X * b.Z)),
   rnd (rnd (a.X * b.Y) - rnd (a.Y * b.X))⟩

/-- The floating-point quaternion product: the operations of `FQuat.Mul` from left to
right, each one rounded. -/
def FQuat.MulRounded (rnd : ℚ → ℚ) (A B : FQuat) : FQuat :=
  ⟨rnd (rnd (rnd (rnd (A.W * B.X) + rnd (A.X * B.W)) + rnd (A.Y * B.Z)) - rnd (A.Z * B.Y)),
   rnd (rnd (rnd (rnd (A.W * B.Y) - rnd (A.X * B.Z)) + rnd (A.Y * B.W)) + rnd (A.Z * B.X)),
   rnd (rnd (rnd (rnd (A.W * B.Z) + rnd (A.X * B.Y)) - rnd (A.Y * B.X)) + rnd (A.Z * B.W)),
   rnd (rnd (rnd (rnd (A.W * B.W) - rnd (A.X * B.X)) - rnd (A.Y * B.Y)) - rnd (A.Z * B.Z))⟩

/-- The engine's `FQuat::RotateVector` in floating-point arithmetic. -/
def FQuat.RotateVectorRounded (rnd : ℚ → ℚ) (q : FQuat) (V : FVector) : FVector :=
  let Q : FVector := ⟨q.X, q.Y, q.Z⟩
  let TT : FVector := FVector.ScaleRounded rnd 2 (FVector.CrossProductRounded rnd Q V)
  FVector.AddRounded rnd (FVector.AddRounded rnd V (FVector.ScaleRounded rnd q.W TT))
    (FVector.CrossProductRounded rnd Q TT)

/-- The engine's `FQuat::UnrotateVector` in floating-point arithmetic; the negation of the
vector part is exact. -/
def FQuat.UnrotateVectorRounded (rnd : ℚ → ℚ) (q : FQuat) (V : FVector) : FVector :=
  let Q : FVector := ⟨-q.X, -q.Y, -q.Z⟩
  let TT : FVector := FVector.ScaleRounded rnd 2 (FVector.CrossProductRounded rnd Q V)
  FVector.AddRounded rnd (FVector.AddRounded rnd V (FVector.ScaleRounded rnd q.W TT))
    (FVector.CrossProductRounded rnd Q TT)

/-- The transform `newTransform` of `ApplyDeltaTransform` (TransformerActor.cpp 418-439) as
the floating-point code computes it: `ApplyDeltaTransform.NewTransform` with every
arithmetic operation rounded by `rnd`. -/
def ApplyDeltaTransform.NewTransformRounded (rnd : ℚ → ℚ)
    (DeltaTransform componentTransform : FTransform) (GizmoLocation : FVector)
    (bRotateOnLocalAxis : Bool) : FTransform :=
  let deltaRotation : FQuat := DeltaTransform.Rotation
  let deltaLocation : FVector :=
    FVector.SubRounded rnd componentTransform.Translation GizmoLocation
  let deltaScale : FVector :=
    componentTransform.Rotation.UnrotateVectorRounded rnd DeltaTransform.Scale3D
  let deltaLocation : FVector :=
    if false = bRotateOnLocalAxis then deltaRotation.RotateVectorRounded rnd deltaLocation
    else deltaLocation
  ⟨FQuat.MulRounded rnd deltaRotation componentTransform.Rotation,
   FVector.AddRounded rnd (FVector.AddRounded rnd deltaLocation GizmoLocation)
     DeltaTransform.Translation,
   FVector.AddRounded rnd deltaScale componentTransform.Scale3D⟩

/-- One iteration of the loop of `ApplyDeltaTransform` (TransformerActor.cpp 415-454) with
`newTransform` computed in floating-point arithmetic; otherwise as
`ApplyDeltaTransform.Step`. -/
def ApplyDeltaTransform.StepRounded (rnd : ℚ → ℚ) (w : World) (DeltaTransform : FTransform)
    (snapping : Option ℚ) (s : ATransformerActor) (sc : Option CompId) :
    Option ATransformerActor :=
  match sc with
  | none => some s
  | some c =>
    if s.bForceMobility || decide (s.Mobility c = EComponentMobility.Movable) then
      match s.Gizmo with
      | some g =>
        if s.IsValidGizmo (some g) then
          let componentTransform : FTransform := s.ComponentTransforms c
          let GizmoLocation : FVector :=
            w.GetActorLocation g (s.GizmoActors g) s.ComponentTransforms
          let newTransform : FTransform :=
            ApplyDeltaTransform.NewTransformRounded rnd DeltaTransform componentTransform
              GizmoLocation s.bRotateOnLocalAxis
          let r : ATransformerActor × FTransform :=
            match snapping with
            | some snappingValue =>
              (s.Emit (Event.GetSnappedTransformPerComponent g s.CurrentDomain snappingValue),
               w.GetSnappedTransformPerComponent g componentTransform newTransform
                 s.CurrentDomain snappingValue)
            | none => (s, newTransform)
          let s := r.1.SetMobility c EComponentMobility.Movable
          some (SetTransform w s (some c) r.2)
        else none
      | none => none
    else some (s.Emit (Event.Log (LogMessage.NotMoveable c)))

/-- The loop `for (auto& sc : SelectedComponents)` of `ApplyDeltaTransform` in
floating-point arithmetic. -/
def ApplyDeltaTransform.LoopRounded (rnd : ℚ → ℚ) (w : World) (DeltaTransform : FTransform)
    (snapping : Option ℚ) :
    List (Option CompId) → ATransformerActor → Option ATransformerActor
  | [], s => some s
  | sc :: rest, s =>
    match ApplyDeltaTransform.StepRounded rnd w DeltaTransform snapping s sc with
    | some t => ApplyDeltaTransform.LoopRounded rnd w DeltaTransform snapping rest t
    | none => none

/-- Source: `ATransformerActor::ApplyDeltaTransform` (TransformerActor.cpp 408-456) in
floating-point arithmetic: every operation of lines 418-439 yields its exact result rounded
by `rnd`; with `rnd` the identity this is `ApplyDeltaTransform`. -/
def ApplyDeltaTransformRounded (rnd : ℚ → ℚ) (w : World) (s : ATransformerActor)
    (DeltaTransform : FTransform) : Option ATransformerActor :=
  ApplyDeltaTransform.LoopRounded rnd w DeltaTransform s.ActiveSnappingValue
    s.SelectedComponents s

/-- Every scalar of the transform is a floating-point number: rounding leaves it as it
is. -/
def FTransform.IsRounded (rnd : ℚ → ℚ) (T : FTransform) : Prop :=
  (rnd T.Rotation.X = T.Rotation.X ∧ rnd T.Rotation.Y = T.Rotation.Y ∧
    rnd T.Rotation.Z = T.Rotation.Z ∧ rnd T.Rotation.W = T.Rotation.W) ∧
  (rnd T.Translation.X = T.Translation.X ∧ rnd T.Translation.Y = T.Translation.Y ∧
    rnd T.Translation.Z = T.Translation.Z) ∧
  (rnd T.Scale3D.X = T.Scale3D.X ∧ rnd T.Scale3D.Y = T.Scale3D.Y ∧
    rnd T.Scale3D.Z = T.Scale3D.Z)

/-- The integer nearest to a rational, the even one of the two when it lies halfway. -/
def RoundHalfEven (x : ℚ) : ℤ :=
  if x - ⌊x⌋ < 1 / 2 then ⌊x⌋
  else if 1 / 2 < x - ⌊x⌋ then ⌊x⌋ + 1
  else if ⌊x⌋ % 2 = 0 then ⌊x⌋ else ⌊x⌋ + 1

/-- A rounding for examples: that of IEEE 754 binary64 (`double`, the scalar type of
`FVector` in Unreal Engine 5), to the nearest number with a significand of 53 bits, ties
to even. Overflow and subnormal numbers are left out: the exponent is unbounded. -/
def RoundToDouble (x : ℚ) : ℚ :=
  if x = 0 then 0
  else (RoundHalfEven (x / 2 ^ (Int.log 2 |x| - 52)) : ℚ) * 2 ^ (Int.log 2 |x| - 52)

/-- The example scene with the components 10 and 20 selected: the gizmo is attached to
component 20, which is at x = 2^54, and component 10 is at x = 1. -/
def ExampleFarGizmo : ATransformerActor :=
  { SelectComponent ExampleWorld ExampleSelected (some 20) true with
    ComponentTransforms := fun c =>
      if c = 20 then ⟨FQuat.Identity, ⟨18014398509481984, 0, 0⟩, FVector.OneVector⟩
      else ⟨FQuat.Identity, ⟨1, 0, 0⟩, FVector.OneVector⟩ }

/-! ## Lemmas on `TArray` operations -/

theorem TArray.Find_spec {α : Type} [DecidableEq α] [BEq α] [LawfulBEq α] (l : List α)
    (x : α) :
    (x ∉ l ∧ TArray.Find l x = INDEX_NONE) ∨
    (x ∈ l ∧ ∃ n : Nat, TArray.Find l x = (n : Int) ∧ n < l.length ∧ l.get? n = some x ∧
      l.eraseIdx n = l.erase x) := by
  induction l with
  | nil => left; simp [TArray.Find]
  | cons y ys ih =>
    by_cases hyx : y = x
    · subst hyx
      right
      exact ⟨by simp, 0, by simp [TArray.Find], by simp, by simp, by simp⟩
    · rcases ih with ⟨hn, hf⟩ | ⟨hm, n, hf, hlt, hget, her⟩
      · left
        refine ⟨?_, by simp [TArray.Find, hyx, hf]⟩
        simp only [List.mem_cons, not_or]
        exact ⟨fun h => hyx h.symm, hn⟩
      · right
        have hne : ¬ ((n : Int) = INDEX_NONE) := by simp only [INDEX_NONE]; omega
        refine ⟨List.mem_cons_of_mem _ hm, n + 1, ?_, by simpa using hlt, by simpa using hget, ?_⟩
        · simp [TArray.Find, hyx, hf, hne]
        · rw [List.eraseIdx_cons_succ, her, List.erase_cons_tail (by simpa using hyx)]

theorem LawfulBEq_unique {α : Type} (i₁ i₂ : BEq α) (h₁ : @LawfulBEq α i₁)
    (h₂ : @LawfulBEq α i₂) : i₁ = i₂ := by
  cases i₁ with
  | mk b₁ =>
    cases i₂ with
    | mk b₂ =>
      have hfun : b₁ = b₂ := by
        funext a b
        cases hb₁ : b₁ a b with
        | true =>
          have hab : a = b := @LawfulBEq.eq_of_beq α ⟨b₁⟩ h₁ a b hb₁
          subst hab
          exact (@LawfulBEq.rfl α ⟨b₂⟩ h₂ a).symm
        | false =>
          cases hb₂ : b₂ a b with
          | false => rfl
          | true =>
            have hab : a = b := @LawfulBEq.eq_of_beq α ⟨b₂⟩ h₂ a b hb₂
            subst hab
            have : b₁ a a = true := @LawfulBEq.rfl α ⟨b₁⟩ h₁ a
            rw [this] at hb₁
            exact absurd hb₁ (by simp)
      subst hfun
      rfl

theorem erase_decEq_eq (l : List (Option CompId)) (x : Option CompId) :
    @List.erase (Option CompId) instBEqOfDecidableEq l x = l.erase x := by
  rw [LawfulBEq_unique instBEqOfDecidableEq Option.instBEq inferInstance inferInstance]

theorem TArray.Find_of_not_mem {α : Type} [DecidableEq α] {l : List α} {x : α} (h : x ∉ l) :
    TArray.Find l x = INDEX_NONE := by
  induction l with
  | nil => rfl
  | cons y ys ih =>
    simp only [List.mem_cons, not_or] at h
    have hyx : ¬ y = x := fun e => h.1 e.symm
    simp [TArray.Find, hyx, ih h.2]

/-! ## What the gizmo bookkeeping leaves alone -/

section Frame
variable (w : World) (s : ATransformerActor)

theorem SelectionFrame.refl : SelectionFrame s s := ⟨rfl, rfl, rfl, rfl⟩

theorem SelectionFrame.compose {s t u : ATransformerActor} (h₁ : SelectionFrame s t)
    (h₂ : SelectionFrame t u) : SelectionFrame s u :=
  ⟨h₂.1.trans h₁.1, h₂.2.trans h₁.2, h₂.3.trans h₁.3, h₂.4.trans h₁.4⟩

theorem OnGizmo_frame (g : GizmoId) (f : ABaseGizmo → ABaseGizmo) :
    SelectionFrame s (s.OnGizmo g f) := ⟨rfl, rfl, rfl, rfl⟩

theorem SelectionChanges_append (l₁ l₂ : List Event) :
    SelectionChanges (l₁ ++ l₂) = SelectionChanges l₁ ++ SelectionChanges l₂ := by
  simp [SelectionChanges]

theorem EmitLog_frame (m : LogMessage) : SelectionFrame s (s.Emit (Event.Log m)) :=
  ⟨rfl, rfl, rfl, by simp [ATransformerActor.Emit, SelectionChanges]⟩

theorem ResetGizmo_frame : SelectionFrame s (ResetGizmo s) := by
  unfold ResetGizmo
  split
  · split
    · constructor <;> simp [ATransformerActor.OnGizmo]
    · exact SelectionFrame.refl s
  · exact SelectionFrame.refl s

theorem CreateGizmo_frame (t : ETransformationType) :
    SelectionFrame s (CreateGizmo w s t).1 := by
  unfold CreateGizmo
  split
  · split
    · constructor <;> simp [ATransformerActor.OnGizmo]
    · exact SelectionFrame.refl s
  · exact SelectionFrame.refl s

theorem SetGizmo.Create_frame (index : Nat) :
    SelectionFrame s (SetGizmo.Create w s index) := by
  have h := CreateGizmo_frame w s s.CurrentTransformation
  exact ⟨h.1, h.2, h.3, h.4⟩

theorem SetGizmo.Acquire_frame : SelectionFrame s (SetGizmo.Acquire w s) := by
  unfold SetGizmo.Acquire
  dsimp only
  split
  · split
    · constructor <;> simp [ATransformerActor.OnGizmo]
    · exact SetGizmo.Create_frame w s _
  · exact SetGizmo.Create_frame w s _

theorem SetGizmo_frame : SelectionFrame s (SetGizmo w s) := by
  unfold SetGizmo
  split
  · split
    · split
      · split
        · exact SelectionFrame.refl s
        · exact (ResetGizmo_frame s).compose (SetGizmo.Acquire_frame w _)
      · exact SetGizmo.Acquire_frame w s
    · exact SetGizmo.Acquire_frame w s
  · exact ResetGizmo_frame s

theorem UpdateGizmoPlacement.Switch_frame :
    SelectionFrame s (UpdateGizmoPlacement.Switch s).1 := by
  unfold UpdateGizmoPlacement.Switch
  split
  · exact SelectionFrame.refl s
  · exact SelectionFrame.refl s
  · exact EmitLog_frame s _

theorem UpdateGizmoPlacement.Attach_frame (g : GizmoId) (c : Option CompId) :
    SelectionFrame s (UpdateGizmoPlacement.Attach w s g c) := by
  unfold UpdateGizmoPlacement.Attach
  split
  · exact OnGizmo_frame s _ _
  · exact SelectionFrame.refl s

theorem UpdateGizmoPlacement_frame : SelectionFrame s (UpdateGizmoPlacement w s) := by
  have h := SetGizmo_frame w s
  unfold UpdateGizmoPlacement
  dsimp only
  split
  · exact h
  · split
    · exact h
    · exact h.compose (((UpdateGizmoPlacement.Switch_frame _).compose
        (UpdateGizmoPlacement.Attach_frame w _ _ _)).compose (OnGizmo_frame _ _ _))

theorem SetDomain_frame (d : ETransformationDomain) : SelectionFrame s (SetDomain s d) := by
  unfold SetDomain
  dsimp only
  split
  · split
    · constructor <;> simp [ATransformerActor.OnGizmo]
    · constructor <;> simp
  · constructor <;> simp

theorem ClearDomain_frame : SelectionFrame s (ClearDomain s) := by
  unfold ClearDomain
  exact SelectionFrame.compose (by constructor <;> simp) (SetDomain_frame _ _)

theorem Select_frame (c : Option CompId) : SelectionFrame s (Select w s c).1 := by
  unfold Select
  split
  · constructor <;> simp [ATransformerActor.Emit, SelectionChanges]
  · exact SelectionFrame.refl s
  · exact SelectionFrame.refl s

theorem Deselect_frame (c : Option CompId) : SelectionFrame s (Deselect w s c).1 := by
  unfold Deselect
  split
  · constructor <;> simp [ATransformerActor.Emit, SelectionChanges]
  · exact SelectionFrame.refl s
  · exact SelectionFrame.refl s

theorem DestroyDeselected_frame (c : Option CompId) :
    SelectionFrame s (DestroyDeselected w s c) := by
  unfold DestroyDeselected
  split
  · exact SelectionFrame.refl s
  · split
    · exact SelectionFrame.refl s
    · split
      · split
        · constructor <;> simp [ATransformerActor.DestroyComponent]
        · constructor <;> simp [ATransformerActor.DestroyActor]
      · exact SelectionFrame.refl s

theorem foldl_DestroyDeselected_frame (l : List (Option CompId)) :
    SelectionFrame s (l.foldl (DestroyDeselected w) s) := by
  induction l generalizing s with
  | nil => exact SelectionFrame.refl s
  | cons c cs ih => exact (DestroyDeselected_frame w s c).compose (ih _)

theorem SelectionFrame.step {s t : ATransformerActor} (h : SelectionFrame s t) :
    SelectionStep s t s.SelectedComponents [] :=
  ⟨h.1, h.2, h.3, by simpa using h.4⟩

theorem SelectionStep.andThen {s t u : ATransformerActor} {L L' : List (Option CompId)}
    {n n' : List (Option CompId × Bool)} (h₁ : SelectionStep s t L n)
    (h₂ : SelectionStep t u L' n') : SelectionStep s u L' (n ++ n') :=
  ⟨h₂.1, h₂.2.trans h₁.2, h₂.3.trans h₁.3, by rw [h₂.4, h₁.4, List.append_assoc]⟩

theorem SelectionStep.frame {s t u : ATransformerActor} {L : List (Option CompId)}
    {n : List (Option CompId × Bool)} (h₁ : SelectionStep s t L n)
    (h₂ : SelectionFrame t u) : SelectionStep s u L n :=
  ⟨h₂.1.trans h₁.1, h₂.2.trans h₁.2, h₂.3.trans h₁.3, by rw [h₂.4, h₁.4]⟩

theorem SelectionStep.cast {s t : ATransformerActor} {L L' : List (Option CompId)}
    {n n' : List (Option CompId × Bool)} (h : SelectionStep s t L n) (hL : L = L')
    (hn : n = n') : SelectionStep s t L' n' := by
  subst hL; subst hn; exact h

theorem OnComponentSelectionChange_step (c : Option CompId) (b i : Bool) :
    SelectionStep s (OnComponentSelectionChange s c b i) s.SelectedComponents [(c, b)] := by
  constructor
  · rfl
  · rfl
  · rfl
  · simp [OnComponentSelectionChange, ATransformerActor.Emit, SelectionChanges]

theorem DeselectComponentAtIndex_Internal_of_mem {c : Option CompId}
    (h : c ∈ s.SelectedComponents) :
    INDEX_NONE ≠ TArray.Find s.SelectedComponents c ∧
    SelectionStep s (DeselectComponentAtIndex_Internal w s (TArray.Find s.SelectedComponents c))
      (s.SelectedComponents.erase c) [(c, false)] := by
  have hf := Deselect_frame w s c
  rcases TArray.Find_spec s.SelectedComponents c with ⟨hn, _⟩ | ⟨_, n, hfind, hlt, hget, her⟩
  · exact absurd h hn
  have hvalid : TArray.IsValidIndex s.SelectedComponents (n : Int) = true := by
    simp only [TArray.IsValidIndex, decide_eq_true_eq]
    omega
  have hget2 : (s.SelectedComponents.get? n).join = c := by rw [hget]; rfl
  have hne : INDEX_NONE ≠ (n : Int) := by simp only [INDEX_NONE]; omega
  rw [hfind]
  refine ⟨hne, ?_⟩
  unfold DeselectComponentAtIndex_Internal
  simp only [hvalid, if_true, Int.toNat_ofNat, hget2, TArray.RemoveAt]
  constructor
  · simp [OnComponentSelectionChange, ATransformerActor.Emit, hf.1, her]
  · simp [OnComponentSelectionChange, ATransformerActor.Emit, hf.2]
  · simp [OnComponentSelectionChange, ATransformerActor.Emit, hf.3]
  · simp [OnComponentSelectionChange, ATransformerActor.Emit, SelectionChanges_append, hf.4]
    simp [SelectionChanges]

theorem DeselectComponent_Internal_step (c : Option CompId) :
    SelectionStep s (DeselectComponent_Internal w s c) (s.SelectedComponents.erase c)
      (if c ∈ s.SelectedComponents then [(c, false)] else []) := by
  unfold DeselectComponent_Internal
  by_cases h : c ∈ s.SelectedComponents
  · have hd := DeselectComponentAtIndex_Internal_of_mem w s h
    simp only [hd.1, ne_eq, not_false_eq_true, if_true, h]
    exact hd.2
  · have hf : TArray.Find s.SelectedComponents c = INDEX_NONE := TArray.Find_of_not_mem h
    simp only [hf, ne_eq, not_true_eq_false, if_false, h]
    exact (SelectionFrame.refl s).step.cast (List.erase_of_not_mem h).symm rfl

theorem AddComponent_Internal_step (c : Option CompId) :
    SelectionStep s (AddComponent_Internal w s c)
      (if c ∈ s.SelectedComponents then
        (if s.bToggleSelectedInMultiSelection then s.SelectedComponents.erase c
         else s.SelectedComponents)
       else s.SelectedComponents ++ [c])
      (if c ∈ s.SelectedComponents then
        (if s.bToggleSelectedInMultiSelection then [(c, false)] else [])
       else [(c, true)]) := by
  unfold AddComponent_Internal
  by_cases h : c ∈ s.SelectedComponents
  · have hd := DeselectComponentAtIndex_Internal_of_mem w s h
    simp only [hd.1, if_false, h, if_true]
    split
    · exact hd.2
    · exact (SelectionFrame.refl s).step
  · have hf : TArray.Find s.SelectedComponents c = INDEX_NONE := TArray.Find_of_not_mem h
    simp only [hf, if_true, h, if_false]
    have hlast : (s.SelectedComponents ++ [c]).getLastD none = c := by simp
    rw [hlast]
    have h₁ : SelectionStep s { s with SelectedComponents := s.SelectedComponents ++ [c] }
        (s.SelectedComponents ++ [c]) [] := ⟨rfl, rfl, rfl, by simp⟩
    exact ((h₁.frame (Select_frame w _ c)).andThen
      (OnComponentSelectionChange_step _ c true _)).cast (by simp [(Select_frame w _ c).1]) rfl

theorem DeselectComponent_step (c : Option CompId) :
    SelectionStep s (DeselectComponent w s c)
      (if c = none then s.SelectedComponents else s.SelectedComponents.erase c)
      (if c ≠ none ∧ c ∈ s.SelectedComponents then [(c, false)] else []) := by
  unfold DeselectComponent
  cases c with
  | none => simpa using (SelectionFrame.refl s).step
  | some c =>
    have h := (DeselectComponent_Internal_step w s (some c)).frame
      (UpdateGizmoPlacement_frame w _)
    simpa using h

theorem foldl_DeselectComponent_step (l : List (Option CompId)) :
    ∀ s : ATransformerActor,
      (l.filter (fun c => decide (c ≠ none))).Subperm s.SelectedComponents →
      ∃ L, SelectionStep s (l.foldl (fun s i => DeselectComponent w s i) s) L
        ((l.filter (fun c => decide (c ≠ none))).map (fun c => (c, false))) := by
  induction l with
  | nil => intro s _; exact ⟨_, (SelectionFrame.refl s).step⟩
  | cons i rest ih =>
    intro s h
    cases i with
    | none =>
      have h2 : (rest.filter (fun c => decide (c ≠ none))).Subperm s.SelectedComponents := by
        simpa using h
      obtain ⟨L, hL⟩ := ih s h2
      exact ⟨L, by simpa [DeselectComponent] using hL⟩
    | some c =>
      have h2 : (some c :: rest.filter (fun c => decide (c ≠ none))).Subperm
          s.SelectedComponents := by simpa using h
      have hmem : some c ∈ s.SelectedComponents := h2.subset (List.mem_cons_self _ _)
      have hstep := DeselectComponent_step w s (some c)
      have h3 : (rest.filter (fun c => decide (c ≠ none))).Subperm
          (DeselectComponent w s (some c)).SelectedComponents := by
        rw [hstep.1]
        have h4 := List.Subperm.erase (some c) h2
        simp only [erase_decEq_eq] at h4
        simpa using h4
      obtain ⟨L, hL⟩ := ih _ h3
      refine ⟨L, ?_⟩
      have := hstep.andThen hL
      simpa [hmem] using this

theorem DeselectAll_returns (b : Bool) : (DeselectAll w s b).2 = s.SelectedComponents := rfl

theorem DeselectAll_step (b : Bool) :
    SelectionStep s (DeselectAll w s b).1 []
      ((s.SelectedComponents.filter (fun c => decide (c ≠ none))).map (fun c => (c, false))) := by
  obtain ⟨L, hL⟩ := foldl_DeselectComponent_step w s.SelectedComponents s
    (List.filter_sublist _).subperm
  have h₁ : SelectionStep s
      { (s.SelectedComponents.foldl (fun s i => DeselectComponent w s i) s) with
        SelectedComponents := [] } [] _ := ⟨rfl, hL.2, hL.3, hL.4⟩
  have h₂ := h₁.frame (UpdateGizmoPlacement_frame w _)
  unfold DeselectAll
  dsimp only
  split
  · exact h₂.frame (foldl_DestroyDeselected_frame w _ _)
  · exact h₂

theorem SelectComponent_step (c : CompId) (b : Bool)
    (hs : w.ShouldSelect (w.GetOwner c) (some c) = true) :
    SelectionStep s (SelectComponent w s (some c) b)
      (if b then
        (if some c ∈ s.SelectedComponents then
          (if s.bToggleSelectedInMultiSelection then s.SelectedComponents.erase (some c)
           else s.SelectedComponents)
         else s.SelectedComponents ++ [some c])
       else [some c])
      (if b then
        (if some c ∈ s.SelectedComponents then
          (if s.bToggleSelectedInMultiSelection then [(some c, false)] else [])
         else [(some c, true)])
       else (s.SelectedComponents.filter (fun c => decide (c ≠ none))).map (fun c => (c, false))
          ++ [(some c, true)]) := by
  unfold SelectComponent
  simp only [hs, if_true]
  cases b with
  | true =>
    simpa using (AddComponent_Internal_step w s (some c)).frame (UpdateGizmoPlacement_frame w _)
  | false =>
    have h₁ := DeselectAll_step w s false
    have h₂ := AddComponent_Internal_step w (DeselectAll w s false).1 (some c)
    rw [h₁.1] at h₂
    simpa using (h₁.andThen h₂).frame (UpdateGizmoPlacement_frame w _)

theorem SelectActor_step (a : ActorId) (b : Bool)
    (hs : w.ShouldSelect (some a) (w.GetRootComponent a) = true) :
    SelectionStep s (SelectActor w s (some a) b)
      (if b then
        (if w.GetRootComponent a ∈ s.SelectedComponents then
          (if s.bToggleSelectedInMultiSelection then
            s.SelectedComponents.erase (w.GetRootComponent a)
           else s.SelectedComponents)
         else s.SelectedComponents ++ [w.GetRootComponent a])
       else [w.GetRootComponent a])
      (if b then
        (if w.GetRootComponent a ∈ s.SelectedComponents then
          (if s.bToggleSelectedInMultiSelection then [(w.GetRootComponent a, false)] else [])
         else [(w.GetRootComponent a, true)])
       else (s.SelectedComponents.filter (fun c => decide (c ≠ none))).map (fun c => (c, false))
          ++ [(w.GetRootComponent a, true)]) := by
  unfold SelectActor
  simp only [hs, if_true]
  cases b with
  | true =>
    simpa using (AddComponent_Internal_step w s (w.GetRootComponent a)).frame
      (UpdateGizmoPlacement_frame w _)
  | false =>
    have h₁ := DeselectAll_step w s false
    have h₂ := AddComponent_Internal_step w (DeselectAll w s false).1 (w.GetRootComponent a)
    rw [h₁.1] at h₂
    simpa using (h₁.andThen h₂).frame (UpdateGizmoPlacement_frame w _)

end Frame

theorem ResetGizmo_not_valid (s : ATransformerActor) :
    (ResetGizmo s).IsValidGizmo (ResetGizmo s).Gizmo = false := by
  unfold ResetGizmo
  split
  · rename_i g hg
    split
    · rfl
    · rename_i hv
      rw [hg]
      simpa using hv
  · rename_i hg
    rw [hg]
    rfl

/-- In `UpdateGizmoPlacement` the accesses `SelectedComponents[0]` and `Last()` are in
range: once `SetGizmo` has run, a valid gizmo implies a selection that is not empty. -/
theorem SetGizmo_valid_selection_nonempty (w : World) (s : ATransformerActor)
    (h : (SetGizmo w s).IsValidGizmo (SetGizmo w s).Gizmo = true) :
    (SetGizmo w s).SelectedComponents ≠ [] := by
  rw [(SetGizmo_frame w s).1]
  intro he
  have hs : SetGizmo w s = ResetGizmo s := by
    unfold SetGizmo
    simp [he]
  rw [hs, ResetGizmo_not_valid] at h
  exact absurd h (by simp)

/-! ## The selection list stays free of duplicates -/

section Nodup
variable (w : World) (s : ATransformerActor)

theorem AddComponent_Internal_nodup (c : Option CompId) (h : s.SelectedComponents.Nodup) :
    (AddComponent_Internal w s c).SelectedComponents.Nodup := by
  rw [(AddComponent_Internal_step w s c).1]
  split
  · split
    · exact h.erase c
    · exact h
  · rename_i hc
    exact List.Nodup.append h (List.nodup_singleton c) (by simpa using hc)

theorem DeselectComponent_nodup (c : Option CompId) (h : s.SelectedComponents.Nodup) :
    (DeselectComponent w s c).SelectedComponents.Nodup := by
  rw [(DeselectComponent_step w s c).1]
  split
  · exact h
  · exact h.erase c

theorem DeselectAll_SelectedComponents (b : Bool) :
    (DeselectAll w s b).1.SelectedComponents = [] :=
  (DeselectAll_step w s b).1

theorem SelectComponent_nodup (c : Option CompId) (b : Bool) (h : s.SelectedComponents.Nodup) :
    (SelectComponent w s c b).SelectedComponents.Nodup := by
  unfold SelectComponent
  split
  · exact h
  · split
    · rw [(UpdateGizmoPlacement_frame w _).1]
      apply AddComponent_Internal_nodup
      split
      · rw [DeselectAll_SelectedComponents]; exact List.nodup_nil
      · exact h
    · exact h

theorem SelectActor_nodup (a : Option ActorId) (b : Bool) (h : s.SelectedComponents.Nodup) :
    (SelectActor w s a b).SelectedComponents.Nodup := by
  unfold SelectActor
  split
  · exact h
  · split
    · rw [(UpdateGizmoPlacement_frame w _).1]
      apply AddComponent_Internal_nodup
      split
      · rw [DeselectAll_SelectedComponents]; exact List.nodup_nil
      · exact h
    · exact h

theorem SelectMultipleComponents_Loop_nodup (cs : List (Option CompId)) :
    ∀ (s : ATransformerActor) (b v : Bool), s.SelectedComponents.Nodup →
      (SelectMultipleComponents.Loop w cs s b v).1.SelectedComponents.Nodup := by
  induction cs with
  | nil => intro s b v h; exact h
  | cons c cs ih =>
    intro s b v h
    cases c with
    | none => exact ih s b v h
    | some c =>
      unfold SelectMultipleComponents.Loop
      split
      · exact ih s b v h
      · apply ih
        apply AddComponent_Internal_nodup
        split
        · rw [DeselectAll_SelectedComponents]; exact List.nodup_nil
        · exact h

theorem SelectMultipleActors_Loop_nodup (as : List (Option ActorId)) :
    ∀ (s : ATransformerActor) (b v : Bool), s.SelectedComponents.Nodup →
      (SelectMultipleActors.Loop w as s b v).1.SelectedComponents.Nodup := by
  induction as with
  | nil => intro s b v h; exact h
  | cons a as ih =>
    intro s b v h
    cases a with
    | none => exact ih s b v h
    | some a =>
      unfold SelectMultipleActors.Loop
      split
      · exact ih s b v h
      · apply ih
        apply AddComponent_Internal_nodup
        split
        · rw [DeselectAll_SelectedComponents]; exact List.nodup_nil
        · exact h

theorem SelectionCall.Run_nodup (call : SelectionCall) (h : s.SelectedComponents.Nodup) :
    (call.Run w s).SelectedComponents.Nodup := by
  cases call with
  | SelectComponent c b => exact SelectComponent_nodup w s c b h
  | SelectActor a b => exact SelectActor_nodup w s a b h
  | SelectMultipleComponents cs b =>
    show (RuntimeTransformer.SelectMultipleComponents w s cs b).SelectedComponents.Nodup
    unfold RuntimeTransformer.SelectMultipleComponents
    dsimp only
    split
    · rw [(UpdateGizmoPlacement_frame w _).1]
      exact SelectMultipleComponents_Loop_nodup w cs s b false h
    · exact SelectMultipleComponents_Loop_nodup w cs s b false h
  | SelectMultipleActors as b =>
    show (RuntimeTransformer.SelectMultipleActors w s as b).SelectedComponents.Nodup
    unfold RuntimeTransformer.SelectMultipleActors
    dsimp only
    split
    · rw [(UpdateGizmoPlacement_frame w _).1]
      exact SelectMultipleActors_Loop_nodup w as s b false h
    · exact SelectMultipleActors_Loop_nodup w as s b false h
  | DeselectComponent c => exact DeselectComponent_nodup w s c h
  | DeselectActor a =>
    show (RuntimeTransformer.DeselectActor w s a).SelectedComponents.Nodup
    unfold RuntimeTransformer.DeselectActor
    split
    · exact DeselectComponent_nodup w s _ h
    · exact h
  | DeselectAll b =>
    show (RuntimeTransformer.DeselectAll w s b).1.SelectedComponents.Nodup
    rw [DeselectAll_SelectedComponents]; exact List.nodup_nil

theorem RunCalls_nodup (calls : List SelectionCall) :
    ∀ s : ATransformerActor, s.SelectedComponents.Nodup →
      (RunCalls w s calls).SelectedComponents.Nodup := by
  induction calls with
  | nil => intro s h; exact h
  | cons call calls ih => intro s h; exact ih _ (SelectionCall.Run_nodup w s call h)

end Nodup

/-! ## Lemmas for the single claims -/

theorem erase_eq_filter_of_nodup {L : List (Option CompId)} (h : L.Nodup) (x : Option CompId) :
    L.erase x = L.filter (fun c => decide (c ≠ x)) := by
  rw [List.Nodup.erase_eq_filter h]
  congr 1
  funext c
  simp [bne, beq_eq_decide]

theorem SetDomain_CurrentDomain (s : ATransformerActor) (d : ETransformationDomain) :
    (SetDomain s d).CurrentDomain = d := by
  unfold SetDomain
  dsimp only
  split
  · split <;> rfl
  · rfl

theorem SetDomain_Gizmo (s : ATransformerActor) (d : ETransformationDomain) :
    (SetDomain s d).Gizmo = s.Gizmo ∧ (SetDomain s d).DestroyedActors = s.DestroyedActors := by
  unfold SetDomain
  dsimp only
  split
  · split <;> exact ⟨rfl, rfl⟩
  · exact ⟨rfl, rfl⟩

theorem HandleTracedObjects.GizmoLoop_found (w : World) (g : GizmoId)
    (hits : List FHitResult) :
    ∀ (s : ATransformerActor) (h : FHitResult),
      hits.find? (IsGizmoDomainHit w g) = some h →
      ∃ c, h.Component = some c ∧
        (HandleTracedObjects.GizmoLoop w g hits s).2 = true ∧
        (HandleTracedObjects.GizmoLoop w g hits s).1.CurrentDomain
          = w.GetTransformationDomain g c ∧
        w.GetTransformationDomain g c ≠ ETransformationDomain.TD_None ∧
        SelectionFrame s (HandleTracedObjects.GizmoLoop w g hits s).1 := by
  induction hits with
  | nil => intro s h hf; simp at hf
  | cons hit rest ih =>
    intro s h hf
    unfold HandleTracedObjects.GizmoLoop
    by_cases ha : hit.Actor = some (ActorId.gizmo g)
    · simp only [ha, if_true]
      cases hc : hit.Component with
      | none =>
        have hp : IsGizmoDomainHit w g hit = false := by simp [IsGizmoDomainHit, hc]
        rw [List.find?_cons, hp] at hf
        exact ih s h hf
      | some c =>
        dsimp only
        by_cases hd : w.GetTransformationDomain g c = ETransformationDomain.TD_None
        · have hp : IsGizmoDomainHit w g hit = false := by simp [IsGizmoDomainHit, hc, hd]
          rw [List.find?_cons, hp] at hf
          simp only [SetDomain_CurrentDomain, hd, ne_eq, not_true_eq_false, if_false]
          obtain ⟨c', h1, h2, h3, h4, h5⟩ := ih (SetDomain s ETransformationDomain.TD_None) h hf
          exact ⟨c', h1, h2, h3, h4, (SetDomain_frame s _).compose h5⟩
        · have hp : IsGizmoDomainHit w g hit = true := by simp [IsGizmoDomainHit, ha, hc, hd]
          rw [List.find?_cons, hp] at hf
          have hh : hit = h := by simpa using hf
          subst hh
          simp only [SetDomain_CurrentDomain, ne_eq, hd, not_false_eq_true, if_true]
          refine ⟨c, hc, ?_, ?_, hd, ?_⟩
          · trivial
          · exact SetDomain_CurrentDomain s _
          · exact (SetDomain_frame s _).compose (OnGizmo_frame _ _ _)
    · have hp : IsGizmoDomainHit w g hit = false := by simp [IsGizmoDomainHit, ha]
      rw [List.find?_cons, hp] at hf
      simp only [ha, if_false]
      exact ih s h hf

/-! ## Vector and quaternion algebra -/

theorem FVector.eq_of_coordinates {a b : FVector} (hx : a.X = b.X) (hy : a.Y = b.Y)
    (hz : a.Z = b.Z) : a = b := by
  cases a; cases b; simp_all

theorem FQuat.eq_of_components {a b : FQuat} (hx : a.X = b.X) (hy : a.Y = b.Y)
    (hz : a.Z = b.Z) (hw : a.W = b.W) : a = b := by
  cases a; cases b; simp_all

theorem FQuat.RotateVector_zero (q : FQuat) :
    q.RotateVector FVector.ZeroVector = FVector.ZeroVector := by
  apply FVector.eq_of_coordinates <;>
    simp [FQuat.RotateVector, FVector.Add, FVector.Scale, FVector.CrossProduct,
      FVector.ZeroVector]

theorem FQuat.UnrotateVector_zero (q : FQuat) :
    q.UnrotateVector FVector.ZeroVector = FVector.ZeroVector := by
  apply FVector.eq_of_coordinates <;>
    simp [FQuat.UnrotateVector, FVector.Add, FVector.Scale, FVector.CrossProduct,
      FVector.ZeroVector]

theorem FQuat.Identity_RotateVector (v : FVector) : FQuat.Identity.RotateVector v = v := by
  apply FVector.eq_of_coordinates <;>
    simp [FQuat.RotateVector, FVector.Add, FVector.Scale, FVector.CrossProduct,
      FQuat.Identity]

theorem FQuat.Identity_Mul (r : FQuat) : FQuat.Mul FQuat.Identity r = r := by
  apply FQuat.eq_of_components <;> simp [FQuat.Mul, FQuat.Identity]

theorem FVector.Sub_Add_cancel (p g : FVector) :
    FVector.Add (FVector.Add (FVector.Sub p g) g) FVector.ZeroVector = p := by
  apply FVector.eq_of_coordinates <;>
    simp [FVector.Add, FVector.Sub, FVector.ZeroVector]

theorem FVector.ZeroVector_Add (v : FVector) : FVector.Add FVector.ZeroVector v = v := by
  apply FVector.eq_of_coordinates <;> simp [FVector.Add, FVector.ZeroVector]

theorem FVector.Sub_self (p : FVector) : FVector.Sub p p = FVector.ZeroVector := by
  apply FVector.eq_of_coordinates <;> simp [FVector.Sub, FVector.ZeroVector]

theorem ApplyDeltaTransform.Loop_cons_movable (w : World) (D : FTransform)
    (snapping : Option ℚ) (s : ATransformerActor) (c : CompId) (rest : List (Option CompId))
    (g : GizmoId) (hg : s.Gizmo = some g) (hv : s.IsValidGizmo (some g) = true)
    (hm : s.bForceMobility = true ∨ s.Mobility c = EComponentMobility.Movable) :
    ApplyDeltaTransform.Loop w D snapping (some c :: rest) s
      = ApplyDeltaTransform.Loop w D snapping rest
          (SetTransform w
            ((match snapping with
              | some v => s.Emit (Event.GetSnappedTransformPerComponent g s.CurrentDomain v)
              | none => s).SetMobility c EComponentMobility.Movable) (some c)
            (match snapping with
             | some v =>
               w.GetSnappedTransformPerComponent g (s.ComponentTransforms c)
                 (ApplyDeltaTransform.NewTransform D (s.ComponentTransforms c)
                   (w.GetActorLocation g (s.GizmoActors g) s.ComponentTransforms)
                   s.bRotateOnLocalAxis) s.CurrentDomain v
             | none =>
               ApplyDeltaTransform.NewTransform D (s.ComponentTransforms c)
                 (w.GetActorLocation g (s.GizmoActors g) s.ComponentTransforms)
                 s.bRotateOnLocalAxis)) := by
  have hcond : (s.bForceMobility || decide (s.Mobility c = EComponentMobility.Movable))
      = true := by
    rcases hm with h | h <;> simp [h]
  cases snapping <;>
    simp [ApplyDeltaTransform.Loop, ApplyDeltaTransform.Step, hcond, hg, hv]

/-! ## What `ApplyDeltaTransform` leaves alone -/

theorem TransformFrame.same (s : ATransformerActor) : TransformFrame s s :=
  ⟨rfl, rfl, rfl, rfl, rfl, rfl, rfl, rfl, rfl, rfl, rfl, rfl, rfl⟩

theorem TransformFrame.followedBy {s t u : ATransformerActor} (h₁ : TransformFrame s t)
    (h₂ : TransformFrame t u) : TransformFrame s u :=
  ⟨h₂.1.trans h₁.1, h₂.2.trans h₁.2, h₂.3.trans h₁.3, h₂.4.trans h₁.4, h₂.5.trans h₁.5,
   h₂.6.trans h₁.6, h₂.7.trans h₁.7, h₂.8.trans h₁.8, h₂.9.trans h₁.9, h₂.10.trans h₁.10,
   h₂.11.trans h₁.11, h₂.12.trans h₁.12, h₂.13.trans h₁.13⟩

theorem Emit_transformFrame (s : ATransformerActor) (e : Event) :
    TransformFrame s (s.Emit e) := ⟨rfl, rfl, rfl, rfl, rfl, rfl, rfl, rfl, rfl, rfl, rfl, rfl, rfl⟩

theorem SetMobility_transformFrame (s : ATransformerActor) (c : CompId)
    (m : EComponentMobility) : TransformFrame s (s.SetMobility c m) :=
  ⟨rfl, rfl, rfl, rfl, rfl, rfl, rfl, rfl, rfl, rfl, rfl, rfl, rfl⟩

theorem SetWorldTransform_transformFrame (s : ATransformerActor) (c : CompId)
    (T : FTransform) : TransformFrame s (s.SetWorldTransform c T) :=
  ⟨rfl, rfl, rfl, rfl, rfl, rfl, rfl, rfl, rfl, rfl, rfl, rfl, rfl⟩

theorem SetTransform_transformFrame (w : World) (s : ATransformerActor) (c : Option CompId)
    (T : FTransform) : TransformFrame s (SetTransform w s c T) := by
  unfold SetTransform
  split
  · exact TransformFrame.same s
  · split
    · dsimp only
      split
      · exact (Emit_transformFrame s _).followedBy (SetWorldTransform_transformFrame _ _ _)
      · exact Emit_transformFrame s _
    · exact SetWorldTransform_transformFrame _ _ _

theorem ApplyDeltaTransform.Step_transformFrame (w : World) (D : FTransform)
    (snapping : Option ℚ) (s t : ATransformerActor) (sc : Option CompId)
    (h : ApplyDeltaTransform.Step w D snapping s sc = some t) : TransformFrame s t := by
  unfold ApplyDeltaTransform.Step at h
  split at h
  · cases h; exact TransformFrame.same s
  · split at h
    · split at h
      · split at h
        · cases h
          refine TransformFrame.followedBy ?_ (SetTransform_transformFrame w _ _ _)
          refine TransformFrame.followedBy ?_ (SetMobility_transformFrame _ _ _)
          cases snapping
          · exact TransformFrame.same s
          · exact Emit_transformFrame s _
        · cases h
      · cases h
    · cases h; exact Emit_transformFrame s _

theorem ApplyDeltaTransform.Loop_transformFrame (w : World) (D : FTransform)
    (snapping : Option ℚ) (l : List (Option CompId)) :
    ∀ s t : ATransformerActor, ApplyDeltaTransform.Loop w D snapping l s = some t →
      TransformFrame s t := by
  induction l with
  | nil => intro s t h; cases h; exact TransformFrame.same s
  | cons sc rest ih =>
    intro s t h
    unfold ApplyDeltaTransform.Loop at h
    cases hs : ApplyDeltaTransform.Step w D snapping s sc with
    | none => rw [hs] at h; cases h
    | some u =>
      rw [hs] at h
      exact (ApplyDeltaTransform.Step_transformFrame w D snapping s u sc hs).followedBy
        (ih u t h)

/-- While a gizmo is active no iteration of the loop dereferences a null pointer. -/
theorem ApplyDeltaTransform.Step_isSome (w : World) (D : FTransform) (snapping : Option ℚ)
    (s : ATransformerActor) (sc : Option CompId) (g : GizmoId) (hg : s.Gizmo = some g)
    (hv : s.IsValidGizmo (some g) = true) :
    ∃ t, ApplyDeltaTransform.Step w D snapping s sc = some t := by
  unfold ApplyDeltaTransform.Step
  split
  · exact ⟨_, rfl⟩
  · split
    · simp only [hg, hv, if_true]
      exact ⟨_, rfl⟩
    · exact ⟨_, rfl⟩

theorem TransformFrame.valid {s t : ATransformerActor} (h : TransformFrame s t)
    (g : GizmoId) (hg : s.Gizmo = some g) (hv : s.IsValidGizmo (some g) = true) :
    t.Gizmo = some g ∧ t.IsValidGizmo (some g) = true := by
  refine ⟨h.1.trans hg, ?_⟩
  simp only [ATransformerActor.IsValidGizmo, h.3] at hv ⊢
  exact hv

theorem ApplyDeltaTransform.Loop_isSome (w : World) (D : FTransform) (snapping : Option ℚ)
    (l : List (Option CompId)) (g : GizmoId) :
    ∀ s : ATransformerActor, s.Gizmo = some g → s.IsValidGizmo (some g) = true →
      ∃ t, ApplyDeltaTransform.Loop w D snapping l s = some t := by
  induction l with
  | nil => intro s _ _; exact ⟨s, rfl⟩
  | cons sc rest ih =>
    intro s hg hv
    obtain ⟨u, hu⟩ := ApplyDeltaTransform.Step_isSome w D snapping s sc g hg hv
    have hf := (ApplyDeltaTransform.Step_transformFrame w D snapping s u sc hu).valid g hg hv
    obtain ⟨t, ht⟩ := ih u hf.1 hf.2
    exact ⟨t, by simp [ApplyDeltaTransform.Loop, hu, ht]⟩

/-! ## The reset delta -/

theorem FVector.Add_ZeroVector (v : FVector) : FVector.Add v FVector.ZeroVector = v := by
  apply FVector.eq_of_coordinates <;> simp [FVector.Add, FVector.ZeroVector]

theorem SetTransform_same (w : World) (s : ATransformerActor) (c : CompId) :
    (SetTransform w s (some c) (s.ComponentTransforms c)).ComponentTransforms
      = s.ComponentTransforms := by
  have hw : ∀ u : ATransformerActor, u.ComponentTransforms = s.ComponentTransforms →
      (u.SetWorldTransform c (s.ComponentTransforms c)).ComponentTransforms
        = s.ComponentTransforms := by
    intro u hu
    funext x
    by_cases hx : x = c
    · simp [ATransformerActor.SetWorldTransform, hx]
    · simp [ATransformerActor.SetWorldTransform, hx, hu]
  unfold SetTransform
  dsimp only
  split
  · split
    · exact hw _ rfl
    · rfl
  · exact hw _ rfl

/-! ## One component in the loop of `ApplyDeltaTransform` -/

theorem SetTransform_ComponentTransforms_self (w : World) (s : ATransformerActor)
    (c : CompId) (T : FTransform) :
    (SetTransform w s (some c) T).ComponentTransforms c
      = if GetUFocusable w s (some c) = none ∨ s.bTransformUFocusableObjects = true then T
        else s.ComponentTransforms c := by
  unfold SetTransform
  dsimp only
  cases hf : GetUFocusable w s (some c) with
  | none => simp [ATransformerActor.SetWorldTransform]
  | some obj =>
    cases ht : s.bTransformUFocusableObjects <;>
      simp [ATransformerActor.SetWorldTransform, ATransformerActor.Emit, ht]

theorem SetTransform_ComponentTransforms_other (w : World) (s : ATransformerActor)
    (c x : CompId) (T : FTransform) (hx : x ≠ c) :
    (SetTransform w s (some c) T).ComponentTransforms x = s.ComponentTransforms x := by
  unfold SetTransform
  dsimp only
  split
  · split
    · simp [ATransformerActor.SetWorldTransform, ATransformerActor.Emit, hx]
    · rfl
  · simp [ATransformerActor.SetWorldTransform, hx]

theorem SetTransform_EventLog (w : World) (s : ATransformerActor) (c : Option CompId)
    (T : FTransform) : ∃ l, (SetTransform w s c T).EventLog = s.EventLog ++ l ∧
      SnapRequests l = [] := by
  unfold SetTransform
  split
  · exact ⟨[], by simp, rfl⟩
  · split
    · dsimp only
      split
      · exact ⟨[_], rfl, rfl⟩
      · exact ⟨[_], rfl, rfl⟩
    · exact ⟨[], by simp [ATransformerActor.SetWorldTransform], rfl⟩

theorem SnapRequests_append (l₁ l₂ : List Event) :
    SnapRequests (l₁ ++ l₂) = SnapRequests l₁ ++ SnapRequests l₂ := by
  simp [SnapRequests]

/-- The log only grows in an iteration, and without snapping no snap request is added. -/
theorem ApplyDeltaTransform.Step_EventLog (w : World) (D : FTransform) (snapping : Option ℚ)
    (s t : ATransformerActor) (sc : Option CompId)
    (h : ApplyDeltaTransform.Step w D snapping s sc = some t) :
    ∃ l, t.EventLog = s.EventLog ++ l ∧ (snapping = none → SnapRequests l = []) := by
  cases sc with
  | none => cases h; exact ⟨[], by simp, fun _ => rfl⟩
  | some c =>
    unfold ApplyDeltaTransform.Step at h
    dsimp only at h
    split at h
    · cases hg : s.Gizmo with
      | none => rw [hg] at h; cases h
      | some g =>
        rw [hg] at h
        dsimp only at h
        split at h
        · cases h
          cases snapping with
          | none =>
            dsimp only
            obtain ⟨l, hl, hs⟩ := SetTransform_EventLog w
              (s.SetMobility c EComponentMobility.Movable) (some c)
              (ApplyDeltaTransform.NewTransform D (s.ComponentTransforms c)
                (w.GetActorLocation g (s.GizmoActors g) s.ComponentTransforms)
                s.bRotateOnLocalAxis)
            exact ⟨l, hl, fun _ => hs⟩
          | some v =>
            dsimp only
            obtain ⟨l, hl, _⟩ := SetTransform_EventLog w
              ((s.Emit (Event.GetSnappedTransformPerComponent g s.CurrentDomain v)).SetMobility
                c EComponentMobility.Movable) (some c)
              (w.GetSnappedTransformPerComponent g (s.ComponentTransforms c)
                (ApplyDeltaTransform.NewTransform D (s.ComponentTransforms c)
                  (w.GetActorLocation g (s.GizmoActors g) s.ComponentTransforms)
                  s.bRotateOnLocalAxis) s.CurrentDomain v)
            refine ⟨Event.GetSnappedTransformPerComponent g s.CurrentDomain v :: l, ?_,
              fun hn => by cases hn⟩
            rw [hl]
            simp [ATransformerActor.SetMobility, ATransformerActor.Emit]
        · cases h
    · cases h; exact ⟨[_], rfl, fun _ => rfl⟩

theorem ApplyDeltaTransform.Loop_EventLog (w : World) (D : FTransform) (snapping : Option ℚ)
    (l : List (Option CompId)) :
    ∀ s t : ATransformerActor, ApplyDeltaTransform.Loop w D snapping l s = some t →
      ∃ k, t.EventLog = s.EventLog ++ k ∧ (snapping = none → SnapRequests k = []) := by
  induction l with
  | nil => intro s t h; cases h; exact ⟨[], by simp, fun _ => rfl⟩
  | cons sc rest ih =>
    intro s t h
    unfold ApplyDeltaTransform.Loop at h
    cases hs : ApplyDeltaTransform.Step w D snapping s sc with
    | none => rw [hs] at h; cases h
    | some u =>
      rw [hs] at h
      obtain ⟨k₁, h₁, n₁⟩ := ApplyDeltaTransform.Step_EventLog w D snapping s u sc hs
      obtain ⟨k₂, h₂, n₂⟩ := ih u t h
      refine ⟨k₁ ++ k₂, by rw [h₂, h₁, List.append_assoc], fun hn => ?_⟩
      rw [SnapRequests_append, n₁ hn, n₂ hn]; rfl

theorem ApplyDeltaTransform_isSome (w : World) (s : ATransformerActor) (D : FTransform)
    (g : GizmoId) (hg : s.Gizmo = some g) (hv : s.IsValidGizmo (some g) = true) :
    ∃ t, ApplyDeltaTransform w s D = some t :=
  ApplyDeltaTransform.Loop_isSome w D _ _ g s hg hv

/-- The shape of `UpdateTransform` during a session with inactive snapping. -/
theorem UpdateTransform_raw (w : World) (s : ATransformerActor) (L O Dir : FVector)
    (g : GizmoId) (hg : s.Gizmo = some g) (hv : s.IsValidGizmo (some g) = true)
    (hd : s.CurrentDomain ≠ ETransformationDomain.TD_None)
    (hsnap : s.ActiveSnappingValue = none) :
    ∃ t, ApplyDeltaTransform w s
        (w.GetDeltaTransform g (s.GizmoActors g) s.ComponentTransforms L O
          (FVector.Add O (FVector.Scale 100000000 Dir)) s.CurrentDomain) = some t ∧
      UpdateTransform w s L O Dir
        = some (t, w.GetDeltaTransform g (s.GizmoActors g) s.ComponentTransforms L O
          (FVector.Add O (FVector.Scale 100000000 Dir)) s.CurrentDomain) := by
  obtain ⟨t, ht⟩ := ApplyDeltaTransform_isSome w s
    (w.GetDeltaTransform g (s.GizmoActors g) s.ComponentTransforms L O
      (FVector.Add O (FVector.Scale 100000000 Dir)) s.CurrentDomain) g hg hv
  refine ⟨t, ht, ?_⟩
  unfold UpdateTransform
  simp [hg, hv, hd, hsnap, ht]

/-- The shape of `UpdateTransform` during a session with active snapping. -/
theorem UpdateTransform_snapped (w : World) (s : ATransformerActor) (L O Dir : FVector)
    (g : GizmoId) (v : ℚ) (hg : s.Gizmo = some g) (hv : s.IsValidGizmo (some g) = true)
    (hd : s.CurrentDomain ≠ ETransformationDomain.TD_None)
    (hsnap : s.ActiveSnappingValue = some v) :
    ∃ t, ApplyDeltaTransform w
        { s.Emit (Event.GetSnappedTransform g s.CurrentDomain v) with
          AccumulatedDeltaTransform :=
            (w.GetSnappedTransform g s.AccumulatedDeltaTransform
              (w.GetDeltaTransform g (s.GizmoActors g) s.ComponentTransforms L O
                (FVector.Add O (FVector.Scale 100000000 Dir)) s.CurrentDomain)
              s.CurrentDomain v).2 }
        (w.GetSnappedTransform g s.AccumulatedDeltaTransform
          (w.GetDeltaTransform g (s.GizmoActors g) s.ComponentTransforms L O
            (FVector.Add O (FVector.Scale 100000000 Dir)) s.CurrentDomain)
          s.CurrentDomain v).1 = some t ∧
      UpdateTransform w s L O Dir
        = some (t, (w.GetSnappedTransform g s.AccumulatedDeltaTransform
          (w.GetDeltaTransform g (s.GizmoActors g) s.ComponentTransforms L O
            (FVector.Add O (FVector.Scale 100000000 Dir)) s.CurrentDomain)
          s.CurrentDomain v).1) := by
  obtain ⟨t, ht⟩ := ApplyDeltaTransform_isSome w
    { s.Emit (Event.GetSnappedTransform g s.CurrentDomain v) with
      AccumulatedDeltaTransform :=
        (w.GetSnappedTransform g s.AccumulatedDeltaTransform
          (w.GetDeltaTransform g (s.GizmoActors g) s.ComponentTransforms L O
            (FVector.Add O (FVector.Scale 100000000 Dir)) s.CurrentDomain)
          s.CurrentDomain v).2 }
    (w.GetSnappedTransform g s.AccumulatedDeltaTransform
      (w.GetDeltaTransform g (s.GizmoActors g) s.ComponentTransforms L O
        (FVector.Add O (FVector.Scale 100000000 Dir)) s.CurrentDomain)
      s.CurrentDomain v).1 g hg hv
  refine ⟨t, ht, ?_⟩
  unfold UpdateTransform
  simp [hg, hv, hd, hsnap, ht]

/-- The function `UpdateTransform` dereferences no null pointer: it tests the gizmo before
it uses it. -/
theorem UpdateTransform_isSome (w : World) (s : ATransformerActor) (L O Dir : FVector) :
    ∃ t T, UpdateTransform w s L O Dir = some (t, T) := by
  cases hg : s.Gizmo with
  | none => exact ⟨s, FTransform.Identity.SetScale3D FVector.ZeroVector, by simp [UpdateTransform, hg]⟩
  | some g =>
    cases hv : s.IsValidGizmo (some g) with
    | false => exact ⟨s, FTransform.Identity.SetScale3D FVector.ZeroVector,
        by simp [UpdateTransform, hg, hv]⟩
    | true =>
      by_cases hd : s.CurrentDomain = ETransformationDomain.TD_None
      · exact ⟨s, FTransform.Identity.SetScale3D FVector.ZeroVector,
          by simp [UpdateTransform, hg, hv, hd]⟩
      · cases hsnap : s.ActiveSnappingValue with
        | none =>
          obtain ⟨t, _, h⟩ := UpdateTransform_raw w s L O Dir g hg hv hd hsnap
          exact ⟨t, _, h⟩
        | some v =>
          obtain ⟨t, _, h⟩ := UpdateTransform_snapped w s L O Dir g v hg hv hd hsnap
          exact ⟨t, _, h⟩

theorem ActiveSnappingValue_eq_none (s : ATransformerActor)
    (h : s.SnappingEnabled s.CurrentTransformation = none ∨
      s.SnappingEnabled s.CurrentTransformation = some false ∨
      s.SnappingValues s.CurrentTransformation = none) :
    s.ActiveSnappingValue = none := by
  unfold ATransformerActor.ActiveSnappingValue
  rcases h with h | h | h
  · rw [h]
  · rw [h]
  · rw [h]
    split
    · rename_i heq
      cases heq
    · rfl

theorem ActiveSnappingValue_eq_some (s : ATransformerActor) (v : ℚ)
    (he : s.SnappingEnabled s.CurrentTransformation = some true)
    (hval : s.SnappingValues s.CurrentTransformation = some v) :
    s.ActiveSnappingValue = some v := by
  unfold ATransformerActor.ActiveSnappingValue
  rw [he, hval]

/-! ## What the selection calls leave of the session -/

section Session
variable (w : World) (s : ATransformerActor)

theorem SessionFrame.unchanged : SessionFrame s s := ⟨rfl, rfl, rfl, rfl, rfl, rfl, rfl⟩

theorem SessionFrame.next {s t u : ATransformerActor} (h₁ : SessionFrame s t)
    (h₂ : SessionFrame t u) : SessionFrame s u :=
  ⟨h₂.1.trans h₁.1, h₂.2.trans h₁.2, h₂.3.trans h₁.3, h₂.4.trans h₁.4, h₂.5.trans h₁.5,
   h₂.6.trans h₁.6, h₂.7.trans h₁.7⟩

theorem OnGizmo_session (g : GizmoId) (f : ABaseGizmo → ABaseGizmo) :
    SessionFrame s (s.OnGizmo g f) := ⟨rfl, rfl, rfl, rfl, rfl, rfl, rfl⟩

theorem Emit_session (e : Event) : SessionFrame s (s.Emit e) :=
  ⟨rfl, rfl, rfl, rfl, rfl, rfl, rfl⟩

theorem ResetGizmo_session : SessionFrame s (ResetGizmo s) := by
  unfold ResetGizmo
  split
  · split
    · constructor <;> simp [ATransformerActor.OnGizmo]
    · exact SessionFrame.unchanged s
  · exact SessionFrame.unchanged s

theorem CreateGizmo_session (t : ETransformationType) :
    SessionFrame s (CreateGizmo w s t).1 := by
  unfold CreateGizmo
  split
  · split
    · constructor <;> simp [ATransformerActor.OnGizmo]
    · exact SessionFrame.unchanged s
  · exact SessionFrame.unchanged s

theorem SetGizmo.Create_session (index : Nat) :
    SessionFrame s (SetGizmo.Create w s index) := by
  have h := CreateGizmo_session w s s.CurrentTransformation
  exact ⟨h.1, h.2, h.3, h.4, h.5, h.6, h.7⟩

theorem SetGizmo.Acquire_session : SessionFrame s (SetGizmo.Acquire w s) := by
  unfold SetGizmo.Acquire
  dsimp only
  split
  · split
    · constructor <;> simp [ATransformerActor.OnGizmo]
    · exact SetGizmo.Create_session w s _
  · exact SetGizmo.Create_session w s _

theorem SetGizmo_session : SessionFrame s (SetGizmo w s) := by
  unfold SetGizmo
  split
  · split
    · split
      · split
        · exact SessionFrame.unchanged s
        · exact (ResetGizmo_session s).next (SetGizmo.Acquire_session w _)
      · exact SetGizmo.Acquire_session w s
    · exact SetGizmo.Acquire_session w s
  · exact ResetGizmo_session s

theorem UpdateGizmoPlacement_session : SessionFrame s (UpdateGizmoPlacement w s) := by
  have h := SetGizmo_session w s
  have hsw : ∀ u : ATransformerActor, SessionFrame u (UpdateGizmoPlacement.Switch u).1 := by
    intro u
    unfold UpdateGizmoPlacement.Switch
    split
    · exact SessionFrame.unchanged u
    · exact SessionFrame.unchanged u
    · exact Emit_session u _
  have hat : ∀ (u : ATransformerActor) (g : GizmoId) (c : Option CompId),
      SessionFrame u (UpdateGizmoPlacement.Attach w u g c) := by
    intro u g c
    unfold UpdateGizmoPlacement.Attach
    split
    · exact OnGizmo_session u _ _
    · exact SessionFrame.unchanged u
  unfold UpdateGizmoPlacement
  dsimp only
  split
  · exact h
  · split
    · exact h
    · exact h.next (((hsw _).next (hat _ _ _)).next (OnGizmo_session _ _ _))

theorem Select_session (c : Option CompId) : SessionFrame s (Select w s c).1 := by
  unfold Select
  split
  · exact Emit_session s _
  · exact SessionFrame.unchanged s
  · exact SessionFrame.unchanged s

theorem Deselect_session (c : Option CompId) : SessionFrame s (Deselect w s c).1 := by
  unfold Deselect
  split
  · exact Emit_session s _
  · exact SessionFrame.unchanged s
  · exact SessionFrame.unchanged s

theorem DeselectComponentAtIndex_Internal_session (Index : Int) :
    SessionFrame s (DeselectComponentAtIndex_Internal w s Index) := by
  unfold DeselectComponentAtIndex_Internal
  split
  · have h := Deselect_session w s (s.SelectedComponents.get? Index.toNat).join
    exact ⟨h.1, h.2, h.3, h.4, h.5, h.6, h.7⟩
  · exact SessionFrame.unchanged s

theorem AddComponent_Internal_session (c : Option CompId) :
    SessionFrame s (AddComponent_Internal w s c) := by
  unfold AddComponent_Internal
  dsimp only
  split
  · have h := Select_session w { s with SelectedComponents := s.SelectedComponents ++ [c] }
      ((s.SelectedComponents ++ [c]).getLastD none)
    exact ⟨h.1, h.2, h.3, h.4, h.5, h.6, h.7⟩
  · split
    · exact DeselectComponentAtIndex_Internal_session w s _
    · exact SessionFrame.unchanged s

theorem DeselectComponent_session (c : Option CompId) :
    SessionFrame s (DeselectComponent w s c) := by
  unfold DeselectComponent
  split
  · exact SessionFrame.unchanged s
  · refine SessionFrame.next ?_ (UpdateGizmoPlacement_session w _)
    unfold DeselectComponent_Internal
    dsimp only
    split
    · exact DeselectComponentAtIndex_Internal_session w s _
    · exact SessionFrame.unchanged s

theorem DestroyDeselected_session (c : Option CompId) :
    SessionFrame s (DestroyDeselected w s c) := by
  unfold DestroyDeselected
  split
  · exact SessionFrame.unchanged s
  · split
    · exact SessionFrame.unchanged s
    · split
      · split
        · exact ⟨rfl, rfl, rfl, rfl, rfl, rfl, rfl⟩
        · exact ⟨rfl, rfl, rfl, rfl, rfl, rfl, rfl⟩
      · exact SessionFrame.unchanged s

theorem DeselectAll_session (b : Bool) : SessionFrame s (DeselectAll w s b).1 := by
  have h₁ : ∀ (l : List (Option CompId)) (u : ATransformerActor),
      SessionFrame u (l.foldl (fun s i => DeselectComponent w s i) u) := by
    intro l
    induction l with
    | nil => intro u; exact SessionFrame.unchanged u
    | cons i rest ih => intro u; exact (DeselectComponent_session w u i).next (ih _)
  have h₂ : ∀ (l : List (Option CompId)) (u : ATransformerActor),
      SessionFrame u (l.foldl (DestroyDeselected w) u) := by
    intro l
    induction l with
    | nil => intro u; exact SessionFrame.unchanged u
    | cons i rest ih => intro u; exact (DestroyDeselected_session w u i).next (ih _)
  have h₃ : SessionFrame s
      { (s.SelectedComponents.foldl (fun s i => DeselectComponent w s i) s) with
        SelectedComponents := [] } := by
    have h := h₁ s.SelectedComponents s
    exact ⟨h.1, h.2, h.3, h.4, h.5, h.6, h.7⟩
  have h₄ := h₃.next (UpdateGizmoPlacement_session w _)
  unfold DeselectAll
  dsimp only
  split
  · exact h₄.next (h₂ _ _)
  · exact h₄

theorem SelectComponent_session (c : Option CompId) (b : Bool) :
    SessionFrame s (SelectComponent w s c b) := by
  unfold SelectComponent
  split
  · exact SessionFrame.unchanged s
  · split
    · refine SessionFrame.next ?_ (UpdateGizmoPlacement_session w _)
      refine SessionFrame.next ?_ (AddComponent_Internal_session w _ _)
      split
      · exact DeselectAll_session w s false
      · exact SessionFrame.unchanged s
    · exact SessionFrame.unchanged s

theorem SelectActor_session (a : Option ActorId) (b : Bool) :
    SessionFrame s (SelectActor w s a b) := by
  unfold SelectActor
  split
  · exact SessionFrame.unchanged s
  · split
    · refine SessionFrame.next ?_ (UpdateGizmoPlacement_session w _)
      refine SessionFrame.next ?_ (AddComponent_Internal_session w _ _)
      split
      · exact DeselectAll_session w s false
      · exact SessionFrame.unchanged s
    · exact SessionFrame.unchanged s

end Session

/-! ## The fallback of `HandleTracedObjects` -/

theorem SetDomain_AccumulatedDeltaTransform (s : ATransformerActor)
    (d : ETransformationDomain) :
    (SetDomain s d).AccumulatedDeltaTransform = s.AccumulatedDeltaTransform := by
  unfold SetDomain
  dsimp only
  split
  · split <;> rfl
  · rfl

theorem ClearDomain_session (s : ATransformerActor) :
    (ClearDomain s).CurrentDomain = ETransformationDomain.TD_None ∧
    (ClearDomain s).AccumulatedDeltaTransform = ResetDeltaTransform ∧
    (ClearDomain s).Gizmo = s.Gizmo ∧
    (ClearDomain s).DestroyedActors = s.DestroyedActors := by
  unfold ClearDomain
  exact ⟨SetDomain_CurrentDomain _ _, SetDomain_AccumulatedDeltaTransform _ _,
    (SetDomain_Gizmo _ _).1, (SetDomain_Gizmo _ _).2⟩

theorem HandleTracedObjects.GizmoLoop_AccumulatedDeltaTransform (w : World) (g : GizmoId)
    (hits : List FHitResult) :
    ∀ s : ATransformerActor,
      (HandleTracedObjects.GizmoLoop w g hits s).1.AccumulatedDeltaTransform
        = s.AccumulatedDeltaTransform := by
  induction hits with
  | nil => intro s; rfl
  | cons hit rest ih =>
    intro s
    unfold HandleTracedObjects.GizmoLoop
    split
    · split
      · dsimp only
        split
        · exact SetDomain_AccumulatedDeltaTransform s _
        · exact (ih _).trans (SetDomain_AccumulatedDeltaTransform s _)
      · exact ih s
    · exact ih s

theorem HandleTracedObjects.GizmoLoop_not_found (w : World) (g : GizmoId)
    (hits : List FHitResult) :
    ∀ s : ATransformerActor, (∀ h ∈ hits, IsGizmoDomainHit w g h = false) →
      s.CurrentDomain = ETransformationDomain.TD_None →
      (HandleTracedObjects.GizmoLoop w g hits s).2 = false ∧
      (HandleTracedObjects.GizmoLoop w g hits s).1.CurrentDomain
        = ETransformationDomain.TD_None ∧
      SelectionFrame s (HandleTracedObjects.GizmoLoop w g hits s).1 := by
  induction hits with
  | nil => intro s _ hd; exact ⟨rfl, hd, SelectionFrame.refl s⟩
  | cons hit rest ih =>
    intro s hno hd
    have hrest : ∀ h ∈ rest, IsGizmoDomainHit w g h = false :=
      fun h hm => hno h (List.mem_cons_of_mem _ hm)
    have hhit := hno hit (List.mem_cons_self _ _)
    unfold HandleTracedObjects.GizmoLoop
    by_cases ha : hit.Actor = some (ActorId.gizmo g)
    · simp only [ha, if_true]
      cases hc : hit.Component with
      | none => exact ih s hrest hd
      | some c =>
        have hnone : w.GetTransformationDomain g c = ETransformationDomain.TD_None := by
          simpa [IsGizmoDomainHit, ha, hc] using hhit
        dsimp only
        simp only [SetDomain_CurrentDomain, hnone, ne_eq, not_true_eq_false, if_false]
        obtain ⟨h1, h2, h3⟩ := ih (SetDomain s ETransformationDomain.TD_None) hrest
          (SetDomain_CurrentDomain _ _)
        exact ⟨h1, h2, (SetDomain_frame s _).compose h3⟩
    · simp only [ha, if_false]
      exact ih s hrest hd

theorem HandleTracedObjects.SelectLoop_spec (w : World) (b : Bool) (hits : List FHitResult)
    (s : ATransformerActor) :
    (∀ h, hits.find? IsOtherActorHit = some h →
      HandleTracedObjects.SelectLoop w b hits s
        = ((if s.bComponentBased then SelectComponent w s h.Component b
            else SelectActor w s h.Actor b), true)) ∧
    (hits.find? IsOtherActorHit = none →
      HandleTracedObjects.SelectLoop w b hits s = (s, false)) := by
  induction hits with
  | nil => exact ⟨fun h hf => by simp at hf, fun _ => rfl⟩
  | cons hit rest ih =>
    unfold HandleTracedObjects.SelectLoop
    cases ha : hit.Actor with
    | none =>
      have hp : IsOtherActorHit hit = true := by simp [IsOtherActorHit, ha]
      simp only [List.find?_cons, hp]
      refine ⟨fun h hf => ?_, fun hf => by simp at hf⟩
      have hh : hit = h := by simpa using hf
      subst hh
      split <;> simp [ha]
    | some a =>
      cases a with
      | scene n =>
        have hp : IsOtherActorHit hit = true := by simp [IsOtherActorHit, ha]
        simp only [List.find?_cons, hp]
        refine ⟨fun h hf => ?_, fun hf => by simp at hf⟩
        have hh : hit = h := by simpa using hf
        subst hh
        split <;> simp [ha]
      | gizmo g =>
        have hp : IsOtherActorHit hit = false := by simp [IsOtherActorHit, ha]
        simp only [List.find?_cons, hp]
        exact ih

theorem SelectComponent_SelectedComponents_congr (w : World) {s t : ATransformerActor}
    (h : SelectionFrame s t) (c : Option CompId) (b : Bool) :
    (SelectComponent w t c b).SelectedComponents
      = (SelectComponent w s c b).SelectedComponents := by
  cases c with
  | none => exact h.1
  | some c =>
    by_cases hs : w.ShouldSelect (w.GetOwner c) (some c) = true
    · rw [(SelectComponent_step w t c b hs).1, (SelectComponent_step w s c b hs).1, h.1, h.2]
    · simp only [SelectComponent, hs]
      exact h.1

theorem SelectActor_SelectedComponents_congr (w : World) {s t : ATransformerActor}
    (h : SelectionFrame s t) (a : Option ActorId) (b : Bool) :
    (SelectActor w t a b).SelectedComponents
      = (SelectActor w s a b).SelectedComponents := by
  cases a with
  | none => exact h.1
  | some a =>
    by_cases hs : w.ShouldSelect (some a) (w.GetRootComponent a) = true
    · rw [(SelectActor_step w t a b hs).1, (SelectActor_step w s a b hs).1, h.1, h.2]
    · simp only [SelectActor, hs]
      exact h.1

/-- The state in which the second loop of `HandleTracedObjects` starts when the first loop
returned nothing: domain None, selection and selection flags as on entry. -/
theorem HandleTracedObjects.fallback_state (w : World) (s : ATransformerActor)
    (hits : List FHitResult) (b : Bool)
    (hno : ∀ g, s.Gizmo = some g → s.IsValidGizmo (some g) = true →
      ∀ h ∈ hits, IsGizmoDomainHit w g h = false) :
    ∃ pre : ATransformerActor, SelectionFrame s pre ∧
      pre.CurrentDomain = ETransformationDomain.TD_None ∧
      HandleTracedObjects w s hits b = HandleTracedObjects.SelectLoop w b hits pre := by
  have hc := ClearDomain_session s
  unfold HandleTracedObjects
  dsimp only
  cases hg : (ClearDomain s).Gizmo with
  | none => exact ⟨ClearDomain s, ClearDomain_frame s, hc.1, by simp⟩
  | some g =>
    dsimp only
    by_cases hv : (ClearDomain s).IsValidGizmo (some g) = true
    · have hv' : s.IsValidGizmo (some g) = true := by
        simp only [ATransformerActor.IsValidGizmo, hc.2.2.2] at hv ⊢
        exact hv
      have hg' : s.Gizmo = some g := hc.2.2.1 ▸ hg
      obtain ⟨h1, h2, h3⟩ := HandleTracedObjects.GizmoLoop_not_found w g hits (ClearDomain s)
        (hno g hg' hv') hc.1
      refine ⟨(HandleTracedObjects.GizmoLoop w g hits (ClearDomain s)).1,
        (ClearDomain_frame s).compose h3, h2, ?_⟩
      simp [hv, h1]
    · refine ⟨ClearDomain s, ClearDomain_frame s, hc.1, ?_⟩
      simp [hv]

/-! ## The accumulated transform -/

theorem HandleTracedObjects.SelectLoop_session (w : World) (b : Bool)
    (hits : List FHitResult) (s : ATransformerActor) :
    SessionFrame s (HandleTracedObjects.SelectLoop w b hits s).1 := by
  induction hits with
  | nil => exact SessionFrame.unchanged s
  | cons hit rest ih =>
    unfold HandleTracedObjects.SelectLoop
    split
    · exact ih
    · split
      · exact SelectComponent_session w s _ _
      · exact SelectActor_session w s _ _

theorem HandleTracedObjects_AccumulatedDeltaTransform (w : World) (s : ATransformerActor)
    (hits : List FHitResult) (b : Bool) :
    (HandleTracedObjects w s hits b).1.AccumulatedDeltaTransform = ResetDeltaTransform := by
  have hc := ClearDomain_session s
  have key : ∀ r : ATransformerActor × Bool,
      r.1.AccumulatedDeltaTransform = ResetDeltaTransform →
      (if r.2 = true then (r.1, true)
       else HandleTracedObjects.SelectLoop w b hits r.1).1.AccumulatedDeltaTransform
        = ResetDeltaTransform := by
    intro r hr
    split
    · exact hr
    · exact ((HandleTracedObjects.SelectLoop_session w b hits r.1).3).trans hr
  unfold HandleTracedObjects
  dsimp only
  apply key
  split
  · split
    · exact (HandleTracedObjects.GizmoLoop_AccumulatedDeltaTransform w _ hits _).trans hc.2.1
    · exact hc.2.1
  · exact hc.2.1

theorem ApplyDeltaTransform_transformFrame (w : World) (s t : ATransformerActor)
    (D : FTransform) (h : ApplyDeltaTransform w s D = some t) : TransformFrame s t :=
  ApplyDeltaTransform.Loop_transformFrame w D _ _ s t h

/-! ## Lemmas on the gizmo pool, multiple selection and cloning -/

theorem SelectMultipleComponents.Loop_rejected (w : World) (cs : List (Option CompId))
    (h : AcceptedComponents w cs = []) (s : ATransformerActor) (b v : Bool) :
    SelectMultipleComponents.Loop w cs s b v = (s, v) := by
  induction cs with
  | nil => rfl
  | cons c cs ih =>
    cases c with
    | none =>
      unfold SelectMultipleComponents.Loop
      exact ih (by simpa [AcceptedComponents] using h)
    | some c =>
      unfold SelectMultipleComponents.Loop
      by_cases hs : w.ShouldSelect (w.GetOwner c) (some c) = true
      · simp [AcceptedComponents, hs] at h
      · have hs' : w.ShouldSelect (w.GetOwner c) (some c) = false := by simpa using hs
        simp only [hs', Bool.not_false, if_true]
        exact ih (by simpa [AcceptedComponents, hs'] using h)

theorem SelectMultipleActors.Loop_rejected_actors (w : World) (as : List (Option ActorId))
    (h : AcceptedActors w as = []) (s : ATransformerActor) (b v : Bool) :
    SelectMultipleActors.Loop w as s b v = (s, v) := by
  induction as with
  | nil => rfl
  | cons a as ih =>
    cases a with
    | none =>
      unfold SelectMultipleActors.Loop
      exact ih (by simpa [AcceptedActors] using h)
    | some a =>
      unfold SelectMultipleActors.Loop
      by_cases hs : w.ShouldSelect (some a) (w.GetRootComponent a) = true
      · simp [AcceptedActors, hs] at h
      · have hs' : w.ShouldSelect (some a) (w.GetRootComponent a) = false := by simpa using hs
        simp only [hs', Bool.not_false, if_true]
        exact ih (by simpa [AcceptedActors, hs'] using h)

theorem AddComponent_Internal_ToggleEntry (w : World) (s : ATransformerActor)
    (c : Option CompId) :
    (AddComponent_Internal w s c).SelectedComponents
        = ToggleEntry s.bToggleSelectedInMultiSelection s.SelectedComponents c ∧
      (AddComponent_Internal w s c).bToggleSelectedInMultiSelection
        = s.bToggleSelectedInMultiSelection := by
  have h := AddComponent_Internal_step w s c
  exact ⟨h.1, h.2⟩

theorem SelectMultipleComponents.Loop_selection (w : World) (cs : List (Option CompId)) :
    ∀ (s : ATransformerActor) (b v : Bool),
      (SelectMultipleComponents.Loop w cs s b v).1.SelectedComponents
          = ((AcceptedComponents w cs).map some).foldl
              (ToggleEntry s.bToggleSelectedInMultiSelection)
              (if b = false ∧ AcceptedComponents w cs ≠ [] then [] else s.SelectedComponents) ∧
        (SelectMultipleComponents.Loop w cs s b v).1.bToggleSelectedInMultiSelection
          = s.bToggleSelectedInMultiSelection ∧
        (SelectMultipleComponents.Loop w cs s b v).2
          = (v || decide (AcceptedComponents w cs ≠ [])) := by
  induction cs with
  | nil => intro s b v; simp [SelectMultipleComponents.Loop, AcceptedComponents]
  | cons c cs ih =>
    intro s b v
    cases c with
    | none =>
      have hacc : AcceptedComponents w (none :: cs) = AcceptedComponents w cs := by
        simp [AcceptedComponents]
      unfold SelectMultipleComponents.Loop
      rw [hacc]
      exact ih s b v
    | some c =>
      unfold SelectMultipleComponents.Loop
      by_cases hs : w.ShouldSelect (w.GetOwner c) (some c) = true
      · have hacc : AcceptedComponents w (some c :: cs) = c :: AcceptedComponents w cs := by
          simp [AcceptedComponents, hs]
        simp only [hs, Bool.not_true, Bool.false_eq_true, if_false, hacc]
        have hd := DeselectAll_step w s false
        have ha := AddComponent_Internal_ToggleEntry w
          (if false = b then (DeselectAll w s false).1 else s) (some c)
        have hflag : (if false = b then (DeselectAll w s false).1 else s).bToggleSelectedInMultiSelection
            = s.bToggleSelectedInMultiSelection := by
          split
          · exact hd.2
          · rfl
        have hsel : (if false = b then (DeselectAll w s false).1 else s).SelectedComponents
            = if b = false then [] else s.SelectedComponents := by
          cases b
          · simpa using hd.1
          · simp
        obtain ⟨i1, i2, i3⟩ := ih (AddComponent_Internal w
          (if false = b then (DeselectAll w s false).1 else s) (some c)) true true
        rw [ha.1, ha.2, hflag, hsel] at i1
        rw [ha.2, hflag] at i2
        refine ⟨?_, i2, ?_⟩
        · rw [i1]
          simp
        · rw [i3]; simp
      · have hs' : w.ShouldSelect (w.GetOwner c) (some c) = false := by simpa using hs
        have hacc : AcceptedComponents w (some c :: cs) = AcceptedComponents w cs := by
          simp [AcceptedComponents, hs']
        simp only [hs', Bool.not_false, if_true, hacc]
        exact ih s b v

theorem ToggleEntry_nodup (b : Bool) (L : List (Option CompId)) (c : Option CompId)
    (h : L.Nodup) : (ToggleEntry b L c).Nodup := by
  unfold ToggleEntry
  split
  · split
    · exact h.erase c
    · exact h
  · rename_i hc
    exact List.Nodup.append h (List.nodup_singleton c) (by simpa using hc)

theorem ToggleEntry_mem_toggle (L : List (Option CompId)) (c x : Option CompId)
    (h : L.Nodup) : x ∈ ToggleEntry true L c ↔ ((x ∈ L ∧ x ≠ c) ∨ (x ∉ L ∧ x = c)) := by
  unfold ToggleEntry
  by_cases hc : c ∈ L
  · simp only [hc, if_true]
    rw [List.Nodup.mem_erase_iff h]
    constructor
    · rintro ⟨h1, h2⟩; exact Or.inl ⟨h2, h1⟩
    · rintro (⟨h1, h2⟩ | ⟨h1, h2⟩)
      · exact ⟨h2, h1⟩
      · subst h2; exact absurd hc h1
  · simp only [hc, if_false, List.mem_append, List.mem_singleton]
    constructor
    · rintro (h1 | h1)
      · exact Or.inl ⟨h1, fun e => hc (e ▸ h1)⟩
      · exact Or.inr ⟨fun e => hc (h1 ▸ e), h1⟩
    · rintro (⟨h1, _⟩ | ⟨_, h2⟩)
      · exact Or.inl h1
      · exact Or.inr h2

theorem ToggleEntry_mem_keep (L : List (Option CompId)) (c x : Option CompId) :
    x ∈ ToggleEntry false L c ↔ (x ∈ L ∨ x = c) := by
  unfold ToggleEntry
  by_cases hc : c ∈ L
  · simp only [hc, if_true, Bool.false_eq_true, if_false]
    constructor
    · exact Or.inl
    · rintro (h1 | h1)
      · exact h1
      · subst h1; exact hc
  · simp [hc]

theorem Occurrences_cons (c x : CompId) (l : List CompId) :
    Occurrences c (x :: l) = Occurrences c l + (if x = c then 1 else 0) := by
  unfold Occurrences
  by_cases h : x = c <;> simp [List.filter_cons, h]

theorem foldl_ToggleEntry_toggle (l : List CompId) :
    ∀ L : List (Option CompId), L.Nodup →
      ((l.map some).foldl (ToggleEntry true) L).Nodup ∧
      (none ∈ (l.map some).foldl (ToggleEntry true) L ↔ none ∈ L) ∧
      ∀ c : CompId, some c ∈ (l.map some).foldl (ToggleEntry true) L ↔
        ((some c ∈ L ∧ Occurrences c l % 2 = 0) ∨ (some c ∉ L ∧ Occurrences c l % 2 = 1)) := by
  induction l with
  | nil =>
    intro L h
    refine ⟨h, Iff.rfl, fun c => ?_⟩
    simp [Occurrences]
  | cons x l ih =>
    intro L h
    obtain ⟨i1, i2, i3⟩ := ih (ToggleEntry true L (some x)) (ToggleEntry_nodup true L _ h)
    simp only [List.map_cons, List.foldl_cons]
    refine ⟨i1, ?_, fun c => ?_⟩
    · rw [i2, ToggleEntry_mem_toggle L (some x) none h]
      simp
    · rw [i3 c, ToggleEntry_mem_toggle L (some x) (some c) h, Occurrences_cons]
      by_cases hxc : x = c
      · subst hxc
        simp only [if_true, ne_eq, not_true_eq_false, and_false, and_true, false_or]
        by_cases hm : some x ∈ L
        · simp only [hm, not_true_eq_false, false_and, true_and, not_false_eq_true, false_or,
            or_false]
          omega
        · simp only [hm, not_false_eq_true, true_and, false_and, false_or, not_true_eq_false,
            or_false]
          omega
      · have hne : (some c : Option CompId) ≠ some x := fun e => hxc (Option.some.inj e).symm
        simp only [hxc, if_false, Nat.add_zero, ne_eq, hne, not_false_eq_true, and_true,
          and_false, or_false]

theorem foldl_ToggleEntry_keep (l : List CompId) :
    ∀ L : List (Option CompId), L.Nodup →
      ((l.map some).foldl (ToggleEntry false) L).Nodup ∧
      (none ∈ (l.map some).foldl (ToggleEntry false) L ↔ none ∈ L) ∧
      ∀ c : CompId, some c ∈ (l.map some).foldl (ToggleEntry false) L ↔
        (some c ∈ L ∨ c ∈ l) := by
  induction l with
  | nil =>
    intro L h
    exact ⟨h, Iff.rfl, fun c => by simp⟩
  | cons x l ih =>
    intro L h
    obtain ⟨i1, i2, i3⟩ := ih (ToggleEntry false L (some x)) (ToggleEntry_nodup false L _ h)
    simp only [List.map_cons, List.foldl_cons]
    refine ⟨i1, ?_, fun c => ?_⟩
    · rw [i2, ToggleEntry_mem_keep]
      simp
    · rw [i3 c, ToggleEntry_mem_keep]
      simp only [Option.some.injEq, List.mem_cons]
      tauto

theorem GizmoFrame.identical (s : ATransformerActor) : GizmoFrame s s :=
  ⟨rfl, rfl, rfl, rfl, rfl, fun _ h => h⟩

theorem GizmoFrame.thenFrame {s t u : ATransformerActor} (h₁ : GizmoFrame s t)
    (h₂ : GizmoFrame t u) : GizmoFrame s u :=
  ⟨h₂.1.trans h₁.1, h₂.2.trans h₁.2, h₂.3.trans h₁.3, h₂.4.trans h₁.4, h₂.5.trans h₁.5,
    fun p h => h₁.6 p (h₂.6 p h)⟩

theorem IsValidGizmo_append (s : ATransformerActor) (D : List ActorId) (E : List CompId)
    (p : Option GizmoId)
    (h : ATransformerActor.IsValidGizmo
      { s with DestroyedActors := s.DestroyedActors ++ D,
               DestroyedComponents := E } p = true) :
    s.IsValidGizmo p = true := by
  cases p with
  | none => exact h
  | some g =>
    simp only [ATransformerActor.IsValidGizmo, Bool.not_eq_true', List.contains_eq_any_beq,
      List.any_eq_false, List.mem_append, beq_iff_eq] at h ⊢
    intro a ha
    exact h a (Or.inl ha)

theorem DestroyDeselected_gizmoFrame (w : World) (s : ATransformerActor) (c : Option CompId) :
    GizmoFrame s (DestroyDeselected w s c) := by
  unfold DestroyDeselected
  split
  · exact GizmoFrame.identical s
  · split
    · exact GizmoFrame.identical s
    · split
      · split
        · exact ⟨rfl, rfl, rfl, rfl, rfl, fun p h => h⟩
        · exact ⟨rfl, rfl, rfl, rfl, rfl, fun p h => IsValidGizmo_append s _ _ p h⟩
      · exact GizmoFrame.identical s

theorem foldl_DestroyDeselected_gizmoFrame (w : World) (l : List (Option CompId)) :
    ∀ s : ATransformerActor, GizmoFrame s (l.foldl (DestroyDeselected w) s) := by
  induction l with
  | nil => intro s; exact GizmoFrame.identical s
  | cons c cs ih =>
    intro s
    exact (DestroyDeselected_gizmoFrame w s c).thenFrame (ih _)

/-- A state that keeps the selection and the gizmo of a placed state, and in which no more
gizmo actors are valid, is placed. -/
theorem GizmoPlaced.of_frame {s t : ATransformerActor} (h : GizmoPlaced s)
    (hf : GizmoFrame s t) (hsel : t.SelectedComponents = s.SelectedComponents) :
    GizmoPlaced t := by
  constructor
  · intro he
    rw [hsel] at he
    have h1 := h.empty he
    cases hv : t.IsValidGizmo t.Gizmo with
    | false => rfl
    | true =>
      have := hf.valid _ hv
      rw [hf.Gizmo, h1] at this
      exact absurd this (by simp)
  · intro g c hg hv hp hh
    rw [hf.GizmoActors]
    exact h.first g c (hf.Gizmo ▸ hg) (hf.valid _ hv) (hf.GizmoPlacement ▸ hp) (hsel ▸ hh)
  · intro g c hg hv hp hh
    rw [hf.GizmoActors]
    exact h.last g c (hf.Gizmo ▸ hg) (hf.valid _ hv) (hf.GizmoPlacement ▸ hp) (hsel ▸ hh)

theorem headD_of_head? {L : List (Option CompId)} {c : CompId}
    (h : L.head? = some (some c)) : L.headD none = some c := by
  cases L with
  | nil => simp at h
  | cons x xs => simpa using h

theorem getLastD_of_getLast? {L : List (Option CompId)} {c : CompId}
    (h : L.getLast? = some (some c)) : L.getLastD none = some c := by
  rw [List.getLastD_eq_getLast?, h]
  rfl

theorem UpdateGizmoPlacement.Switch_placement (x : ATransformerActor) :
    (UpdateGizmoPlacement.Switch x).1.GizmoPlacement = x.GizmoPlacement ∧
    (UpdateGizmoPlacement.Switch x).1.Gizmo = x.Gizmo ∧
    (UpdateGizmoPlacement.Switch x).1.DestroyedActors = x.DestroyedActors := by
  unfold UpdateGizmoPlacement.Switch
  split <;> exact ⟨rfl, rfl, rfl⟩

theorem UpdateGizmoPlacement.Attach_placement (w : World) (x : ATransformerActor)
    (g : GizmoId) (c : Option CompId) :
    (UpdateGizmoPlacement.Attach w x g c).GizmoPlacement = x.GizmoPlacement ∧
    (UpdateGizmoPlacement.Attach w x g c).Gizmo = x.Gizmo ∧
    (UpdateGizmoPlacement.Attach w x g c).DestroyedActors = x.DestroyedActors := by
  unfold UpdateGizmoPlacement.Attach
  split <;> exact ⟨rfl, rfl, rfl⟩

theorem UpdateGizmoPlacement.Attach_AttachParent (w : World) (x : ATransformerActor)
    (g : GizmoId) (c : CompId) :
    ((UpdateGizmoPlacement.Attach w x g (some c)).GizmoActors g).AttachParent = some c := by
  simp [UpdateGizmoPlacement.Attach, ATransformerActor.OnGizmo]

theorem UpdateGizmoPlacement_placed (w : World) (s : ATransformerActor) :
    GizmoPlaced (UpdateGizmoPlacement w s) := by
  have hne := SetGizmo_valid_selection_nonempty w s
  unfold UpdateGizmoPlacement
  dsimp only
  cases hg : (SetGizmo w s).Gizmo with
  | none =>
    dsimp only
    refine ⟨fun _ => ?_, fun g c h => ?_, fun g c h => ?_⟩
    · rw [hg]; rfl
    · rw [hg] at h; cases h
    · rw [hg] at h; cases h
  | some g =>
    dsimp only
    cases hv : (SetGizmo w s).IsValidGizmo (some g) with
    | false =>
      simp only [Bool.not_false, if_true]
      refine ⟨fun _ => ?_, fun g' c h hv' => ?_, fun g' c h hv' => ?_⟩
      · rw [hg]; exact hv
      · rw [hg] at h; cases h; rw [hv] at hv'; cases hv'
      · rw [hg] at h; cases h; rw [hv] at hv'; cases hv'
    | true =>
      simp only [Bool.not_true, Bool.false_eq_true, if_false]
      rw [hg, hv] at hne
      have hsw := UpdateGizmoPlacement.Switch_frame (SetGizmo w s)
      have hat := UpdateGizmoPlacement.Attach_frame w
        (UpdateGizmoPlacement.Switch (SetGizmo w s)).1 g
        (UpdateGizmoPlacement.Switch (SetGizmo w s)).2
      have hsel : (UpdateGizmoPlacement.Attach w (UpdateGizmoPlacement.Switch (SetGizmo w s)).1
          g (UpdateGizmoPlacement.Switch (SetGizmo w s)).2).SelectedComponents
          = (SetGizmo w s).SelectedComponents := hat.1.trans hsw.1
      have hpl : (UpdateGizmoPlacement.Attach w (UpdateGizmoPlacement.Switch (SetGizmo w s)).1
          g (UpdateGizmoPlacement.Switch (SetGizmo w s)).2).GizmoPlacement
          = (SetGizmo w s).GizmoPlacement :=
        (UpdateGizmoPlacement.Attach_placement w _ g _).1.trans
          (UpdateGizmoPlacement.Switch_placement _).1
      have hgz : (UpdateGizmoPlacement.Attach w (UpdateGizmoPlacement.Switch (SetGizmo w s)).1
          g (UpdateGizmoPlacement.Switch (SetGizmo w s)).2).Gizmo = some g :=
        ((UpdateGizmoPlacement.Attach_placement w _ g _).2.1.trans
          (UpdateGizmoPlacement.Switch_placement _).2.1).trans hg
      refine ⟨fun he => ?_, fun g' c h1 _ hp hh => ?_, fun g' c h1 _ hp hh => ?_⟩
      · exact absurd (hsel ▸ he) (hne rfl)
      · simp only [ATransformerActor.OnGizmo] at h1 hp hh ⊢
        rw [hgz] at h1
        cases h1
        rw [hpl] at hp
        rw [hsel] at hh
        have hentry : (UpdateGizmoPlacement.Switch (SetGizmo w s)).2 = some c := by
          unfold UpdateGizmoPlacement.Switch
          rw [hp]
          exact headD_of_head? hh
        simp only [if_true]
        rw [hentry]
        exact UpdateGizmoPlacement.Attach_AttachParent w _ g c
      · simp only [ATransformerActor.OnGizmo] at h1 hp hh ⊢
        rw [hgz] at h1
        cases h1
        rw [hpl] at hp
        rw [hsel] at hh
        have hentry : (UpdateGizmoPlacement.Switch (SetGizmo w s)).2 = some c := by
          unfold UpdateGizmoPlacement.Switch
          cases hpl2 : (SetGizmo w s).GizmoPlacement with
          | GP_OnFirstSelection => exact absurd hpl2 hp
          | GP_OnLastSelection => exact getLastD_of_getLast? hh
          | GP_None => exact getLastD_of_getLast? hh
        simp only [if_true]
        rw [hentry]
        exact UpdateGizmoPlacement.Attach_AttachParent w _ g c

section GizmoFrames

variable (w : World) (s : ATransformerActor)

theorem Emit_gizmoFrame (e : Event) : GizmoFrame s (s.Emit e) :=
  ⟨rfl, rfl, rfl, rfl, rfl, fun _ h => h⟩

theorem Select_gizmoFrame (c : Option CompId) : GizmoFrame s (Select w s c).1 := by
  unfold Select
  split
  · exact Emit_gizmoFrame s _
  · exact GizmoFrame.identical s
  · exact GizmoFrame.identical s

theorem Deselect_gizmoFrame (c : Option CompId) : GizmoFrame s (Deselect w s c).1 := by
  unfold Deselect
  split
  · exact Emit_gizmoFrame s _
  · exact GizmoFrame.identical s
  · exact GizmoFrame.identical s

theorem DeselectComponentAtIndex_Internal_gizmoFrame (Index : Int) :
    GizmoFrame s (DeselectComponentAtIndex_Internal w s Index) := by
  unfold DeselectComponentAtIndex_Internal
  split
  · have h := Deselect_gizmoFrame w s (s.SelectedComponents.get? Index.toNat).join
    exact ⟨h.1, h.2, h.3, h.4, h.5, h.6⟩
  · exact GizmoFrame.identical s

theorem AddComponent_Internal_gizmoFrame (c : Option CompId) :
    GizmoFrame s (AddComponent_Internal w s c) := by
  unfold AddComponent_Internal
  dsimp only
  split
  · have h := Select_gizmoFrame w { s with SelectedComponents := s.SelectedComponents ++ [c] }
      ((s.SelectedComponents ++ [c]).getLastD none)
    exact ⟨h.1, h.2, h.3, h.4, h.5, h.6⟩
  · split
    · exact DeselectComponentAtIndex_Internal_gizmoFrame w s _
    · exact GizmoFrame.identical s

theorem DeselectComponent_Internal_gizmoFrame (c : Option CompId) :
    GizmoFrame s (DeselectComponent_Internal w s c) := by
  unfold DeselectComponent_Internal
  dsimp only
  split
  · exact DeselectComponentAtIndex_Internal_gizmoFrame w s _
  · exact GizmoFrame.identical s

end GizmoFrames

/-- A property of the state that survives every step that leaves the gizmo alone, and
survives `UpdateGizmoPlacement`, survives every public selection call. -/
theorem SelectionCall_Run_preserves (w : World) (P : ATransformerActor → Prop)
    (hframe : ∀ s t, GizmoFrame s t → P s → P t)
    (hupdate : ∀ s, P s → P (UpdateGizmoPlacement w s)) :
    ∀ (call : SelectionCall) (s : ATransformerActor), P s → P (call.Run w s) := by
  have hDC : ∀ (c : Option CompId) (s : ATransformerActor), P s → P (DeselectComponent w s c) := by
    intro c s h
    unfold DeselectComponent
    split
    · exact h
    · exact hupdate _ (hframe _ _ (DeselectComponent_Internal_gizmoFrame w s _) h)
  have hfold : ∀ (l : List (Option CompId)) (s : ATransformerActor), P s →
      P (l.foldl (fun s i => DeselectComponent w s i) s) := by
    intro l
    induction l with
    | nil => intro s h; exact h
    | cons i rest ih => intro s h; exact ih _ (hDC i s h)
  have hDA : ∀ (b : Bool) (s : ATransformerActor), P s → P (DeselectAll w s b).1 := by
    intro b s h
    have h1 := hfold s.SelectedComponents s h
    have h2 : P { (s.SelectedComponents.foldl (fun s i => DeselectComponent w s i) s) with
        SelectedComponents := [] } :=
      hframe (s.SelectedComponents.foldl (fun s i => DeselectComponent w s i) s) _
        ⟨rfl, rfl, rfl, rfl, rfl, fun _ h => h⟩ h1
    have h3 := hupdate _ h2
    unfold DeselectAll
    dsimp only
    split
    · exact hframe _ _ (foldl_DestroyDeselected_gizmoFrame w _ _) h3
    · exact h3
  have hAdd : ∀ (c : Option CompId) (b : Bool) (s : ATransformerActor), P s →
      P (AddComponent_Internal w (if false = b then (DeselectAll w s false).1 else s) c) := by
    intro c b s h
    apply hframe _ _ (AddComponent_Internal_gizmoFrame w _ c)
    split
    · exact hDA false s h
    · exact h
  have hSMC : ∀ (cs : List (Option CompId)) (s : ATransformerActor) (b v : Bool), P s →
      P (SelectMultipleComponents.Loop w cs s b v).1 := by
    intro cs
    induction cs with
    | nil => intro s b v h; exact h
    | cons c cs ih =>
      intro s b v h
      cases c with
      | none => exact ih s b v h
      | some c =>
        unfold SelectMultipleComponents.Loop
        split
        · exact ih s b v h
        · exact ih _ _ _ (hAdd (some c) b s h)
  have hSMA : ∀ (as : List (Option ActorId)) (s : ATransformerActor) (b v : Bool), P s →
      P (SelectMultipleActors.Loop w as s b v).1 := by
    intro as
    induction as with
    | nil => intro s b v h; exact h
    | cons a as ih =>
      intro s b v h
      cases a with
      | none => exact ih s b v h
      | some a =>
        unfold SelectMultipleActors.Loop
        split
        · exact ih s b v h
        · exact ih _ _ _ (hAdd (w.GetRootComponent a) b s h)
  intro call s h
  cases call with
  | SelectComponent c b =>
    show P (RuntimeTransformer.SelectComponent w s c b)
    unfold RuntimeTransformer.SelectComponent
    split
    · exact h
    · rename_i c
      split
      · apply hupdate
        have := hAdd (some c) b s h
        cases b <;> simpa using this
      · exact h
  | SelectActor a b =>
    show P (RuntimeTransformer.SelectActor w s a b)
    unfold RuntimeTransformer.SelectActor
    split
    · exact h
    · split
      · exact hupdate _ (hAdd _ b s h)
      · exact h
  | SelectMultipleComponents cs b =>
    show P (RuntimeTransformer.SelectMultipleComponents w s cs b)
    unfold RuntimeTransformer.SelectMultipleComponents
    dsimp only
    split
    · exact hupdate _ (hSMC cs s b false h)
    · exact hSMC cs s b false h
  | SelectMultipleActors as b =>
    show P (RuntimeTransformer.SelectMultipleActors w s as b)
    unfold RuntimeTransformer.SelectMultipleActors
    dsimp only
    split
    · exact hupdate _ (hSMA as s b false h)
    · exact hSMA as s b false h
  | DeselectComponent c => exact hDC c s h
  | DeselectActor a =>
    show P (RuntimeTransformer.DeselectActor w s a)
    unfold RuntimeTransformer.DeselectActor
    split
    · exact hDC _ s h
    · exact h
  | DeselectAll b => exact hDA b s h

theorem GizmoInvariant.of_gizmoFrame {s t : ATransformerActor} (hf : GizmoFrame s t)
    (h : GizmoInvariant s) : GizmoInvariant t := by
  constructor
  · intro g hg hv hne
    rw [hf.GizmoActors]
    exact h.off g (hf.SpawnCount ▸ hg) (hf.valid _ hv) (hf.Gizmo ▸ hne)
  · intro g hg
    rw [hf.SpawnCount]
    exact h.pooled g (hf.GizmoActorPool ▸ hg)

/-- A call on the active gizmo actor keeps the invariant, which does not constrain it. -/
theorem GizmoInvariant.onActive {s : ATransformerActor} (h : GizmoInvariant s) (g : GizmoId)
    (hg : s.Gizmo = some g) (f : ABaseGizmo → ABaseGizmo) :
    GizmoInvariant (s.OnGizmo g f) := by
  constructor
  · intro g' hlt hv hne
    have hne' : g' ≠ g := fun e => hne (by rw [e]; exact hg)
    simp only [ATransformerActor.OnGizmo, hne', if_false]
    exact h.off g' hlt hv (by rw [hg]; exact fun e => hne' (Option.some.inj e).symm)
  · exact h.pooled

/-- Without an active gizmo every valid spawned gizmo actor is off. -/
theorem GizmoInvariant.allOff {s : ATransformerActor} (h : GizmoInvariant s)
    (hn : s.IsValidGizmo s.Gizmo = false) (g : GizmoId) (hg : g < s.SpawnCount)
    (hv : s.IsValidGizmo (some g) = true) : (s.GizmoActors g).IsOff = true := by
  apply h.off g hg hv
  intro e
  rw [e, hv] at hn
  cases hn

theorem IsValidGizmo_congr {s t : ATransformerActor}
    (h : t.DestroyedActors = s.DestroyedActors) (p : Option GizmoId) :
    t.IsValidGizmo p = s.IsValidGizmo p := by
  unfold ATransformerActor.IsValidGizmo
  rw [h]

theorem ResetGizmo_effect (s : ATransformerActor) (g : GizmoId) (hg : s.Gizmo = some g)
    (hv : s.IsValidGizmo (some g) = true) :
    (ResetGizmo s).Gizmo = none ∧ (ResetGizmo s).SpawnCount = s.SpawnCount ∧
    (ResetGizmo s).GizmoActorPool = s.GizmoActorPool ∧
    (ResetGizmo s).DestroyedActors = s.DestroyedActors ∧
    ((ResetGizmo s).GizmoActors g).IsOff = true ∧
    ∀ g', g' ≠ g → (ResetGizmo s).GizmoActors g' = s.GizmoActors g' := by
  unfold ResetGizmo
  simp only [hg, hv, if_true]
  refine ⟨trivial, ?_, ?_, ?_, ?_, ?_⟩
  · simp [ATransformerActor.OnGizmo]
  · simp [ATransformerActor.OnGizmo]
  · simp [ATransformerActor.OnGizmo]
  · simp [ATransformerActor.OnGizmo, ABaseGizmo.IsOff]
  · intro g' hne
    simp [ATransformerActor.OnGizmo, hne]

theorem ResetGizmo_invariant (s : ATransformerActor) (h : GizmoInvariant s) :
    GizmoInvariant (ResetGizmo s) := by
  cases hg : s.Gizmo with
  | none =>
    have : ResetGizmo s = s := by simp [ResetGizmo, hg]
    rw [this]; exact h
  | some g =>
    cases hv : s.IsValidGizmo (some g) with
    | false =>
      have : ResetGizmo s = s := by simp [ResetGizmo, hg, hv]
      rw [this]; exact h
    | true =>
      obtain ⟨e1, e2, e3, e4, e5, e6⟩ := ResetGizmo_effect s g hg hv
      constructor
      · intro g' hlt hv' _
        by_cases e : g' = g
        · subst e; exact e5
        · rw [e6 g' e]
          rw [e2] at hlt
          rw [IsValidGizmo_congr e4] at hv'
          exact h.off g' hlt hv' (by rw [hg]; exact fun e' => e (Option.some.inj e').symm)
      · intro g' hg'
        rw [e2]
        exact h.pooled g' (e3 ▸ hg')

theorem TArray.mem_SetNum {α : Type} {l : List (Option α)} {n : Nat} {x : α}
    (h : some x ∈ TArray.SetNum l n) : some x ∈ l := by
  unfold TArray.SetNum at h
  rcases List.mem_append.mp h with h | h
  · exact List.mem_of_mem_take h
  · have := (List.mem_replicate.mp h).2
    cases this

theorem SetGizmo.Create_effect (w : World) (s : ATransformerActor) (index : Nat) :
    (SetGizmo.Create w s index).DestroyedActors = s.DestroyedActors ∧
    (((SetGizmo.Create w s index).Gizmo = none ∧
      (SetGizmo.Create w s index).SpawnCount = s.SpawnCount ∧
      (SetGizmo.Create w s index).GizmoActors = s.GizmoActors ∧
      ∀ g, some g ∈ (SetGizmo.Create w s index).GizmoActorPool → some g ∈ s.GizmoActorPool) ∨
     ((SetGizmo.Create w s index).Gizmo = some s.SpawnCount ∧
      (SetGizmo.Create w s index).SpawnCount = s.SpawnCount + 1 ∧
      (∀ g', g' ≠ s.SpawnCount →
        (SetGizmo.Create w s index).GizmoActors g' = s.GizmoActors g') ∧
      ∀ g, some g ∈ (SetGizmo.Create w s index).GizmoActorPool →
        some g ∈ s.GizmoActorPool ∨ g = s.SpawnCount)) := by
  have hmem : ∀ (p : Option GizmoId) (g : GizmoId),
      some g ∈ (TArray.SetNum s.GizmoActorPool (index + 1)).set index p →
      some g ∈ s.GizmoActorPool ∨ some g = p := by
    intro p g hg
    rcases List.mem_or_eq_of_mem_set hg with hg | hg
    · exact Or.inl (TArray.mem_SetNum hg)
    · exact Or.inr hg
  unfold SetGizmo.Create CreateGizmo
  cases hw : w.bHasWorld with
  | false =>
    simp only [Bool.false_eq_true, if_false]
    refine ⟨trivial, Or.inl ⟨trivial, trivial, trivial, fun g hg => ?_⟩⟩
    rcases hmem none g hg with h | h
    · exact h
    · cases h
  | true =>
    cases hc : GetGizmoClass s s.CurrentTransformation with
    | none =>
      simp only [if_true]
      refine ⟨trivial, Or.inl ⟨trivial, trivial, trivial, fun g hg => ?_⟩⟩
      rcases hmem none g hg with h | h
      · exact h
      · cases h
    | some c =>
      simp only [if_true, ATransformerActor.OnGizmo]
      refine ⟨trivial, Or.inr ⟨trivial, trivial, fun g' hne => ?_, fun g hg => ?_⟩⟩
      · simp [hne]
      · rcases hmem (some s.SpawnCount) g hg with h | h
        · exact Or.inl h
        · exact Or.inr (Option.some.inj h)

theorem SetGizmo.Create_invariant (w : World) (s : ATransformerActor) (index : Nat)
    (h : GizmoInvariant s) (hn : s.IsValidGizmo s.Gizmo = false) :
    GizmoInvariant (SetGizmo.Create w s index) := by
  obtain ⟨hd, ⟨e1, e2, e3, e4⟩ | ⟨e1, e2, e3, e4⟩⟩ := SetGizmo.Create_effect w s index
  · constructor
    · intro g hlt hv _
      rw [e3]
      rw [e2] at hlt
      rw [IsValidGizmo_congr hd] at hv
      exact h.allOff hn g hlt hv
    · intro g hg
      rw [e2]
      exact h.pooled g (e4 g hg)
  · constructor
    · intro g hlt hv hne
      rw [e1] at hne
      have hne' : g ≠ s.SpawnCount := fun e => hne (by rw [e])
      rw [e3 g hne']
      rw [e2] at hlt
      rw [IsValidGizmo_congr hd] at hv
      exact h.allOff hn g (Nat.lt_of_le_of_ne (Nat.lt_succ_iff.mp hlt) hne') hv
    · intro g hg
      rw [e2]
      rcases e4 g hg with h1 | h1
      · exact Nat.lt_succ_of_lt (h.pooled g h1)
      · rw [h1]; exact Nat.lt_succ_self _

theorem SetGizmo.Acquire_pooled (s : ATransformerActor) (g : GizmoId) :
    ATransformerActor.Gizmo (((({ s with Gizmo := some g } : ATransformerActor).OnGizmo g
        (fun z => { z with bHidden := false })).OnGizmo g
        (fun z => { z with bTickEnabled := true })).OnGizmo g
        (fun z => { z with bEnableCollision := true })) = some g ∧
    ATransformerActor.SpawnCount (((({ s with Gizmo := some g } : ATransformerActor).OnGizmo g
        (fun z => { z with bHidden := false })).OnGizmo g
        (fun z => { z with bTickEnabled := true })).OnGizmo g
        (fun z => { z with bEnableCollision := true })) = s.SpawnCount ∧
    ATransformerActor.GizmoActorPool (((({ s with Gizmo := some g } : ATransformerActor).OnGizmo g
        (fun z => { z with bHidden := false })).OnGizmo g
        (fun z => { z with bTickEnabled := true })).OnGizmo g
        (fun z => { z with bEnableCollision := true })) = s.GizmoActorPool ∧
    ATransformerActor.DestroyedActors (((({ s with Gizmo := some g } : ATransformerActor).OnGizmo g
        (fun z => { z with bHidden := false })).OnGizmo g
        (fun z => { z with bTickEnabled := true })).OnGizmo g
        (fun z => { z with bEnableCollision := true })) = s.DestroyedActors ∧
    ∀ g', g' ≠ g →
      ATransformerActor.GizmoActors (((({ s with Gizmo := some g } : ATransformerActor).OnGizmo g
        (fun z => { z with bHidden := false })).OnGizmo g
        (fun z => { z with bTickEnabled := true })).OnGizmo g
        (fun z => { z with bEnableCollision := true })) g' = s.GizmoActors g' := by
  refine ⟨rfl, rfl, rfl, rfl, fun g' hne => ?_⟩
  simp [ATransformerActor.OnGizmo, hne]

theorem SetGizmo.Acquire_invariant (w : World) (s : ATransformerActor)
    (h : GizmoInvariant s) (hn : s.IsValidGizmo s.Gizmo = false) :
    GizmoInvariant (SetGizmo.Acquire w s) := by
  unfold SetGizmo.Acquire
  dsimp only
  split
  · rename_i g _
    split
    · obtain ⟨e1, e2, e3, e4, e5⟩ := SetGizmo.Acquire_pooled s g
      constructor
      · intro g' hlt hv hne
        rw [e1] at hne
        have hne' : g' ≠ g := fun e => hne (by rw [e])
        rw [e5 g' hne']
        rw [e2] at hlt
        rw [IsValidGizmo_congr e4] at hv
        exact h.allOff hn g' hlt hv
      · intro g' hg'
        rw [e2]
        exact h.pooled g' (e3 ▸ hg')
    · exact SetGizmo.Create_invariant w s _ h hn
  · exact SetGizmo.Create_invariant w s _ h hn

theorem SetGizmo_invariant (w : World) (s : ATransformerActor) (h : GizmoInvariant s) :
    GizmoInvariant (SetGizmo w s) := by
  unfold SetGizmo
  split
  · cases hg : s.Gizmo with
    | none =>
      exact SetGizmo.Acquire_invariant w s h (by rw [hg]; rfl)
    | some g =>
      dsimp only
      cases hv : s.IsValidGizmo (some g) with
      | false =>
        simp only [Bool.false_eq_true, if_false]
        exact SetGizmo.Acquire_invariant w s h (by rw [hg]; exact hv)
      | true =>
        simp only [if_true]
        split
        · exact h
        · exact SetGizmo.Acquire_invariant w _ (ResetGizmo_invariant s h)
            (ResetGizmo_not_valid s)
  · exact ResetGizmo_invariant s h

theorem UpdateGizmoPlacement_invariant (w : World) (s : ATransformerActor)
    (h : GizmoInvariant s) : GizmoInvariant (UpdateGizmoPlacement w s) := by
  have h1 := SetGizmo_invariant w s h
  unfold UpdateGizmoPlacement
  dsimp only
  cases hg : (SetGizmo w s).Gizmo with
  | none => exact h1
  | some g =>
    dsimp only
    split
    · exact h1
    · have h2 : GizmoInvariant (UpdateGizmoPlacement.Switch (SetGizmo w s)).1 := by
        unfold UpdateGizmoPlacement.Switch
        split
        · exact h1
        · exact h1
        · exact GizmoInvariant.of_gizmoFrame (Emit_gizmoFrame _ _) h1
      have hg2 : (UpdateGizmoPlacement.Switch (SetGizmo w s)).1.Gizmo = some g :=
        (UpdateGizmoPlacement.Switch_placement _).2.1.trans hg
      have h3 : GizmoInvariant (UpdateGizmoPlacement.Attach w
          (UpdateGizmoPlacement.Switch (SetGizmo w s)).1 g
          (UpdateGizmoPlacement.Switch (SetGizmo w s)).2) := by
        unfold UpdateGizmoPlacement.Attach
        split
        · exact h2.onActive g hg2 _
        · exact h2
      exact h3.onActive g ((UpdateGizmoPlacement.Attach_placement w _ g _).2.1.trans hg2) _

theorem SetSpaceType_invariant (w : World) (s : ATransformerActor) (st : ESpaceType)
    (h : GizmoInvariant s) : GizmoInvariant (SetSpaceType w s st) := by
  unfold SetSpaceType
  exact SetGizmo_invariant w _ ⟨h.off, h.pooled⟩

theorem SetTransformationType_invariant (w : World) (s : ATransformerActor)
    (t : ETransformationType) (h : GizmoInvariant s) :
    GizmoInvariant (SetTransformationType w s t) := by
  unfold SetTransformationType
  split
  · exact h
  · apply UpdateGizmoPlacement_invariant
    have h1 : GizmoInvariant (if t = ETransformationType.TT_NoTransform then
        s.Emit (Event.Log LogMessage.TransformationTypeNone) else s) := by
      split
      · exact GizmoInvariant.of_gizmoFrame (Emit_gizmoFrame _ _) h
      · exact h
    exact ⟨h1.off, h1.pooled⟩

theorem PublicCall.Run_invariant (w : World) (call : PublicCall) (s : ATransformerActor)
    (h : GizmoInvariant s) : GizmoInvariant (call.Run w s) := by
  cases call with
  | Selection c =>
    exact SelectionCall_Run_preserves w GizmoInvariant
      (fun _ _ hf hs => GizmoInvariant.of_gizmoFrame hf hs)
      (fun s hs => UpdateGizmoPlacement_invariant w s hs) c s h
  | SetTransformationType t => exact SetTransformationType_invariant w s t h
  | SetSpaceType st => exact SetSpaceType_invariant w s st h

theorem RunPublicCalls_invariant (w : World) (calls : List PublicCall) :
    ∀ s : ATransformerActor, GizmoInvariant s → GizmoInvariant (RunPublicCalls w s calls) := by
  induction calls with
  | nil => intro s h; exact h
  | cons c cs ih => intro s h; exact ih _ (PublicCall.Run_invariant w c s h)

theorem TArray.mem_RemoveAtSwap {α : Type} {l : List α} {i : Nat} {x : α}
    (h : x ∈ TArray.RemoveAtSwap l i) : x ∈ l := by
  unfold TArray.RemoveAtSwap at h
  cases hl : l.getLast? with
  | none => rw [hl] at h; exact h
  | some last =>
    rw [hl] at h
    have h1 := List.mem_of_mem_dropLast h
    rcases List.mem_or_eq_of_mem_set h1 with h2 | h2
    · exact h2
    · rw [h2]; exact List.mem_of_getLast?_eq_some hl

theorem IsValidGizmo_of_subset {s t : ATransformerActor}
    (h : ∀ a, a ∈ s.DestroyedActors → a ∈ t.DestroyedActors) (p : Option GizmoId)
    (hv : t.IsValidGizmo p = true) : s.IsValidGizmo p = true := by
  cases p with
  | none => exact hv
  | some g =>
    simp only [ATransformerActor.IsValidGizmo, Bool.not_eq_true', List.contains_eq_any_beq,
      List.any_eq_false, beq_iff_eq] at hv ⊢
    intro a ha
    exact hv a (h a ha)

/-- The invariant survives a step that keeps the gizmo and the gizmo actors, destroys
objects and drops entries from the pool. -/
theorem GizmoInvariant.of_shrink {s t : ATransformerActor} (h : GizmoInvariant s)
    (e1 : t.Gizmo = s.Gizmo) (e2 : t.GizmoActors = s.GizmoActors)
    (e3 : t.SpawnCount = s.SpawnCount)
    (e4 : ∀ a, a ∈ s.DestroyedActors → a ∈ t.DestroyedActors)
    (e5 : ∀ g, some g ∈ t.GizmoActorPool → some g ∈ s.GizmoActorPool) :
    GizmoInvariant t := by
  constructor
  · intro g hlt hv hne
    rw [e2]
    exact h.off g (e3 ▸ hlt) (IsValidGizmo_of_subset e4 _ hv) (e1 ▸ hne)
  · intro g hg
    rw [e3]
    exact h.pooled g (e5 g hg)

theorem BeginPlay.DestroyLoop_invariant (w : World) (fuel : Nat) :
    ∀ (Index : Nat) (s : ATransformerActor), GizmoInvariant s →
      GizmoInvariant (BeginPlay.DestroyLoop w fuel Index s) ∧
      (BeginPlay.DestroyLoop w fuel Index s).Gizmo = s.Gizmo ∧
      (BeginPlay.DestroyLoop w fuel Index s).SpawnCount = s.SpawnCount ∧
      (BeginPlay.DestroyLoop w fuel Index s).GizmoActors = s.GizmoActors := by
  induction fuel with
  | zero => intro i s h; exact ⟨h, rfl, rfl, rfl⟩
  | succ fuel ih =>
    intro i s h
    unfold BeginPlay.DestroyLoop
    cases hget : s.GizmoActorPool.get? i with
    | none => exact ⟨h, rfl, rfl, rfl⟩
    | some p =>
      cases p with
      | none => exact ih _ s h
      | some g =>
        dsimp only
        split
        · have h' : GizmoInvariant
              { s.DestroyActor w (ActorId.gizmo g) with
                GizmoActorPool := TArray.RemoveAtSwap
                  (s.DestroyActor w (ActorId.gizmo g)).GizmoActorPool i } :=
            h.of_shrink rfl rfl rfl
              (fun a ha => by
                show a ∈ s.DestroyedActors ++ [ActorId.gizmo g]
                exact List.mem_append_left _ ha)
              (fun g' hg' => TArray.mem_RemoveAtSwap hg')
          obtain ⟨i1, i2, i3, i4⟩ := ih i _ h'
          exact ⟨i1, i2, i3, i4⟩
        · exact ih _ s h

theorem BeginPlay.DestroyLoop_classes (w : World) (fuel : Nat) :
    ∀ (Index : Nat) (s : ATransformerActor),
      GetGizmoClass (BeginPlay.DestroyLoop w fuel Index s) = GetGizmoClass s := by
  induction fuel with
  | zero => intro i s; rfl
  | succ fuel ih =>
    intro i s
    unfold BeginPlay.DestroyLoop
    cases hget : s.GizmoActorPool.get? i with
    | none => rfl
    | some p =>
      cases p with
      | none => exact ih _ s
      | some g =>
        dsimp only
        split
        · rw [ih]; rfl
        · exact ih _ s

/-- What `BeginPlay` leaves when it returns: one new gizmo actor, hidden and with tick and
collision disabled, stored in slot 0 of a pool of three entries. -/
theorem BeginPlay_some (w : World) (s t : ATransformerActor) (hb : BeginPlay w s = some t) :
    t.Gizmo = (BeginPlay.DestroyLoop w s.GizmoActorPool.length 0 s).Gizmo ∧
    t.SpawnCount = (BeginPlay.DestroyLoop w s.GizmoActorPool.length 0 s).SpawnCount + 1 ∧
    t.DestroyedActors = (BeginPlay.DestroyLoop w s.GizmoActorPool.length 0 s).DestroyedActors ∧
    t.GizmoActorPool = (TArray.SetNum
        (BeginPlay.DestroyLoop w s.GizmoActorPool.length 0 s).GizmoActorPool 3).set 0
      (some (BeginPlay.DestroyLoop w s.GizmoActorPool.length 0 s).SpawnCount) ∧
    (t.GizmoActors (BeginPlay.DestroyLoop w s.GizmoActorPool.length 0 s).SpawnCount).IsOff
      = true ∧
    ∀ g, g ≠ (BeginPlay.DestroyLoop w s.GizmoActorPool.length 0 s).SpawnCount →
      t.GizmoActors g = (BeginPlay.DestroyLoop w s.GizmoActorPool.length 0 s).GizmoActors g := by
  unfold BeginPlay at hb
  dsimp only at hb
  unfold CreateGizmo at hb
  cases hw : w.bHasWorld with
  | false => simp [hw] at hb
  | true =>
    cases hc : GetGizmoClass
        { BeginPlay.DestroyLoop w s.GizmoActorPool.length 0 s with
          GizmoActorPool := TArray.SetNum
            (BeginPlay.DestroyLoop w s.GizmoActorPool.length 0 s).GizmoActorPool 3 }
        ETransformationType.TT_Translation with
    | none => simp [hw, hc] at hb
    | some c =>
      simp only [hw, if_true, hc, Option.some.injEq] at hb
      subst hb
      refine ⟨?_, ?_, ?_, ?_, ?_, ?_⟩
      · simp [ATransformerActor.OnGizmo]
      · simp [ATransformerActor.OnGizmo]
      · simp [ATransformerActor.OnGizmo]
      · simp [ATransformerActor.OnGizmo]
      · simp [ATransformerActor.OnGizmo, ABaseGizmo.IsOff]
      · intro g hne
        simp [ATransformerActor.OnGizmo, hne]

theorem BeginPlay_effect (w : World) (s t : ATransformerActor) (h : GizmoInvariant s)
    (hb : BeginPlay w s = some t) :
    GizmoInvariant t ∧ t.Gizmo = s.Gizmo ∧ t.SpawnCount = s.SpawnCount + 1 ∧
    (t.GizmoActors s.SpawnCount).IsOff = true ∧ some s.SpawnCount ∈ t.GizmoActorPool := by
  obtain ⟨l1, l2, l3, l4⟩ :=
    BeginPlay.DestroyLoop_invariant w s.GizmoActorPool.length 0 s h
  obtain ⟨b1, b2, b3, b4, b5, b6⟩ := BeginPlay_some w s t hb
  rw [l3] at b2 b4 b5 b6
  refine ⟨⟨fun g hlt hv hne => ?_, fun g hg => ?_⟩, b1.trans l2, b2, b5, ?_⟩
  · by_cases e : g = s.SpawnCount
    · rw [e]; exact b5
    · rw [b6 g e]
      rw [b2] at hlt
      rw [IsValidGizmo_congr b3] at hv
      rw [b1] at hne
      exact l1.off g (l3 ▸ Nat.lt_of_le_of_ne (Nat.lt_succ_iff.mp hlt) e) hv hne
  · rw [b2]
    rw [b4] at hg
    rcases List.mem_or_eq_of_mem_set hg with hg | hg
    · have := l1.pooled g (TArray.mem_SetNum hg)
      rw [l3] at this
      exact Nat.lt_succ_of_lt this
    · cases hg
      exact Nat.lt_succ_self _
  · rw [b4]
    apply List.mem_set
    simp [TArray.SetNum]
    omega

theorem BeginPlay_isSome (w : World) (s : ATransformerActor) (hw : w.bHasWorld = true)
    (hc : s.TranslationGizmoClass ≠ none) : ∃ t, BeginPlay w s = some t := by
  obtain ⟨c, hc'⟩ := Option.ne_none_iff_exists'.mp hc
  have l5 := BeginPlay.DestroyLoop_classes w s.GizmoActorPool.length 0 s
  have : GetGizmoClass
      { BeginPlay.DestroyLoop w s.GizmoActorPool.length 0 s with
        GizmoActorPool := TArray.SetNum
          (BeginPlay.DestroyLoop w s.GizmoActorPool.length 0 s).GizmoActorPool 3 }
      ETransformationType.TT_Translation = some c := by
    have e : GetGizmoClass
        { BeginPlay.DestroyLoop w s.GizmoActorPool.length 0 s with
          GizmoActorPool := TArray.SetNum
            (BeginPlay.DestroyLoop w s.GizmoActorPool.length 0 s).GizmoActorPool 3 }
        = GetGizmoClass (BeginPlay.DestroyLoop w s.GizmoActorPool.length 0 s) := rfl
    rw [e, l5]
    exact hc'
  unfold BeginPlay
  dsimp only
  simp [CreateGizmo, hw, this]

theorem TArray.length_RemoveAtSwap {α : Type} (l : List α) (i : Nat) (h : i < l.length) :
    (TArray.RemoveAtSwap l i).length = l.length - 1 := by
  unfold TArray.RemoveAtSwap
  cases hl : l.getLast? with
  | none =>
    rw [List.getLast?_eq_none_iff] at hl
    subst hl
    simp at h
  | some last => simp

/-- The loop at the start of `BeginPlay` is finished after as many iterations as the pool
has entries from the iterator on: more fuel does not change its result. -/
theorem BeginPlay.DestroyLoop_fuel (w : World) (fuel : Nat) :
    ∀ (Index : Nat) (s : ATransformerActor), s.GizmoActorPool.length - Index ≤ fuel →
      BeginPlay.DestroyLoop w (fuel + 1) Index s = BeginPlay.DestroyLoop w fuel Index s := by
  induction fuel with
  | zero =>
    intro i s h
    have hn : s.GizmoActorPool.get? i = none := by
      rw [List.get?_eq_none]
      omega
    simp only [BeginPlay.DestroyLoop, hn]
  | succ n ih =>
    intro i s h
    rw [BeginPlay.DestroyLoop]
    conv => rhs; rw [BeginPlay.DestroyLoop]
    cases hget : s.GizmoActorPool.get? i with
    | none => rfl
    | some p =>
      have hlt : i < s.GizmoActorPool.length := by
        by_contra hge
        rw [List.get?_eq_none.mpr (by omega)] at hget
        cases hget
      cases p with
      | none => exact ih _ s (by omega)
      | some g =>
        dsimp only
        split
        · apply ih
          show (TArray.RemoveAtSwap s.GizmoActorPool i).length - i ≤ n
          rw [TArray.length_RemoveAtSwap _ _ hlt]
          omega
        · exact ih _ s (by omega)

theorem SetTransformationType_switch (w : World) (s : ATransformerActor)
    (t : ETransformationType) (g : GizmoId) (hg : s.Gizmo = some g)
    (hv : s.IsValidGizmo (some g) = true) (hsel : s.SelectedComponents ≠ [])
    (hk : (s.GizmoActors g).GizmoType ≠ t) :
    SetGizmo w { (if t = ETransformationType.TT_NoTransform then
          s.Emit (Event.Log LogMessage.TransformationTypeNone) else s) with
        CurrentTransformation := t, AccumulatedDeltaTransform := ResetDeltaTransform }
      = SetGizmo.Acquire w (ResetGizmo
          { (if t = ETransformationType.TT_NoTransform then
              s.Emit (Event.Log LogMessage.TransformationTypeNone) else s) with
            CurrentTransformation := t, AccumulatedDeltaTransform := ResetDeltaTransform }) ∧
    (ResetGizmo
        { (if t = ETransformationType.TT_NoTransform then
            s.Emit (Event.Log LogMessage.TransformationTypeNone) else s) with
          CurrentTransformation := t, AccumulatedDeltaTransform := ResetDeltaTransform }).Gizmo
      = none ∧
    ((ResetGizmo
        { (if t = ETransformationType.TT_NoTransform then
            s.Emit (Event.Log LogMessage.TransformationTypeNone) else s) with
          CurrentTransformation := t, AccumulatedDeltaTransform := ResetDeltaTransform
          }).GizmoActors g).IsOff = true := by
  have key : ∀ x : ATransformerActor, x.Gizmo = some g → x.IsValidGizmo (some g) = true →
      x.SelectedComponents ≠ [] → (x.GizmoActors g).GizmoType ≠ x.CurrentTransformation →
      SetGizmo w x = SetGizmo.Acquire w (ResetGizmo x) ∧ (ResetGizmo x).Gizmo = none ∧
        ((ResetGizmo x).GizmoActors g).IsOff = true := by
    intro x h1 h2 h3 h4
    obtain ⟨e1, _, _, _, e5, _⟩ := ResetGizmo_effect x g h1 h2
    refine ⟨?_, e1, e5⟩
    have hlen : x.SelectedComponents.length > 0 := List.length_pos.mpr h3
    unfold SetGizmo
    simp only [hlen, if_true, h1, h2]
    rw [if_neg (fun e => h4 e.symm)]
  apply key
  · split <;> exact hg
  · split <;> exact hv
  · split <;> exact hsel
  · show ((if t = ETransformationType.TT_NoTransform then
        s.Emit (Event.Log LogMessage.TransformationTypeNone) else s).GizmoActors g).GizmoType ≠ t
    split <;> exact hk

theorem SelectMultipleActors.Loop_valid (w : World) (as : List (Option ActorId)) :
    ∀ (s : ATransformerActor) (b v : Bool),
      (SelectMultipleActors.Loop w as s b v).2 = (v || decide (AcceptedActors w as ≠ [])) := by
  induction as with
  | nil => intro s b v; simp [SelectMultipleActors.Loop, AcceptedActors]
  | cons a as ih =>
    intro s b v
    cases a with
    | none =>
      have hacc : AcceptedActors w (none :: as) = AcceptedActors w as := by
        simp [AcceptedActors]
      unfold SelectMultipleActors.Loop
      rw [hacc]
      exact ih s b v
    | some a =>
      unfold SelectMultipleActors.Loop
      by_cases hs : w.ShouldSelect (some a) (w.GetRootComponent a) = true
      · have hacc : AcceptedActors w (some a :: as) = a :: AcceptedActors w as := by
          simp [AcceptedActors, hs]
        simp only [hs, Bool.not_true, Bool.false_eq_true, if_false, hacc]
        rw [ih]
        simp
      · have hs' : w.ShouldSelect (some a) (w.GetRootComponent a) = false := by simpa using hs
        have hacc : AcceptedActors w (some a :: as) = AcceptedActors w as := by
          simp [AcceptedActors, hs']
        simp only [hs', Bool.not_false, if_true, hacc]
        exact ih s b v

theorem SelectMultipleComponents_unchanged_or_updated (w : World) (s : ATransformerActor)
    (cs : List (Option CompId)) (b : Bool) :
    SelectMultipleComponents w s cs b = s ∨
    ∃ x, SelectMultipleComponents w s cs b = UpdateGizmoPlacement w x := by
  unfold SelectMultipleComponents
  dsimp only
  split
  · exact Or.inr ⟨_, rfl⟩
  · rename_i hv
    left
    have h3 := (SelectMultipleComponents.Loop_selection w cs s b false).2.2
    rw [h3] at hv
    have hacc : AcceptedComponents w cs = [] := by simpa using hv
    rw [SelectMultipleComponents.Loop_rejected w cs hacc]

theorem SelectMultipleActors_unchanged_or_updated (w : World) (s : ATransformerActor)
    (as : List (Option ActorId)) (b : Bool) :
    SelectMultipleActors w s as b = s ∨
    ∃ x, SelectMultipleActors w s as b = UpdateGizmoPlacement w x := by
  unfold SelectMultipleActors
  dsimp only
  split
  · exact Or.inr ⟨_, rfl⟩
  · rename_i hv
    left
    rw [SelectMultipleActors.Loop_valid] at hv
    have hacc : AcceptedActors w as = [] := by simpa using hv
    rw [SelectMultipleActors.Loop_rejected_actors w as hacc]

theorem DeselectAll_placed (w : World) (s : ATransformerActor) (b : Bool) :
    GizmoPlaced (DeselectAll w s b).1 := by
  unfold DeselectAll
  dsimp only
  split
  · exact (UpdateGizmoPlacement_placed w _).of_frame
      (foldl_DestroyDeselected_gizmoFrame w _ _) (foldl_DestroyDeselected_frame w _ _).1
  · exact UpdateGizmoPlacement_placed w _

theorem TMap.Find_Add {K V : Type} [DecidableEq K] (m : List (K × V)) (k k' : K) (v : V) :
    TMap.Find (TMap.Add m k v) k' = if k = k' then some v else TMap.Find m k' := by
  induction m with
  | nil => simp [TMap.Add, TMap.Find]
  | cons e rest ih =>
    obtain ⟨k₀, v₀⟩ := e
    unfold TMap.Add
    by_cases h : k₀ = k
    · subst h
      simp only [if_true, TMap.Find]
      by_cases h' : k₀ = k' <;> simp [h']
    · simp only [h, if_false, TMap.Find, ih]
      by_cases h' : k₀ = k'
      · subst h'
        simp [Ne.symm h]
      · simp [h']

theorem TMap.Add_of_fresh {K V : Type} [DecidableEq K] (m : List (K × V)) (k : K) (v : V)
    (h : ∀ e ∈ m, e.1 ≠ k) : TMap.Add m k v = m ++ [(k, v)] := by
  induction m with
  | nil => rfl
  | cons e rest ih =>
    obtain ⟨k₀, v₀⟩ := e
    have h0 : k₀ ≠ k := h (k₀, v₀) (List.mem_cons_self _ _)
    unfold TMap.Add
    simp only [h0, if_false, List.cons_append]
    rw [ih (fun e he => h e (List.mem_cons_of_mem _ he))]

theorem StaticDuplicateObject_effect (s : ATransformerActor) (t : CompId) :
    (s.StaticDuplicateObject t).2 = s.ComponentCount ∧
    (s.StaticDuplicateObject t).1.ComponentCount = s.ComponentCount + 1 ∧
    (∀ c, c ≠ s.ComponentCount →
      (s.StaticDuplicateObject t).1.AttachParents c = s.AttachParents c) ∧
    (s.StaticDuplicateObject t).1.bComponentBased = s.bComponentBased ∧
    (s.StaticDuplicateObject t).1.Gizmo = s.Gizmo ∧
    (s.StaticDuplicateObject t).1.CurrentDomain = s.CurrentDomain ∧
    (s.StaticDuplicateObject t).1.DestroyedActors = s.DestroyedActors := by
  refine ⟨rfl, rfl, fun c hc => ?_, rfl, rfl, rfl, rfl⟩
  simp [ATransformerActor.StaticDuplicateObject, hc]

theorem ClonedTemplates_cons_some (w : World) (c : CompId) (rest : List (Option CompId))
    (owner : ActorId) (h : w.GetOwner c = some owner) :
    ClonedTemplates w (some c :: rest) = c :: ClonedTemplates w rest := by
  simp [ClonedTemplates, h]

theorem ClonedTemplates_cons_skip (w : World) (c : CompId) (rest : List (Option CompId))
    (h : w.GetOwner c = none) :
    ClonedTemplates w (some c :: rest) = ClonedTemplates w rest := by
  simp [ClonedTemplates, h]

theorem ClonedTemplates_cons_none (w : World) (rest : List (Option CompId)) :
    ClonedTemplates w (none :: rest) = ClonedTemplates w rest := by
  simp [ClonedTemplates]

/-- What the clone phase leaves: one new component per cloned template, numbered from the
component count on, the map `OcCc` from each template to its last clone, and one pair of
`CcOp` per clone. -/
theorem CloneComponents.ClonePhase_spec (w : World) (s₀ : ATransformerActor)
    (Components : List (Option CompId)) :
    ∀ (s : ATransformerActor) (l : CloneComponents.Locals),
      (∀ c, c ∈ ClonedTemplates w Components → c < s₀.ComponentCount) →
      s₀.ComponentCount ≤ s.ComponentCount →
      (∀ c, c < s₀.ComponentCount → s.AttachParents c = s₀.AttachParents c) →
      (∀ e ∈ l.CcOp, ∃ x, e.1 = some x ∧ x < s.ComponentCount) →
      (CloneComponents.ClonePhase w Components s l).1.ComponentCount
          = s.ComponentCount + (ClonedTemplates w Components).length ∧
        (∀ c, c < s₀.ComponentCount →
          (CloneComponents.ClonePhase w Components s l).1.AttachParents c
            = s₀.AttachParents c) ∧
        (CloneComponents.ClonePhase w Components s l).2.outClones
          = l.outClones ++ (List.range' s.ComponentCount
              (ClonedTemplates w Components).length).map some ∧
        (∀ c, TMap.Find (CloneComponents.ClonePhase w Components s l).2.OcCc (some c)
          = match CloneOf (ClonedTemplates w Components) s.ComponentCount c with
            | some x => some (some x)
            | none => TMap.Find l.OcCc (some c)) ∧
        (TMap.Find (CloneComponents.ClonePhase w Components s l).2.OcCc none
          = TMap.Find l.OcCc none) ∧
        (CloneComponents.ClonePhase w Components s l).2.CcOp
          = l.CcOp ++ CloneEntries w s₀ (ClonedTemplates w Components) s.ComponentCount := by
  induction Components with
  | nil =>
    intro s l _ _ hA _
    refine ⟨?_, hA, ?_, ?_, ?_, ?_⟩ <;>
      simp [CloneComponents.ClonePhase, ClonedTemplates, CloneOf, CloneEntries]
  | cons x rest ih =>
    intro s l hT hN hA hK
    cases x with
    | none =>
      rw [ClonedTemplates_cons_none] at hT ⊢
      unfold CloneComponents.ClonePhase
      exact ih s l hT hN hA hK
    | some c =>
      cases ho : w.GetOwner c with
      | none =>
        rw [ClonedTemplates_cons_skip w c rest ho] at hT ⊢
        unfold CloneComponents.ClonePhase
        simp only [ho]
        exact ih s l hT hN hA hK
      | some owner =>
        rw [ClonedTemplates_cons_some w c rest owner ho] at hT ⊢
        obtain ⟨d1, d2, d3, _⟩ := StaticDuplicateObject_effect s c
        have hc : c < s₀.ComponentCount := hT c (List.mem_cons_self _ _)
        have hcs : c ≠ s.ComponentCount := by (try unfold CompId at *); omega
        have hval : (if some c = w.GetRootComponent owner then w.GetRootComponent owner
            else (s.StaticDuplicateObject c).1.AttachParents c) = OriginalParent w s₀ c := by
          unfold OriginalParent
          simp only [ho]
          rw [d3 c hcs, hA c hc]
        have hfresh : ∀ e ∈ l.CcOp, e.1 ≠ some s.ComponentCount := by
          intro e he heq
          obtain ⟨x, hx1, hx2⟩ := hK e he
          rw [hx1] at heq
          have := Option.some.inj heq
          (try unfold CompId at *); omega
        have hstep : CloneComponents.ClonePhase w (some c :: rest) s l
            = CloneComponents.ClonePhase w rest (s.StaticDuplicateObject c).1
                { outClones := l.outClones ++ [some s.ComponentCount],
                  OcCc := TMap.Add l.OcCc (some c) (some s.ComponentCount),
                  CcOp := l.CcOp ++ [(some s.ComponentCount, OriginalParent w s₀ c)] } := by
          rw [CloneComponents.ClonePhase]
          simp only [ho, d1]
          rw [← hval]
          split
          · rename_i hroot
            simp only [hroot, if_true]
            rw [TMap.Add_of_fresh _ _ _ hfresh]
          · rw [TMap.Add_of_fresh _ _ _ hfresh]
        rw [hstep]
        obtain ⟨i1, i2, i3, i4, i5, i6⟩ := ih (s.StaticDuplicateObject c).1
          { outClones := l.outClones ++ [some s.ComponentCount],
            OcCc := TMap.Add l.OcCc (some c) (some s.ComponentCount),
            CcOp := l.CcOp ++ [(some s.ComponentCount, OriginalParent w s₀ c)] }
          (fun c' hc' => hT c' (List.mem_cons_of_mem _ hc'))
          (by rw [d2]; (try unfold CompId at *); omega)
          (fun c' hc' => by rw [d3 c' (by (try unfold CompId at *); omega)]; exact hA c' hc')
          (by
            intro e he
            rw [d2]
            rcases List.mem_append.mp he with he | he
            · obtain ⟨x, hx1, hx2⟩ := hK e he
              exact ⟨x, hx1, by (try unfold CompId at *); omega⟩
            · simp only [List.mem_singleton] at he
              subst he
              exact ⟨s.ComponentCount, rfl, by (try unfold CompId at *); omega⟩)
        rw [d2] at i1 i3 i4 i6
        refine ⟨?_, i2, ?_, ?_, ?_, ?_⟩
        · rw [i1, List.length_cons]; (try unfold CompId at *); omega
        · rw [i3, List.length_cons, List.range']
          simp
        · intro c'
          rw [i4 c']
          simp only [CloneOf]
          cases CloneOf (ClonedTemplates w rest) (s.ComponentCount + 1) c' with
          | some x => rfl
          | none =>
            simp only [TMap.Find_Add]
            by_cases hcc : c = c'
            · subst hcc; simp
            · have : ¬ (some c : Option CompId) = some c' := fun e => hcc (Option.some.inj e)
              simp [hcc, this]
        · rw [i5, TMap.Find_Add]
          simp
        · rw [i6]
          simp [CloneEntries]

theorem ATransformerActor.Ancestor_none (s : ATransformerActor) (n : Nat) :
    s.Ancestor n none = none := by
  cases n <;> rfl

theorem ATransformerActor.Ancestor_self (s : ATransformerActor) (c : CompId)
    (h : s.AttachParents c = some c) (n : Nat) : s.Ancestor n (some c) = some c := by
  induction n with
  | zero => rfl
  | succ n ih =>
    simp only [ATransformerActor.Ancestor, h]
    exact ih

theorem CloneOf_some : ∀ (T : List CompId) (N : Nat) (c x : CompId),
    CloneOf T N c = some x → ∃ i, x = N + i ∧ T[i]? = some c := by
  intro T
  induction T with
  | nil =>
    intro N c x h
    simp [CloneOf] at h
  | cons t ts ih =>
    intro N c x h
    simp only [CloneOf] at h
    cases h' : CloneOf ts (N + 1) c with
    | some y =>
      rw [h'] at h
      simp only [Option.some.injEq] at h
      obtain ⟨i, hi, hg⟩ := ih (N + 1) c y h'
      refine ⟨i + 1, ?_, by simpa using hg⟩
      rw [← h, hi, Nat.add_assoc, Nat.add_comm 1 i]
    | none =>
      rw [h'] at h
      simp only at h
      by_cases htc : t = c
      · rw [if_pos htc] at h
        exact ⟨0, (Option.some.inj h).symm, by simp [htc]⟩
      · rw [if_neg htc] at h
        cases h

theorem CloneOf_of_mem : ∀ (T : List CompId) (N : Nat) (c : CompId),
    c ∈ T → ∃ x, CloneOf T N c = some x := by
  intro T
  induction T with
  | nil =>
    intro N c h
    cases h
  | cons t ts ih =>
    intro N c h
    simp only [CloneOf]
    cases h' : CloneOf ts (N + 1) c with
    | some y => exact ⟨y, rfl⟩
    | none =>
      have hts : c ∉ ts := by
        intro hm
        obtain ⟨x, hx⟩ := ih (N + 1) c hm
        rw [hx] at h'
        cases h'
      have htc : t = c := by
        rcases List.mem_cons.mp h with h1 | h1
        · exact h1.symm
        · exact absurd h1 hts
      exact ⟨N, by simp [htc]⟩

theorem ClonedTemplates_owner (w : World) (Components : List (Option CompId)) (c : CompId)
    (h : c ∈ ClonedTemplates w Components) : ∃ owner, w.GetOwner c = some owner := by
  unfold ClonedTemplates at h
  rw [List.mem_filterMap] at h
  obtain ⟨x, _, hx⟩ := h
  cases x with
  | none => cases hx
  | some d =>
    simp only at hx
    cases ho : w.GetOwner d with
    | none => simp [ho] at hx
    | some owner =>
      simp only [ho, Option.isSome_some, if_true, Option.some.injEq] at hx
      subst hx
      exact ⟨owner, ho⟩

theorem CloneComponents.Walk_spec (w : World) (s₀ s : ATransformerActor)
    (OcCc : List (Option CompId × Option CompId)) (cloneOf : CompId → Option CompId)
    (a : ActorId) (r : CompId) (cpValue : Option CompId)
    (hroot : w.GetRootComponent a = some r)
    (hfind : ∀ c, TMap.Find OcCc (some c) = (cloneOf c).map some)
    (hexist : ∀ c p, s₀.AttachParents c = some p → p < s₀.ComponentCount)
    (hagree : ∀ c, c < s₀.ComponentCount → s.AttachParents c = s₀.AttachParents c) :
    ∀ (n fuel : Nat) (c : CompId), c < s₀.ComponentCount → cloneOf c = none →
      s₀.Ancestor n (some c) = some r → n < fuel →
      CloneComponents.Walk w s OcCc (some a) cpValue fuel (some c)
        = Outcome.done
            (match NearestClonedAncestor cloneOf s₀ (some r) (fuel + 1) (some c) with
             | some x => some x
             | none => cpValue) := by
  intro n
  induction n with
  | zero =>
    intro fuel c _ hcl hanc hfuel
    cases fuel with
    | zero => exact absurd hfuel (Nat.lt_irrefl 0)
    | succ f =>
      have hcr : (some c : Option CompId) = some r := hanc
      simp only [CloneComponents.Walk, NearestClonedAncestor, hroot, hcl, hcr, if_true]
  | succ n ih =>
    intro fuel c hc hcl hanc hfuel
    cases fuel with
    | zero => exact absurd hfuel (Nat.not_lt_zero _)
    | succ f =>
      have hf : n < f := Nat.lt_of_succ_lt_succ hfuel
      by_cases hcr : (some c : Option CompId) = some r
      · simp only [CloneComponents.Walk, NearestClonedAncestor, hroot, hcl, hcr, if_true]
      · simp only [ATransformerActor.Ancestor] at hanc
        cases hp : s₀.AttachParents c with
        | none =>
          rw [hp, ATransformerActor.Ancestor_none] at hanc
          cases hanc
        | some c' =>
          rw [hp] at hanc
          have hc' : c' < s₀.ComponentCount := hexist c c' hp
          cases f with
          | zero => exact absurd hf (Nat.not_lt_zero _)
          | succ g =>
            cases hcl' : cloneOf c' with
            | some x =>
              simp only [CloneComponents.Walk, NearestClonedAncestor, hroot, hcl, hcr,
                if_false, hagree c hc, hp, hfind, hcl', Option.map_some']
            | none =>
              have := ih (g + 1) c' hc' hcl' hanc hf
              simp only [CloneComponents.Walk, hroot, hcr, if_false, hagree c hc, hp, hfind,
                hcl', Option.map_none'] at this ⊢
              rw [this]
              conv_rhs => rw [NearestClonedAncestor]
              simp only [hcl, hcr, if_false, hp]

theorem CloneComponents.Walk_done (w : World) (s : ATransformerActor)
    (OcCc : List (Option CompId × Option CompId)) (a : ActorId) (r : CompId)
    (cpValue : Option CompId) (hroot : w.GetRootComponent a = some r) :
    ∀ (n : Nat) (parent : Option CompId), s.Ancestor n parent = some r →
      ∃ x, (∀ fuel, n < fuel →
          CloneComponents.Walk w s OcCc (some a) cpValue fuel parent = Outcome.done x) ∧
        (x = cpValue ∨ ∃ k anc, k < n ∧ s.Ancestor (k + 1) parent = some anc ∧
          TMap.Find OcCc (some anc) = some x) := by
  intro n
  induction n with
  | zero =>
    intro parent hanc
    refine ⟨cpValue, ?_, Or.inl rfl⟩
    intro fuel hfuel
    cases fuel with
    | zero => exact absurd hfuel (Nat.lt_irrefl 0)
    | succ f =>
      have hpr : parent = some r := hanc
      simp only [CloneComponents.Walk, hroot, hpr, if_true]
  | succ n ih =>
    intro parent hanc
    cases parent with
    | none =>
      rw [ATransformerActor.Ancestor_none] at hanc
      cases hanc
    | some c =>
      by_cases hcr : (some c : Option CompId) = some r
      · refine ⟨cpValue, ?_, Or.inl rfl⟩
        intro fuel hfuel
        cases fuel with
        | zero => exact absurd hfuel (Nat.not_lt_zero _)
        | succ f => simp only [CloneComponents.Walk, hroot, hcr, if_true]
      · simp only [ATransformerActor.Ancestor] at hanc
        cases hp : s.AttachParents c with
        | none =>
          rw [hp, ATransformerActor.Ancestor_none] at hanc
          cases hanc
        | some c' =>
          rw [hp] at hanc
          cases hfd : TMap.Find OcCc (some c') with
          | some x =>
            refine ⟨x, ?_, Or.inr ⟨0, c', Nat.succ_pos n, ?_, hfd⟩⟩
            · intro fuel hfuel
              cases fuel with
              | zero => exact absurd hfuel (Nat.not_lt_zero _)
              | succ f => simp only [CloneComponents.Walk, hroot, hcr, if_false, hp, hfd]
            · simp only [ATransformerActor.Ancestor, hp]
          | none =>
            obtain ⟨x, hx, hor⟩ := ih (some c') hanc
            refine ⟨x, ?_, ?_⟩
            · intro fuel hfuel
              cases fuel with
              | zero => exact absurd hfuel (Nat.not_lt_zero _)
              | succ f =>
                simp only [CloneComponents.Walk, hroot, hcr, if_false, hp, hfd]
                exact hx f (Nat.lt_of_succ_lt_succ hfuel)
            · rcases hor with h1 | ⟨k, anc, hk, hka, hkf⟩
              · exact Or.inl h1
              · refine Or.inr ⟨k + 1, anc, Nat.succ_lt_succ hk, ?_, hkf⟩
                rw [ATransformerActor.Ancestor, hp]
                exact hka

theorem NearestClonedAncestor_of_cloned (cloneOf : CompId → Option CompId)
    (s : ATransformerActor) (root : Option CompId) (n : Nat) (c x : CompId)
    (h : cloneOf c = some x) :
    NearestClonedAncestor cloneOf s root (n + 1) (some c) = some x := by
  simp only [NearestClonedAncestor, h]

theorem CloneComponents.NewParent_spec (w : World) (s₀ : ATransformerActor) (fuel : Nat)
    (Components : List (Option CompId)) (hC : Clonable w s₀ fuel Components)
    (s : ATransformerActor) (OcCc : List (Option CompId × Option CompId))
    (hfind : ∀ c, TMap.Find OcCc (some c)
      = (CloneOf (ClonedTemplates w Components) s₀.ComponentCount c).map some)
    (hagree : ∀ c, c < s₀.ComponentCount → s.AttachParents c = s₀.AttachParents c)
    (j : Nat) (c : CompId) (hj : (ClonedTemplates w Components)[j]? = some c) :
    ∃ par, CloneComponents.NewParent w s OcCc fuel
          (some (s₀.ComponentCount + j), OriginalParent w s₀ c) = Outcome.done (some par) ∧
      AttachedAsSpecified w s₀ (ClonedTemplates w Components) fuel c par := by
  have hmem : c ∈ ClonedTemplates w Components := List.getElem?_mem hj
  obtain ⟨owner, ho⟩ := ClonedTemplates_owner w Components c hmem
  by_cases hr : w.GetRootComponent owner = some c
  · obtain ⟨x, hx⟩ := CloneOf_of_mem (ClonedTemplates w Components) s₀.ComponentCount c hmem
    have hop : OriginalParent w s₀ c = some c := by
      simp only [OriginalParent, ho, hr, if_true]
    by_cases hxk : (some x : Option CompId) = some (s₀.ComponentCount + j)
    · refine ⟨c, ?_, ?_⟩
      · simp only [CloneComponents.NewParent, hop, hfind, hx, Option.map_some', ne_eq, hxk,
          not_true_eq_false, if_false]
      · intro owner' p ho' hr'
        rw [ho] at ho'
        cases ho'
        exact absurd hr hr'
    · refine ⟨x, ?_, ?_⟩
      · simp only [CloneComponents.NewParent, hop, hfind, hx, Option.map_some', ne_eq, hxk,
          not_false_eq_true, if_true]
      · intro owner' p ho' hr'
        rw [ho] at ho'
        cases ho'
        exact absurd hr hr'
  · obtain ⟨p, a, r, n, hp, hpa, har, hanc, hn⟩ := hC.rooted c hmem owner ho hr
    have hpc : p ≠ c := by
      intro hpc
      subst hpc
      rw [s₀.Ancestor_self p hp n] at hanc
      rw [ho] at hpa
      cases hpa
      rw [har] at hr
      exact hr hanc.symm
    have hop : OriginalParent w s₀ c = some p := by
      have : ¬ (some c : Option CompId) = w.GetRootComponent owner := fun e => hr e.symm
      simp only [OriginalParent, ho, this, if_false, hp]
    have hroot : (w.GetOwner p).bind w.GetRootComponent = some r := by
      rw [hpa]
      exact har
    cases hx : CloneOf (ClonedTemplates w Components) s₀.ComponentCount p with
    | some x =>
      have hxk : ¬ (some x : Option CompId) = some (s₀.ComponentCount + j) := by
        intro e
        obtain ⟨i, hi, hg⟩ := CloneOf_some _ _ _ _ hx
        have hij : i = j := by
          have := Option.some.inj e
          rw [hi] at this
          exact Nat.add_left_cancel this
        rw [hij, hj] at hg
        exact hpc (Option.some.inj hg).symm
      refine ⟨x, ?_, ?_⟩
      · simp only [CloneComponents.NewParent, hop, hfind, hx, Option.map_some', ne_eq, hxk,
          not_false_eq_true, if_true]
      · intro owner' p' _ _ hp'
        rw [hp] at hp'
        cases hp'
        unfold SpecifiedParent
        rw [NearestClonedAncestor_of_cloned _ _ _ _ _ _ hx]
        rfl
    | none =>
      have hwalk := CloneComponents.Walk_spec w s₀ s OcCc
        (CloneOf (ClonedTemplates w Components) s₀.ComponentCount) a r (some p) har hfind
        hC.existing hagree n fuel p (hC.existing c p hp) hx hanc hn
      refine ⟨SpecifiedParent w s₀ (ClonedTemplates w Components) fuel p, ?_, ?_⟩
      · simp only [CloneComponents.NewParent, hop, hfind, hx, Option.map_none', hpa, hwalk]
        unfold SpecifiedParent
        rw [hroot]
        cases NearestClonedAncestor (CloneOf (ClonedTemplates w Components) s₀.ComponentCount)
          s₀ (some r) (fuel + 1) (some p) <;> rfl
      · intro owner' p' _ _ hp'
        rw [hp] at hp'
        cases hp'
        rfl

theorem CloneComponents.ReparentPhase_spec (w : World) (s₀ : ATransformerActor)
    (OcCc : List (Option CompId × Option CompId)) (fuel : Nat) (Q : CompId → CompId → Prop) :
    ∀ (ts : List CompId) (M : Nat) (s : ATransformerActor),
      s₀.ComponentCount ≤ M →
      (∀ c, c < s₀.ComponentCount → s.AttachParents c = s₀.AttachParents c) →
      (∀ (s' : ATransformerActor) (j : Nat) (c : CompId), ts[j]? = some c →
        (∀ c, c < s₀.ComponentCount → s'.AttachParents c = s₀.AttachParents c) →
        ∃ par, CloneComponents.NewParent w s' OcCc fuel (some (M + j), OriginalParent w s₀ c)
            = Outcome.done (some par) ∧ Q c par) →
      ∃ t, CloneComponents.ReparentPhase w OcCc fuel (CloneEntries w s₀ ts M) s
            = Outcome.done t ∧
        (∀ x, x < M → t.AttachParents x = s.AttachParents x) ∧
        t.ComponentCount = s.ComponentCount ∧
        ∀ j c, ts[j]? = some c → ∃ par, t.AttachParents (M + j) = some par ∧ Q c par := by
  intro ts
  induction ts with
  | nil =>
    intro M s _ _ _
    refine ⟨s, rfl, fun _ _ => rfl, rfl, ?_⟩
    intro j c h
    simp at h
  | cons c rest ih =>
    intro M s hM hagree hstep
    obtain ⟨par, hnp, hq⟩ := hstep s 0 c (by simp) hagree
    rw [Nat.add_zero] at hnp
    have hagree' : ∀ x, x < s₀.ComponentCount →
        (s.AttachToComponent M (some par)).AttachParents x = s₀.AttachParents x := by
      intro x hx
      have hxM : x ≠ M := Nat.ne_of_lt (Nat.lt_of_lt_of_le hx hM)
      simp only [ATransformerActor.AttachToComponent, hxM, if_false]
      exact hagree x hx
    obtain ⟨t, ht, hlow, hcount, hall⟩ := ih (M + 1) (s.AttachToComponent M (some par))
      (Nat.le_succ_of_le hM) hagree'
      (fun s' j c' hj' hs' => by
        have := hstep s' (j + 1) c' (by simpa using hj') hs'
        rw [Nat.add_assoc, Nat.add_comm 1 j]
        exact this)
    refine ⟨t, ?_, ?_, ?_, ?_⟩
    · simp only [CloneEntries, CloneComponents.ReparentPhase, hnp]
      exact ht
    · intro x hx
      rw [hlow x (Nat.lt_succ_of_lt hx)]
      have hxM : x ≠ M := Nat.ne_of_lt hx
      simp only [ATransformerActor.AttachToComponent, hxM, if_false]
    · rw [hcount]
      rfl
    · intro j c' hj'
      cases j with
      | zero =>
        simp only [List.getElem?_cons_zero, Option.some.injEq] at hj'
        subst hj'
        refine ⟨par, ?_, hq⟩
        rw [Nat.add_zero, hlow M (Nat.lt_succ_self M)]
        simp only [ATransformerActor.AttachToComponent, if_true]
      | succ i =>
        obtain ⟨par', hp', hq'⟩ := hall i c' (by simpa using hj')
        refine ⟨par', ?_, hq'⟩
        rw [← hp', Nat.add_assoc, Nat.add_comm 1 i]

theorem CloneComponents_spec (w : World) (s : ATransformerActor) (fuel : Nat)
    (Components : List (Option CompId)) (hC : Clonable w s fuel Components) :
    ∃ t, CloneComponents w s fuel Components
          = Outcome.done (t, (List.range' s.ComponentCount
              (ClonedTemplates w Components).length).map some) ∧
      (∀ x, x < s.ComponentCount → t.AttachParents x = s.AttachParents x) ∧
      t.ComponentCount = s.ComponentCount + (ClonedTemplates w Components).length ∧
      ∀ j c, (ClonedTemplates w Components)[j]? = some c →
        ∃ par, t.AttachParents (s.ComponentCount + j) = some par ∧
          AttachedAsSpecified w s (ClonedTemplates w Components) fuel c par := by
  obtain ⟨p1, p2, p3, p4, _, p6⟩ := CloneComponents.ClonePhase_spec w s Components s
    ⟨[], [], []⟩ hC.templates (Nat.le_refl _) (fun _ _ => rfl) (fun e he => by cases he)
  have hfind : ∀ c, TMap.Find (CloneComponents.ClonePhase w Components s ⟨[], [], []⟩).2.OcCc
      (some c) = (CloneOf (ClonedTemplates w Components) s.ComponentCount c).map some := by
    intro c
    rw [p4 c]
    cases CloneOf (ClonedTemplates w Components) s.ComponentCount c <;> rfl
  obtain ⟨t, ht, hlow, hcount, hall⟩ := CloneComponents.ReparentPhase_spec w s
    (CloneComponents.ClonePhase w Components s ⟨[], [], []⟩).2.OcCc fuel
    (AttachedAsSpecified w s (ClonedTemplates w Components) fuel)
    (ClonedTemplates w Components) s.ComponentCount
    (CloneComponents.ClonePhase w Components s ⟨[], [], []⟩).1 (Nat.le_refl _) p2
    (fun s' j c hj hs' =>
      CloneComponents.NewParent_spec w s fuel Components hC s' _ hfind hs' j c hj)
  refine ⟨t, ?_, ?_, ?_, hall⟩
  · simp only [CloneComponents, hC.world, Bool.not_true, Bool.false_eq_true, if_false]
    simp only [List.nil_append] at p6 p3
    rw [p6, ht, p3]
  · intro x hx
    rw [hlow x hx]
    exact p2 x hx
  · rw [hcount, p1]

theorem ExampleCloning_existing (c p : CompId)
    (h : ExampleCloning.AttachParents c = some p) : p < ExampleCloning.ComponentCount := by
  simp only [ExampleCloning] at h ⊢
  unfold CompId at *
  split_ifs at h <;> cases h <;> omega

theorem exists_common_bound {α : Type} (P : α → Nat → Prop) :
    ∀ (T : List α), (∀ c, c ∈ T → ∃ n, P c n) →
      ∃ b, ∀ c, c ∈ T → ∃ n, n < b ∧ P c n := by
  intro T
  induction T with
  | nil =>
    intro _
    exact ⟨0, fun c hc => by cases hc⟩
  | cons t ts ih =>
    intro h
    obtain ⟨b, hb⟩ := ih (fun c hc => h c (List.mem_cons_of_mem _ hc))
    obtain ⟨n, hn⟩ := h t (List.mem_cons_self _ _)
    refine ⟨max (n + 1) b, ?_⟩
    intro c hc
    rcases List.mem_cons.mp hc with h1 | h1
    · subst h1
      exact ⟨n, Nat.lt_of_lt_of_le (Nat.lt_succ_self n) (le_max_left _ _), hn⟩
    · obtain ⟨m, hm, hP⟩ := hb c h1
      exact ⟨m, Nat.lt_of_lt_of_le hm (le_max_right _ _), hP⟩

theorem Clonable.of_rooted (w : World) (s : ATransformerActor)
    (Components : List (Option CompId)) (hw : w.bHasWorld = true)
    (hexist : ∀ c p, s.AttachParents c = some p → p < s.ComponentCount)
    (htemp : ∀ c, c ∈ ClonedTemplates w Components → c < s.ComponentCount)
    (hrooted : ∀ c, (c ∈ ClonedTemplates w Components ∨
        ∃ t, t ∈ ClonedTemplates w Components ∧ s.AttachParents t = some c) →
      ∃ a r n, w.GetOwner c = some a ∧ w.GetRootComponent a = some r ∧
        s.Ancestor n (some c) = some r) :
    ∃ bound, ∀ fuel, bound ≤ fuel → Clonable w s fuel Components := by
  have hex : ∀ c, c ∈ ClonedTemplates w Components → ∃ n,
      ∀ owner, w.GetOwner c = some owner → w.GetRootComponent owner ≠ some c →
        ∃ p a r, s.AttachParents c = some p ∧ w.GetOwner p = some a ∧
          w.GetRootComponent a = some r ∧ s.Ancestor n (some p) = some r := by
    intro c hc
    obtain ⟨a, r, n, ha, hr, hn⟩ := hrooted c (Or.inl hc)
    by_cases hroot : w.GetRootComponent a = some c
    · refine ⟨0, ?_⟩
      intro owner ho hne
      rw [ha] at ho
      cases ho
      exact absurd hroot hne
    · cases n with
      | zero =>
        have : (some c : Option CompId) = some r := hn
        rw [hr, ← this] at hroot
        exact absurd rfl hroot
      | succ m =>
        simp only [ATransformerActor.Ancestor] at hn
        cases hp : s.AttachParents c with
        | none =>
          rw [hp, ATransformerActor.Ancestor_none] at hn
          cases hn
        | some p =>
          obtain ⟨a', r', n', ha', hr', hn'⟩ := hrooted p (Or.inr ⟨c, hc, hp⟩)
          exact ⟨n', fun _ _ _ => ⟨p, a', r', rfl, ha', hr', hn'⟩⟩
  obtain ⟨b, hb⟩ := exists_common_bound _ _ hex
  refine ⟨b, ?_⟩
  intro fuel hfuel
  refine ⟨hw, hexist, htemp, ?_⟩
  intro c hc owner ho hne
  obtain ⟨n, hn, hP⟩ := hb c hc
  obtain ⟨p, a, r, h1, h2, h3, h4⟩ := hP owner ho hne
  exact ⟨p, a, r, n, h1, h2, h3, h4, Nat.lt_of_lt_of_le hn hfuel⟩

theorem ExampleCloning_rooted (c : CompId)
    (h : c ∈ ClonedTemplates ExampleWorld [some 40, some 44] ∨
      ∃ t, t ∈ ClonedTemplates ExampleWorld [some 40, some 44] ∧
        ExampleCloning.AttachParents t = some c) :
    ∃ a r n, ExampleWorld.GetOwner c = some a ∧ ExampleWorld.GetRootComponent a = some r ∧
      ExampleCloning.Ancestor n (some c) = some r := by
  have hT : ∀ t, t ∈ ClonedTemplates ExampleWorld [some 40, some 44] → t = 40 ∨ t = 44 := by
    intro t ht
    simpa [ClonedTemplates, ExampleWorld] using ht
  have hc : c = 40 ∨ c = 44 ∨ c = 41 := by
    rcases h with h | ⟨t, ht, hp⟩
    · rcases hT c h with h1 | h1
      · exact Or.inl h1
      · exact Or.inr (Or.inl h1)
    · rcases hT t ht with h1 | h1
      · subst h1
        cases hp
      · subst h1
        exact Or.inr (Or.inr (Option.some.inj hp).symm)
  rcases hc with rfl | rfl | rfl
  · exact ⟨ActorId.scene 4, 40, 0, rfl, rfl, rfl⟩
  · exact ⟨ActorId.scene 4, 40, 2, rfl, rfl, rfl⟩
  · exact ⟨ActorId.scene 4, 40, 1, rfl, rfl, rfl⟩

theorem log_two_eq {x : ℚ} {e : ℤ} (h1 : (2 : ℚ) ^ e ≤ x) (h2 : x < (2 : ℚ) ^ (e + 1)) :
    Int.log 2 x = e := by
  have hx : 0 < x := lt_of_lt_of_le (zpow_pos (by norm_num) e) h1
  have hb : 1 < 2 := by norm_num
  have a1 : e ≤ Int.log 2 x := (Int.zpow_le_iff_le_log hb hx).mp (by simpa using h1)
  have a2 : Int.log 2 x < e + 1 := (Int.lt_zpow_iff_log_lt hb hx).mp (by simpa using h2)
  omega

theorem RoundHalfEven_intCast (z : ℤ) : RoundHalfEven (z : ℚ) = z := by
  unfold RoundHalfEven
  simp

theorem RoundHalfEven_floor_or_succ (x : ℚ) :
    RoundHalfEven x = ⌊x⌋ ∨ RoundHalfEven x = ⌊x⌋ + 1 := by
  unfold RoundHalfEven
  split_ifs <;> simp

theorem RoundToDouble_zero : RoundToDouble 0 = 0 := by
  simp [RoundToDouble]

theorem RoundToDouble_dyadic (m k : ℤ) (hm : m.natAbs < 2 ^ 53) :
    RoundToDouble ((m : ℚ) * 2 ^ k) = (m : ℚ) * 2 ^ k := by
  by_cases h0 : m = 0
  · subst h0
    simp [RoundToDouble]
  have h2 : (2 : ℚ) ≠ 0 := two_ne_zero
  have hk : (0 : ℚ) < 2 ^ k := zpow_pos (by norm_num) k
  have hx0 : (m : ℚ) * 2 ^ k ≠ 0 := mul_ne_zero (Int.cast_ne_zero.mpr h0) (ne_of_gt hk)
  have ha : m.natAbs ≠ 0 := Int.natAbs_ne_zero.mpr h0
  have hj1 : 2 ^ Nat.log 2 m.natAbs ≤ m.natAbs := Nat.pow_log_le_self 2 ha
  have hj2 : m.natAbs < 2 ^ (Nat.log 2 m.natAbs + 1) :=
    Nat.lt_pow_succ_log_self (by norm_num) _
  have hj52 : Nat.log 2 m.natAbs ≤ 52 := by
    have : Nat.log 2 m.natAbs < 53 := Nat.log_lt_of_lt_pow ha hm
    omega
  generalize Nat.log 2 m.natAbs = j at hj1 hj2 hj52
  have habs : |(m : ℚ) * 2 ^ k| = (m.natAbs : ℚ) * 2 ^ k := by
    rw [abs_mul, abs_of_pos hk, Nat.cast_natAbs, Int.cast_abs]
  have hlog : Int.log 2 |(m : ℚ) * 2 ^ k| = (j : ℤ) + k := by
    rw [habs]
    apply log_two_eq
    · rw [zpow_add₀ h2, zpow_natCast]
      exact mul_le_mul_of_nonneg_right (by exact_mod_cast hj1) hk.le
    · rw [show (j : ℤ) + k + 1 = ((j + 1 : ℕ) : ℤ) + k by push_cast; ring, zpow_add₀ h2,
        zpow_natCast]
      exact mul_lt_mul_of_pos_right (by exact_mod_cast hj2) hk
  have hq : (m : ℚ) * 2 ^ k / 2 ^ ((j : ℤ) + k - 52) = ((m * 2 ^ (52 - j) : ℤ) : ℚ) := by
    rw [div_eq_iff (ne_of_gt (zpow_pos (by norm_num) _))]
    push_cast
    rw [mul_assoc, ← zpow_natCast, ← zpow_add₀ h2]
    congr 2
    rw [Nat.cast_sub hj52]
    push_cast
    ring
  unfold RoundToDouble
  rw [if_neg hx0, hlog, hq, RoundHalfEven_intCast, ← hq]
  exact div_mul_cancel₀ _ (ne_of_gt (zpow_pos (by norm_num) _))

theorem RoundToDouble_idempotent (x : ℚ) :
    RoundToDouble (RoundToDouble x) = RoundToDouble x := by
  by_cases hx : x = 0
  · subst hx
    rw [RoundToDouble_zero, RoundToDouble_zero]
  have h2 : (2 : ℚ) ≠ 0 := two_ne_zero
  have hxa : 0 < |x| := abs_pos.mpr hx
  have hu : (0 : ℚ) < 2 ^ (Int.log 2 |x| - 52) := zpow_pos (by norm_num) _
  have hlt : |x| < (2 : ℚ) ^ (Int.log 2 |x| + 1) := by
    simpa using Int.lt_zpow_succ_log_self (by norm_num : 1 < 2) |x|
  have hz : |x / 2 ^ (Int.log 2 |x| - 52)| < 2 ^ 53 := by
    rw [abs_div, abs_of_pos hu, div_lt_iff₀ hu]
    calc |x| < (2 : ℚ) ^ (Int.log 2 |x| + 1) := hlt
      _ = 2 ^ 53 * 2 ^ (Int.log 2 |x| - 52) := by
        rw [← zpow_natCast, ← zpow_add₀ h2]
        congr 1
        push_cast
        ring
  have hval : RoundToDouble x
      = (RoundHalfEven (x / 2 ^ (Int.log 2 |x| - 52)) : ℚ) * 2 ^ (Int.log 2 |x| - 52) := by
    unfold RoundToDouble
    rw [if_neg hx]
  rw [hval]
  generalize hzz : x / 2 ^ (Int.log 2 |x| - 52) = z at hz
  generalize Int.log 2 |x| - 52 = k
  have hzl := abs_lt.mp hz
  have hfl : ⌊z⌋ < 2 ^ 53 := by
    have : (⌊z⌋ : ℚ) < 2 ^ 53 := lt_of_le_of_lt (Int.floor_le z) hzl.2
    exact_mod_cast this
  have hfg : -(2 ^ 53) ≤ ⌊z⌋ := by
    apply Int.le_floor.mpr
    push_cast
    exact hzl.1.le
  have hn : (RoundHalfEven z).natAbs ≤ 2 ^ 53 := by
    rcases RoundHalfEven_floor_or_succ z with h | h <;> rw [h] <;> omega
  rcases Nat.lt_or_ge (RoundHalfEven z).natAbs (2 ^ 53) with h | h
  · exact RoundToDouble_dyadic _ k h
  · have he : (RoundHalfEven z).natAbs = 2 ^ 53 := le_antisymm hn h
    have hdiv : RoundHalfEven z = 2 * (RoundHalfEven z / 2) := by omega
    have hhalf : (RoundHalfEven z / 2).natAbs < 2 ^ 53 := by omega
    have hre : (RoundHalfEven z : ℚ) * 2 ^ k
        = ((RoundHalfEven z / 2 : ℤ) : ℚ) * 2 ^ (k + 1) := by
      rw [zpow_add₀ h2, zpow_one]
      conv_lhs => rw [hdiv]
      push_cast
      ring
    rw [hre]
    exact RoundToDouble_dyadic _ (k + 1) hhalf

theorem RoundToDouble_intCast (m : ℤ) (hm : m.natAbs < 2 ^ 53) :
    RoundToDouble (m : ℚ) = m := by
  have := RoundToDouble_dyadic m 0 hm
  simpa using this

theorem RoundToDouble_one : RoundToDouble 1 = 1 := by
  simpa using RoundToDouble_intCast 1 (by decide)

theorem RoundToDouble_far : RoundToDouble (1 - 18014398509481984) = -18014398509481984 := by
  have hlog : Int.log 2 |(1 - 18014398509481984 : ℚ)| = 53 := by
    apply log_two_eq <;> norm_num [abs_of_neg]
  have hfloor : ⌊(1 - 18014398509481984 : ℚ) / 2 ^ (53 - 52 : ℤ)⌋ = -9007199254740992 := by
    rw [Int.floor_eq_iff]
    norm_num
  unfold RoundToDouble
  rw [if_neg (by norm_num), hlog]
  unfold RoundHalfEven
  rw [hfloor]
  norm_num

theorem ApplyDeltaTransform.NewTransformRounded_id (D T : FTransform) (G : FVector)
    (b : Bool) :
    ApplyDeltaTransform.NewTransformRounded id D T G b
      = ApplyDeltaTransform.NewTransform D T G b := by
  cases b <;> rfl

theorem ApplyDeltaTransform.StepRounded_id (w : World) (D : FTransform)
    (snapping : Option ℚ) (s : ATransformerActor) (sc : Option CompId) :
    ApplyDeltaTransform.StepRounded id w D snapping s sc
      = ApplyDeltaTransform.Step w D snapping s sc := by
  unfold ApplyDeltaTransform.StepRounded ApplyDeltaTransform.Step
  simp only [ApplyDeltaTransform.NewTransformRounded_id]

theorem ApplyDeltaTransform.LoopRounded_id (w : World) (D : FTransform)
    (snapping : Option ℚ) (l : List (Option CompId)) :
    ∀ s : ATransformerActor, ApplyDeltaTransform.LoopRounded id w D snapping l s
      = ApplyDeltaTransform.Loop w D snapping l s := by
  induction l with
  | nil => intro s; rfl
  | cons sc rest ih =>
    intro s
    unfold ApplyDeltaTransform.LoopRounded ApplyDeltaTransform.Loop
    rw [ApplyDeltaTransform.StepRounded_id]
    cases ApplyDeltaTransform.Step w D snapping s sc with
    | none => rfl
    | some t => exact ih t

theorem ApplyDeltaTransformRounded_id (w : World) (s : ATransformerActor) (D : FTransform) :
    ApplyDeltaTransformRounded id w s D = ApplyDeltaTransform w s D :=
  ApplyDeltaTransform.LoopRounded_id w D _ _ s

theorem ApplyDeltaTransform.NewTransformRounded_reset (rnd : ℚ → ℚ) (h0 : rnd 0 = 0)
    (hi : ∀ x, rnd (rnd x) = rnd x) (T : FTransform) (G : FVector) (b : Bool)
    (hT : T.IsRounded rnd) :
    ApplyDeltaTransform.NewTransformRounded rnd ResetDeltaTransform T G b
      = ⟨T.Rotation,
         ⟨rnd (rnd (T.Translation.X - G.X) + G.X), rnd (rnd (T.Translation.Y - G.Y) + G.Y),
          rnd (rnd (T.Translation.Z - G.Z) + G.Z)⟩,
         T.Scale3D⟩ := by
  obtain ⟨⟨r1, r2, r3, r4⟩, _, ⟨s1, s2, s3⟩⟩ := hT
  cases T with
  | mk r p sc =>
    cases r with
    | mk rx ry rz rw =>
      cases sc with
      | mk sx sy sz =>
        simp only at r1 r2 r3 r4 s1 s2 s3
        cases b <;>
          simp [ApplyDeltaTransform.NewTransformRounded, ResetDeltaTransform,
            FTransform.Identity, FTransform.SetScale3D, FQuat.Identity, FVector.ZeroVector,
            FQuat.MulRounded, FQuat.RotateVectorRounded, FQuat.UnrotateVectorRounded,
            FVector.AddRounded, FVector.SubRounded, FVector.ScaleRounded,
            FVector.CrossProductRounded, h0, hi, r1, r2, r3, r4, s1, s2, s3]

theorem ApplyDeltaTransform.NewTransformRounded_exact (rnd : ℚ → ℚ) (h0 : rnd 0 = 0)
    (hi : ∀ x, rnd (rnd x) = rnd x) (T : FTransform) (G : FVector) (b : Bool)
    (hT : T.IsRounded rnd)
    (hx : FVector.SubRounded rnd T.Translation G = FVector.Sub T.Translation G) :
    ApplyDeltaTransform.NewTransformRounded rnd ResetDeltaTransform T G b = T := by
  rw [ApplyDeltaTransform.NewTransformRounded_reset rnd h0 hi T G b hT]
  obtain ⟨_, ⟨p1, p2, p3⟩, _⟩ := hT
  simp only [FVector.SubRounded, FVector.Sub, FVector.mk.injEq] at hx
  obtain ⟨x1, x2, x3⟩ := hx
  cases T with
  | mk r p sc =>
    cases p with
    | mk px py pz =>
      simp only at p1 p2 p3 x1 x2 x3 ⊢
      rw [x1, x2, x3, sub_add_cancel, sub_add_cancel, sub_add_cancel, p1, p2, p3]

theorem ApplyDeltaTransform.LoopRounded_cons_movable (rnd : ℚ → ℚ) (w : World)
    (D : FTransform) (s : ATransformerActor) (c : CompId) (rest : List (Option CompId))
    (g : GizmoId) (hg : s.Gizmo = some g) (hv : s.IsValidGizmo (some g) = true)
    (hm : s.bForceMobility = true ∨ s.Mobility c = EComponentMobility.Movable) :
    ApplyDeltaTransform.LoopRounded rnd w D none (some c :: rest) s
      = ApplyDeltaTransform.LoopRounded rnd w D none rest
          (SetTransform w (s.SetMobility c EComponentMobility.Movable) (some c)
            (ApplyDeltaTransform.NewTransformRounded rnd D (s.ComponentTransforms c)
              (w.GetActorLocation g (s.GizmoActors g) s.ComponentTransforms)
              s.bRotateOnLocalAxis)) := by
  have hcond : (s.bForceMobility || decide (s.Mobility c = EComponentMobility.Movable))
      = true := by
    rcases hm with h | h <;> simp [h]
  simp [ApplyDeltaTransform.LoopRounded, ApplyDeltaTransform.StepRounded, hcond, hg, hv]

theorem ApplyDeltaTransform.StepRounded_transformFrame (rnd : ℚ → ℚ) (w : World)
    (D : FTransform) (snapping : Option ℚ) (s t : ATransformerActor) (sc : Option CompId)
    (h : ApplyDeltaTransform.StepRounded rnd w D snapping s sc = some t) :
    TransformFrame s t := by
  unfold ApplyDeltaTransform.StepRounded at h
  split at h
  · cases h; exact TransformFrame.same s
  · split at h
    · split at h
      · split at h
        · cases h
          refine TransformFrame.followedBy ?_ (SetTransform_transformFrame w _ _ _)
          refine TransformFrame.followedBy ?_ (SetMobility_transformFrame _ _ _)
          cases snapping
          · exact TransformFrame.same s
          · exact Emit_transformFrame s _
        · cases h
      · cases h
    · cases h; exact Emit_transformFrame s _

theorem ApplyDeltaTransform.StepRounded_isSome (rnd : ℚ → ℚ) (w : World) (D : FTransform)
    (snapping : Option ℚ) (s : ATransformerActor) (sc : Option CompId) (g : GizmoId)
    (hg : s.Gizmo = some g) (hv : s.IsValidGizmo (some g) = true) :
    ∃ t, ApplyDeltaTransform.StepRounded rnd w D snapping s sc = some t := by
  unfold ApplyDeltaTransform.StepRounded
  split
  · exact ⟨_, rfl⟩
  · split
    · simp only [hg, hv, if_true]
      exact ⟨_, rfl⟩
    · exact ⟨_, rfl⟩

theorem ApplyDeltaTransform.LoopRounded_isSome (rnd : ℚ → ℚ) (w : World) (D : FTransform)
    (snapping : Option ℚ) (l : List (Option CompId)) (g : GizmoId) :
    ∀ s : ATransformerActor, s.Gizmo = some g → s.IsValidGizmo (some g) = true →
      ∃ t, ApplyDeltaTransform.LoopRounded rnd w D snapping l s = some t := by
  induction l with
  | nil => intro s _ _; exact ⟨s, rfl⟩
  | cons sc rest ih =>
    intro s hg hv
    obtain ⟨u, hu⟩ := ApplyDeltaTransform.StepRounded_isSome rnd w D snapping s sc g hg hv
    have hf :=
      (ApplyDeltaTransform.StepRounded_transformFrame rnd w D snapping s u sc hu).valid g hg hv
    obtain ⟨t, ht⟩ := ih u hf.1 hf.2
    exact ⟨t, by simp [ApplyDeltaTransform.LoopRounded, hu, ht]⟩

theorem ApplyDeltaTransform.StepRounded_exact (rnd : ℚ → ℚ) (h0 : rnd 0 = 0)
    (hi : ∀ x, rnd (rnd x) = rnd x) (w : World) (s t : ATransformerActor)
    (sc : Option CompId)
    (hx : ∀ c g, sc = some c → s.Gizmo = some g →
      (s.ComponentTransforms c).IsRounded rnd ∧
      FVector.SubRounded rnd (s.ComponentTransforms c).Translation
          (w.GetActorLocation g (s.GizmoActors g) s.ComponentTransforms)
        = FVector.Sub (s.ComponentTransforms c).Translation
          (w.GetActorLocation g (s.GizmoActors g) s.ComponentTransforms))
    (h : ApplyDeltaTransform.StepRounded rnd w ResetDeltaTransform none s sc = some t) :
    t.ComponentTransforms = s.ComponentTransforms := by
  unfold ApplyDeltaTransform.StepRounded at h
  split at h
  · cases h; rfl
  · rename_i c
    split at h
    · split at h
      · rename_i g hg
        split at h
        · cases h
          dsimp only
          obtain ⟨hT, hsub⟩ := hx c g rfl hg
          rw [ApplyDeltaTransform.NewTransformRounded_exact rnd h0 hi _ _ _ hT hsub]
          exact SetTransform_same w (s.SetMobility _ EComponentMobility.Movable) _
        · cases h
      · cases h
    · cases h; rfl

theorem ApplyDeltaTransform.LoopRounded_exact (rnd : ℚ → ℚ) (h0 : rnd 0 = 0)
    (hi : ∀ x, rnd (rnd x) = rnd x) (w : World) (l : List (Option CompId)) :
    ∀ s t : ATransformerActor,
      (∀ c g, some c ∈ l → s.Gizmo = some g →
        (s.ComponentTransforms c).IsRounded rnd ∧
        FVector.SubRounded rnd (s.ComponentTransforms c).Translation
            (w.GetActorLocation g (s.GizmoActors g) s.ComponentTransforms)
          = FVector.Sub (s.ComponentTransforms c).Translation
            (w.GetActorLocation g (s.GizmoActors g) s.ComponentTransforms)) →
      ApplyDeltaTransform.LoopRounded rnd w ResetDeltaTransform none l s = some t →
      t.ComponentTransforms = s.ComponentTransforms := by
  induction l with
  | nil => intro s t _ h; cases h; rfl
  | cons sc rest ih =>
    intro s t hx h
    unfold ApplyDeltaTransform.LoopRounded at h
    cases hs : ApplyDeltaTransform.StepRounded rnd w ResetDeltaTransform none s sc with
    | none => rw [hs] at h; cases h
    | some u =>
      rw [hs] at h
      have hu : u.ComponentTransforms = s.ComponentTransforms :=
        ApplyDeltaTransform.StepRounded_exact rnd h0 hi w s u sc
          (fun c g hc hg => hx c g (by rw [hc]; exact List.mem_cons_self _ _) hg) hs
      have hf := ApplyDeltaTransform.StepRounded_transformFrame rnd w _ none s u sc hs
      refine (ih u t ?_ h).trans hu
      intro c g hc hg
      rw [hu, hf.GizmoActors]
      exact hx c g (List.mem_cons_of_mem _ hc) (hf.Gizmo ▸ hg)

theorem FTransform.Identity_IsRounded_double (p : FVector)
    (hx : RoundToDouble p.X = p.X) (hy : RoundToDouble p.Y = p.Y)
    (hz : RoundToDouble p.Z = p.Z) :
    FTransform.IsRounded RoundToDouble ⟨FQuat.Identity, p, FVector.OneVector⟩ := by
  exact ⟨⟨RoundToDouble_zero, RoundToDouble_zero, RoundToDouble_zero, RoundToDouble_one⟩,
    ⟨hx, hy, hz⟩, ⟨RoundToDouble_one, RoundToDouble_one, RoundToDouble_one⟩⟩

/-! ## The claims -/

/-- C1. In every state reached from an empty selection by any sequence of SelectComponent,
SelectActor, SelectMultipleComponents, SelectMultipleActors, DeselectComponent,
DeselectActor and DeselectAll calls, with any arguments and either value of the toggle
flag, no handle occurs twice in the selection list. -/
theorem selection_has_no_duplicates (w : World) (s : ATransformerActor)
    (calls : List SelectionCall) (h : s.SelectedComponents = []) :
    (RunCalls w s calls).SelectedComponents.Nodup :=
  RunCalls_nodup w calls s (by rw [h]; exact List.nodup_nil)

theorem selection_has_no_duplicates_witness :
    ATransformerActor.Constructed.SelectedComponents = [] ∧
    (RunCalls ExampleWorld ATransformerActor.Constructed
      [SelectionCall.SelectComponent (some 10) true,
       SelectionCall.SelectActor (some (ActorId.scene 2)) true,
       SelectionCall.SelectMultipleComponents [some 10, none, some 31, some 31] true,
       SelectionCall.SelectActor (some (ActorId.scene 0)) true,
       SelectionCall.DeselectComponent (some 20),
       SelectionCall.SelectMultipleActors [some (ActorId.scene 0), some (ActorId.scene 4)] false,
       SelectionCall.DeselectAll true]).SelectedComponents.Nodup :=
  ⟨rfl, selection_has_no_duplicates ExampleWorld ATransformerActor.Constructed _ rfl⟩

/-- C2 (the claim as stated fails). In the example scene, after SelectActor(append=true) on
the actor without root component, the selection [10, null] is duplicate-free and the null
entry is a member of it, and DeselectComponent(null) leaves the selection as it is: the
member is not removed. -/
theorem deselect_null_member_keeps_it :
    (SelectActor ExampleWorld ExampleSelected (some (ActorId.scene 0)) true).SelectedComponents
      = [some 10, none] ∧
    (SelectActor ExampleWorld ExampleSelected (some (ActorId.scene 0))
      true).SelectedComponents.Nodup ∧
    none ∈ (SelectActor ExampleWorld ExampleSelected (some (ActorId.scene 0))
      true).SelectedComponents ∧
    (DeselectComponent ExampleWorld
      (SelectActor ExampleWorld ExampleSelected (some (ActorId.scene 0)) true)
      none).SelectedComponents = [some 10, none] := by
  decide

/-- C2 (amended). For every duplicate-free selection and every component b (in particular
every member that is not null), DeselectComponent(b) leaves the selection with b removed
and the other members in their order; a following SelectComponent(b, append=true) that
ShouldSelect accepts leaves that list with b appended at the end. -/
theorem deselect_then_reselect_appends (w : World) (s : ATransformerActor) (b : CompId)
    (hnd : s.SelectedComponents.Nodup) :
    (DeselectComponent w s (some b)).SelectedComponents
      = s.SelectedComponents.filter (fun c => decide (c ≠ some b)) ∧
    (w.ShouldSelect (w.GetOwner b) (some b) = true →
      (SelectComponent w (DeselectComponent w s (some b)) (some b) true).SelectedComponents
        = s.SelectedComponents.filter (fun c => decide (c ≠ some b)) ++ [some b]) := by
  have h₁ : (DeselectComponent w s (some b)).SelectedComponents
      = s.SelectedComponents.filter (fun c => decide (c ≠ some b)) := by
    rw [(DeselectComponent_step w s (some b)).1, ← erase_eq_filter_of_nodup hnd]
    simp
  refine ⟨h₁, fun hs => ?_⟩
  rw [(SelectComponent_step w _ b true hs).1, h₁]
  simp

theorem deselect_then_reselect_appends_witness :
    (WithSelection [some 10, some 20, some 30]).SelectedComponents.Nodup ∧
    some 20 ∈ (WithSelection [some 10, some 20, some 30]).SelectedComponents ∧
    (DeselectComponent ExampleWorld (WithSelection [some 10, some 20, some 30])
      (some 20)).SelectedComponents = [some 10, some 30] ∧
    (SelectComponent ExampleWorld
      (DeselectComponent ExampleWorld (WithSelection [some 10, some 20, some 30]) (some 20))
      (some 20) true).SelectedComponents = [some 10, some 30, some 20] := by
  have hnd : (WithSelection [some 10, some 20, some 30]).SelectedComponents.Nodup := by
    decide
  have hb : some 20 ∈ (WithSelection [some 10, some 20, some 30]).SelectedComponents := by
    decide
  have h := deselect_then_reselect_appends ExampleWorld
    (WithSelection [some 10, some 20, some 30]) 20 hnd
  exact ⟨hnd, hb, h.1.trans (by decide), (h.2 rfl).trans (by decide)⟩

/-- C3, as the specification states it, fails: with the toggle policy enabled (the
constructor's default), two calls SelectComponent(x, append=false) in a row leave x
selected, not deselected. -/
theorem reselect_without_append_keeps_selected :
    ATransformerActor.Constructed.bToggleSelectedInMultiSelection = true ∧
    ExampleWorld.ShouldSelect (ExampleWorld.GetOwner 10) (some 10) = true ∧
    ¬ (some 10 ∉ (SelectComponent ExampleWorld
        (SelectComponent ExampleWorld ATransformerActor.Constructed (some 10) false)
        (some 10) false).SelectedComponents) := by
  refine ⟨rfl, rfl, ?_⟩
  rw [(SelectComponent_step ExampleWorld _ 10 false rfl).1]
  simp

/-- C3, amended. With the toggle policy enabled and from any selection, each call
SelectComponent(x, append=false) that ShouldSelect accepts leaves exactly x selected, so x
is still selected after the second and after the third such call; the toggle acts on
append=true calls: after SelectComponent(x, append=false), SelectComponent(x, append=true)
leaves x deselected and one more SelectComponent(x, append=true) selects it again. -/
theorem toggle_applies_to_append_only (w : World) (s : ATransformerActor) (x : CompId)
    (ht : s.bToggleSelectedInMultiSelection = true)
    (hs : w.ShouldSelect (w.GetOwner x) (some x) = true) :
    (SelectComponent w s (some x) false).SelectedComponents = [some x] ∧
    (SelectComponent w (SelectComponent w s (some x) false) (some x) false).SelectedComponents
      = [some x] ∧
    (SelectComponent w (SelectComponent w (SelectComponent w s (some x) false) (some x) false)
      (some x) false).SelectedComponents = [some x] ∧
    (SelectComponent w (SelectComponent w s (some x) false) (some x) true).SelectedComponents
      = [] ∧
    (SelectComponent w (SelectComponent w (SelectComponent w s (some x) false) (some x) true)
      (some x) true).SelectedComponents = [some x] := by
  have h₁ := SelectComponent_step w s x false hs
  have h₂ := SelectComponent_step w (SelectComponent w s (some x) false) x true hs
  have h₃ := SelectComponent_step w
    (SelectComponent w (SelectComponent w s (some x) false) (some x) true) x true hs
  have e₂ : (SelectComponent w (SelectComponent w s (some x) false) (some x)
      true).SelectedComponents = [] := by
    rw [h₂.1, h₁.1, h₁.2, ht]; simp
  refine ⟨by simpa using h₁.1, by simpa using (SelectComponent_step w _ x false hs).1,
    by simpa using (SelectComponent_step w _ x false hs).1, e₂, ?_⟩
  rw [h₃.1, e₂]; simp

theorem toggle_applies_to_append_only_witness :
    (WithSelection [some 20, some 10]).bToggleSelectedInMultiSelection = true ∧
    (SelectComponent ExampleWorld (SelectComponent ExampleWorld
      (WithSelection [some 20, some 10]) (some 10) false) (some 10) false).SelectedComponents
      = [some 10] ∧
    (SelectComponent ExampleWorld (SelectComponent ExampleWorld
      (WithSelection [some 20, some 10]) (some 10) false) (some 10) true).SelectedComponents
      = [] :=
  ⟨rfl,
   (toggle_applies_to_append_only ExampleWorld (WithSelection [some 20, some 10]) 10
      rfl rfl).2.1,
   (toggle_applies_to_append_only ExampleWorld (WithSelection [some 20, some 10]) 10
      rfl rfl).2.2.2.1⟩

/-- C4. Whatever the selection and the toggle flag, SelectComponent(x, append=false) for a
non-null x accepted by ShouldSelect first deselects every member (one deselect notification
for each non-null member, in order) and then appends x, leaving exactly the list [x];
SelectActor(a, append=false) likewise leaves exactly [root component of a]. -/
theorem select_without_append_replaces_selection (w : World) (s : ATransformerActor) :
    (∀ x : CompId, w.ShouldSelect (w.GetOwner x) (some x) = true →
      (SelectComponent w s (some x) false).SelectedComponents = [some x] ∧
      SelectionChanges (SelectComponent w s (some x) false).EventLog
        = SelectionChanges s.EventLog
          ++ ((s.SelectedComponents.filter (fun c => decide (c ≠ none))).map
                (fun c => (c, false)) ++ [(some x, true)])) ∧
    (∀ a : ActorId, w.ShouldSelect (some a) (w.GetRootComponent a) = true →
      (SelectActor w s (some a) false).SelectedComponents = [w.GetRootComponent a] ∧
      SelectionChanges (SelectActor w s (some a) false).EventLog
        = SelectionChanges s.EventLog
          ++ ((s.SelectedComponents.filter (fun c => decide (c ≠ none))).map
                (fun c => (c, false)) ++ [(w.GetRootComponent a, true)])) := by
  constructor
  · intro x hs
    have h := SelectComponent_step w s x false hs
    exact ⟨by simpa using h.1, by simpa using h.4⟩
  · intro a hs
    have h := SelectActor_step w s a false hs
    exact ⟨by simpa using h.1, by simpa using h.4⟩

theorem select_without_append_replaces_selection_witness :
    ExampleWorld.ShouldSelect (ExampleWorld.GetOwner 20) (some 20) = true ∧
    (SelectComponent ExampleWorld (WithSelection [some 10, some 20, some 30]) (some 20)
      false).SelectedComponents = [some 20] ∧
    ExampleWorld.ShouldSelect (some (ActorId.scene 4))
      (ExampleWorld.GetRootComponent (ActorId.scene 4)) = true ∧
    (SelectActor ExampleWorld (WithSelection [some 10, some 20, some 30])
      (some (ActorId.scene 4)) false).SelectedComponents = [some 40] :=
  ⟨rfl,
   ((select_without_append_replaces_selection ExampleWorld
      (WithSelection [some 10, some 20, some 30])).1 20 rfl).1,
   rfl,
   ((select_without_append_replaces_selection ExampleWorld
      (WithSelection [some 10, some 20, some 30])).2 (ActorId.scene 4) rfl).1⟩

/-- C5. For a duplicate-free selection L and a member x of it, SelectComponent(x,
append=true) accepted by ShouldSelect leaves L with x removed, the others in order, when
bToggleSelectedInMultiSelection is true, and leaves exactly L when it is false. -/
theorem reselect_with_append_toggles (w : World) (s : ATransformerActor) (x : CompId)
    (hnd : s.SelectedComponents.Nodup) (hx : some x ∈ s.SelectedComponents)
    (hs : w.ShouldSelect (w.GetOwner x) (some x) = true) :
    (s.bToggleSelectedInMultiSelection = true →
      (SelectComponent w s (some x) true).SelectedComponents
        = s.SelectedComponents.filter (fun c => decide (c ≠ some x))) ∧
    (s.bToggleSelectedInMultiSelection = false →
      (SelectComponent w s (some x) true).SelectedComponents = s.SelectedComponents) := by
  have h := (SelectComponent_step w s x true hs).1
  simp only [if_true, hx] at h
  constructor
  · intro ht
    rw [h, ht, if_pos rfl, erase_eq_filter_of_nodup hnd]
  · intro ht
    rw [h, ht]; simp

theorem reselect_with_append_toggles_witness :
    (WithSelection [some 10, some 20, some 30]).SelectedComponents.Nodup ∧
    some 20 ∈ (WithSelection [some 10, some 20, some 30]).SelectedComponents ∧
    (SelectComponent ExampleWorld (WithSelection [some 10, some 20, some 30]) (some 20)
      true).SelectedComponents = [some 10, some 30] ∧
    (SelectComponent ExampleWorld
      { WithSelection [some 10, some 20, some 30] with
        bToggleSelectedInMultiSelection := false } (some 20)
      true).SelectedComponents = [some 10, some 20, some 30] := by
  have hnd : (WithSelection [some 10, some 20, some 30]).SelectedComponents.Nodup := by
    decide
  have hx : some 20 ∈ (WithSelection [some 10, some 20, some 30]).SelectedComponents := by
    decide
  exact ⟨hnd, hx,
    ((reselect_with_append_toggles ExampleWorld (WithSelection [some 10, some 20, some 30])
      20 hnd hx rfl).1 rfl).trans (by decide),
    (reselect_with_append_toggles ExampleWorld
      { WithSelection [some 10, some 20, some 30] with
        bToggleSelectedInMultiSelection := false } 20 hnd hx rfl).2 rfl⟩

/-- C6, as the specification states it, fails: after SelectActor on an actor without root
component the selection list is the one null handle, and DeselectAll(false) fires no
deselect notification for that member. -/
theorem deselect_all_skips_null_member :
    (SelectActor ExampleWorld ATransformerActor.Constructed (some (ActorId.scene 0))
      false).SelectedComponents = [none] ∧
    SelectionChanges (DeselectAll ExampleWorld
      (SelectActor ExampleWorld ATransformerActor.Constructed (some (ActorId.scene 0)) false)
      false).1.EventLog
    ≠ SelectionChanges (SelectActor ExampleWorld ATransformerActor.Constructed
        (some (ActorId.scene 0)) false).EventLog
      ++ (SelectActor ExampleWorld ATransformerActor.Constructed (some (ActorId.scene 0))
          false).SelectedComponents.map (fun c => (c, false)) := by
  have h := (SelectActor_step ExampleWorld ATransformerActor.Constructed (ActorId.scene 0)
    false rfl).1
  have h₁ : (SelectActor ExampleWorld ATransformerActor.Constructed (some (ActorId.scene 0))
      false).SelectedComponents = [none] := h
  refine ⟨h₁, ?_⟩
  rw [(DeselectAll_step ExampleWorld _ false).4, h₁]
  simp

/-- C6, amended. For every selection list L, DeselectAll(false) returns exactly L, leaves
the selection empty, and fires exactly one deselect notification for each non-null member
of L, in the order of L; a null entry, which DeselectComponent ignores, gets none. -/
theorem deselect_all_returns_and_notifies (w : World) (s : ATransformerActor) :
    (DeselectAll w s false).2 = s.SelectedComponents ∧
    (DeselectAll w s false).1.SelectedComponents = [] ∧
    SelectionChanges (DeselectAll w s false).1.EventLog
      = SelectionChanges s.EventLog
        ++ (s.SelectedComponents.filter (fun c => decide (c ≠ none))).map
             (fun c => (c, false)) :=
  ⟨rfl, (DeselectAll_step w s false).1, (DeselectAll_step w s false).4⟩

/-- C7, evaluated on the code: with destruction requested, DeselectAll destroys the owner of
the selected component and still returns the list of deselected handles, not the empty
list its documentation promises. -/
theorem deselect_all_destroy_returns_handles :
    (DeselectAll ExampleWorld (WithSelection [some 10]) true).2 = [some 10] ∧
    (DeselectAll ExampleWorld (WithSelection [some 10]) true).1.DestroyedActors
      = [ActorId.scene 1] := by
  constructor
  · rfl
  · decide

/-- C8, evaluated on the code: SelectActor, and SelectMultipleActors, on an actor that has no
root component put a null handle into the selection list. -/
theorem select_rootless_actor_adds_null :
    ExampleWorld.GetRootComponent (ActorId.scene 0) = none ∧
    (SelectActor ExampleWorld ATransformerActor.Constructed (some (ActorId.scene 0))
      false).SelectedComponents = [none] ∧
    (SelectMultipleActors ExampleWorld ATransformerActor.Constructed
      [some (ActorId.scene 2), some (ActorId.scene 0)] false).SelectedComponents
      = [some 20, none] := by
  refine ⟨rfl, ?_, ?_⟩
  · decide
  · decide

/-- C9, evaluated on the code: in component mode with the toggle policy on and two components
of one actor selected, SetComponentBased(false) selects the actor's root for the first and
toggles it off again for the second, leaving nothing selected; with the toggle policy off
the same call leaves the root selected. -/
theorem mode_switch_drops_actor_with_two_components :
    ExampleWorld.GetOwner 10 = some (ActorId.scene 1) ∧
    ExampleWorld.GetOwner 11 = some (ActorId.scene 1) ∧
    ExampleWorld.GetRootComponent (ActorId.scene 1) = some 10 ∧
    (SetComponentBased ExampleWorld
      { WithSelection [some 10, some 11] with bComponentBased := true } false).map
        (fun t => t.SelectedComponents) = some [] ∧
    (SetComponentBased ExampleWorld
      { WithSelection [some 10, some 11] with
        bComponentBased := true, bToggleSelectedInMultiSelection := false } false).map
        (fun t => t.SelectedComponents) = some [some 10] := by
  refine ⟨rfl, rfl, rfl, ?_, ?_⟩
  · decide
  · decide

/-- C10. Gizmo priority: when a gizmo is active and some hit of the list is on that gizmo with
a component that resolves to a domain other than None, HandleTracedObjects returns true,
the current domain becomes the domain resolved for the first such hit in list order, and
the selection list is unchanged, whatever hits precede it. -/
theorem gizmo_hit_has_priority (w : World) (s : ATransformerActor) (hits : List FHitResult)
    (bAppendToList : Bool) (g : GizmoId) (hg : s.Gizmo = some g)
    (hv : s.IsValidGizmo (some g) = true)
    (hex : ∃ h ∈ hits, IsGizmoDomainHit w g h = true) :
    ∃ h c, hits.find? (IsGizmoDomainHit w g) = some h ∧ h.Component = some c ∧
      (HandleTracedObjects w s hits bAppendToList).2 = true ∧
      (HandleTracedObjects w s hits bAppendToList).1.CurrentDomain
        = w.GetTransformationDomain g c ∧
      (HandleTracedObjects w s hits bAppendToList).1.CurrentDomain
        ≠ ETransformationDomain.TD_None ∧
      (HandleTracedObjects w s hits bAppendToList).1.SelectedComponents
        = s.SelectedComponents := by
  obtain ⟨h₀, hmem, hp⟩ := hex
  cases hfind : hits.find? (IsGizmoDomainHit w g) with
  | none =>
    have := List.find?_eq_none.mp hfind h₀ hmem
    exact absurd hp this
  | some h =>
    have hcg : (ClearDomain s).Gizmo = some g := by
      unfold ClearDomain; rw [(SetDomain_Gizmo _ _).1]; exact hg
    have hcv : (ClearDomain s).IsValidGizmo (some g) = true := by
      unfold ClearDomain
      simp only [ATransformerActor.IsValidGizmo, (SetDomain_Gizmo _ _).2] at hv ⊢
      exact hv
    obtain ⟨c, h1, h2, h3, h4, h5⟩ :=
      HandleTracedObjects.GizmoLoop_found w g hits (ClearDomain s) h hfind
    have hr : HandleTracedObjects w s hits bAppendToList
        = ((HandleTracedObjects.GizmoLoop w g hits (ClearDomain s)).1, true) := by
      unfold HandleTracedObjects
      simp only [hcg, hcv, if_true, h2]
    refine ⟨h, c, rfl, h1, ?_, ?_, ?_, ?_⟩
    · rw [hr]
    · rw [hr]; exact h3
    · rw [hr]; exact h3 ▸ h4
    · rw [hr]; exact ((ClearDomain_frame s).compose h5).1

theorem gizmo_hit_has_priority_witness :
    (SelectComponent ExampleWorld ATransformerActor.Constructed (some 10) false).Gizmo
      = some 0 ∧
    (HandleTracedObjects ExampleWorld
      (SelectComponent ExampleWorld ATransformerActor.Constructed (some 10) false)
      [⟨some (ActorId.scene 5), some 50⟩, ⟨some (ActorId.scene 6), some 61⟩,
       ⟨some (ActorId.gizmo 0), some 1000⟩, ⟨some (ActorId.gizmo 0), some 1001⟩]
      false).2 = true ∧
    (HandleTracedObjects ExampleWorld
      (SelectComponent ExampleWorld ATransformerActor.Constructed (some 10) false)
      [⟨some (ActorId.scene 5), some 50⟩, ⟨some (ActorId.scene 6), some 61⟩,
       ⟨some (ActorId.gizmo 0), some 1000⟩, ⟨some (ActorId.gizmo 0), some 1001⟩]
      false).1.SelectedComponents = [some 10] := by
  have hg : (SelectComponent ExampleWorld ATransformerActor.Constructed (some 10) false).Gizmo
      = some 0 := by decide
  obtain ⟨h, c, _, _, h3, _, _, h6⟩ := gizmo_hit_has_priority ExampleWorld
    (SelectComponent ExampleWorld ATransformerActor.Constructed (some 10) false)
    [⟨some (ActorId.scene 5), some 50⟩, ⟨some (ActorId.scene 6), some 61⟩,
     ⟨some (ActorId.gizmo 0), some 1000⟩, ⟨some (ActorId.gizmo 0), some 1001⟩]
    false 0 hg (by decide) ⟨⟨some (ActorId.gizmo 0), some 1001⟩, by simp, by decide⟩
  exact ⟨hg, h3, h6.trans (by decide)⟩

/-- C11. Fallback selection: when no hit on the active gizmo resolves to a domain other than
None (or no gizmo is active), HandleTracedObjects hands the first hit whose actor is not a
gizmo to SelectComponent (component mode) or SelectActor (actor mode) with the given append
flag, looks at no later hit, returns true and leaves the current domain None; when the
list has no such hit it returns false with the domain None and the selection unchanged. -/
theorem fallback_selects_first_other_hit (w : World) (s : ATransformerActor)
    (hits : List FHitResult) (bAppendToList : Bool)
    (hno : ∀ g, s.Gizmo = some g → s.IsValidGizmo (some g) = true →
      ∀ h ∈ hits, IsGizmoDomainHit w g h = false) :
    ∃ pre : ATransformerActor, SelectionFrame s pre ∧
      pre.CurrentDomain = ETransformationDomain.TD_None ∧
      (∀ h, hits.find? IsOtherActorHit = some h →
        HandleTracedObjects w s hits bAppendToList
          = ((if s.bComponentBased then SelectComponent w pre h.Component bAppendToList
              else SelectActor w pre h.Actor bAppendToList), true) ∧
        (HandleTracedObjects w s hits bAppendToList).1.CurrentDomain
          = ETransformationDomain.TD_None ∧
        (HandleTracedObjects w s hits bAppendToList).1.SelectedComponents
          = (if s.bComponentBased then SelectComponent w s h.Component bAppendToList
             else SelectActor w s h.Actor bAppendToList).SelectedComponents) ∧
      (hits.find? IsOtherActorHit = none →
        HandleTracedObjects w s hits bAppendToList = (pre, false) ∧
        (HandleTracedObjects w s hits bAppendToList).1.CurrentDomain
          = ETransformationDomain.TD_None ∧
        (HandleTracedObjects w s hits bAppendToList).1.SelectedComponents
          = s.SelectedComponents) := by
  obtain ⟨pre, hf, hd, he⟩ := HandleTracedObjects.fallback_state w s hits bAppendToList hno
  have hsp := HandleTracedObjects.SelectLoop_spec w bAppendToList hits pre
  refine ⟨pre, hf, hd, ?_, ?_⟩
  · intro h hfind
    have hr := he.trans (hsp.1 h hfind)
    rw [hf.3] at hr
    rw [hr]
    refine ⟨rfl, ?_, ?_⟩
    · cases s.bComponentBased
      · exact ((SelectActor_session w pre h.Actor bAppendToList).1).trans hd
      · exact ((SelectComponent_session w pre h.Component bAppendToList).1).trans hd
    · cases s.bComponentBased
      · exact SelectActor_SelectedComponents_congr w hf _ _
      · exact SelectComponent_SelectedComponents_congr w hf _ _
  · intro hfind
    have hr := he.trans (hsp.2 hfind)
    rw [hr]
    exact ⟨rfl, hd, hf.1⟩

theorem fallback_selects_first_other_hit_witness :
    (∀ h ∈ [(⟨some (ActorId.gizmo 0), some 1000⟩ : FHitResult),
        ⟨some (ActorId.gizmo 7), some 1071⟩, ⟨some (ActorId.scene 5), some 51⟩,
        ⟨some (ActorId.scene 6), some 60⟩], IsGizmoDomainHit ExampleWorld 0 h = false) ∧
    (HandleTracedObjects ExampleWorld ExampleSelected
      [⟨some (ActorId.gizmo 0), some 1000⟩, ⟨some (ActorId.gizmo 7), some 1071⟩,
       ⟨some (ActorId.scene 5), some 51⟩, ⟨some (ActorId.scene 6), some 60⟩] true).2 = true ∧
    (HandleTracedObjects ExampleWorld ExampleSelected
      [⟨some (ActorId.gizmo 0), some 1000⟩, ⟨some (ActorId.gizmo 7), some 1071⟩,
       ⟨some (ActorId.scene 5), some 51⟩, ⟨some (ActorId.scene 6), some 60⟩]
      true).1.CurrentDomain = ETransformationDomain.TD_None ∧
    (HandleTracedObjects ExampleWorld ExampleSelected
      [⟨some (ActorId.gizmo 0), some 1000⟩, ⟨some (ActorId.gizmo 7), some 1071⟩,
       ⟨some (ActorId.scene 5), some 51⟩, ⟨some (ActorId.scene 6), some 60⟩]
      true).1.SelectedComponents = [some 10, some 50] := by
  have hg0 : ExampleSelected.Gizmo = some 0 := by decide
  have hall : ∀ h ∈ [(⟨some (ActorId.gizmo 0), some 1000⟩ : FHitResult),
      ⟨some (ActorId.gizmo 7), some 1071⟩, ⟨some (ActorId.scene 5), some 51⟩,
      ⟨some (ActorId.scene 6), some 60⟩], IsGizmoDomainHit ExampleWorld 0 h = false := by
    decide
  obtain ⟨pre, _, _, h1, _⟩ := fallback_selects_first_other_hit ExampleWorld ExampleSelected
    [⟨some (ActorId.gizmo 0), some 1000⟩, ⟨some (ActorId.gizmo 7), some 1071⟩,
     ⟨some (ActorId.scene 5), some 51⟩, ⟨some (ActorId.scene 6), some 60⟩] true
    (fun g hg _ => by
      rw [hg0] at hg
      cases hg
      exact hall)
  obtain ⟨he, hd, hs⟩ := h1 ⟨some (ActorId.scene 5), some 51⟩ (by decide)
  exact ⟨hall, by rw [he], hd, hs.trans (by decide)⟩

/-- C12, evaluated on the code: the mouse world position is computed and TraceByChannel for
the computed points returns true and selects the traced object, yet MouseTraceByChannel
returns false; MouseTraceByProfile and MouseTraceByObjectTypes return true on the same
scene. -/
theorem mouse_trace_by_channel_returns_false :
    CalculateMouseWorldPosition ExampleWorld 100 = some (⟨0, 0, 0⟩, ⟨100, 0, 0⟩) ∧
    (TraceByChannel ExampleWorld ATransformerActor.Constructed ⟨0, 0, 0⟩ ⟨100, 0, 0⟩ 0 []
      false false).2 = true ∧
    (MouseTraceByChannel ExampleWorld ATransformerActor.Constructed 100 0 [] false false).2
      = false ∧
    (MouseTraceByChannel ExampleWorld ATransformerActor.Constructed 100 0 [] false
      false).1.SelectedComponents = [some 30] ∧
    (MouseTraceByProfile ExampleWorld ATransformerActor.Constructed 100 0 [] false false).2
      = true ∧
    (MouseTraceByObjectTypes ExampleWorld ATransformerActor.Constructed 100 [0] [] false
      false).2 = true := by
  refine ⟨?_, ?_, ?_, ?_, ?_, ?_⟩
  · simp [CalculateMouseWorldPosition, ExampleWorld, FVector.Add, FVector.Scale]
  · decide
  · decide
  · decide
  · decide
  · decide

/-- C13. When no gizmo is active or the current domain is None, UpdateTransform returns the
delta with zero translation, identity rotation and zero scale, whatever the looking vector
and the ray, and leaves the whole state as it was: the accumulated transform and the
transform and mobility of every component are unchanged. -/
theorem zero_domain_update_is_identity (w : World) (s : ATransformerActor)
    (LookingVector RayOrigin RayDirection : FVector)
    (h : s.IsValidGizmo s.Gizmo = false ∨ s.CurrentDomain = ETransformationDomain.TD_None) :
    UpdateTransform w s LookingVector RayOrigin RayDirection
      = some (s, ⟨FQuat.Identity, FVector.ZeroVector, FVector.ZeroVector⟩) := by
  unfold UpdateTransform
  cases hg : s.Gizmo with
  | none => rfl
  | some g =>
    rw [hg] at h
    rcases h with h | h
    · simp [h]; rfl
    · simp [h]; rfl

theorem zero_domain_update_is_identity_witness :
    (SelectComponent ExampleWorld ATransformerActor.Constructed (some 10) false).CurrentDomain
      = ETransformationDomain.TD_None ∧
    UpdateTransform ExampleWorld
      (SelectComponent ExampleWorld ATransformerActor.Constructed (some 10) false)
      ⟨1, 0, 0⟩ ⟨3, 0, 0⟩ ⟨0, 1, 0⟩
      = some (SelectComponent ExampleWorld ATransformerActor.Constructed (some 10) false,
          ⟨FQuat.Identity, FVector.ZeroVector, FVector.ZeroVector⟩) :=
  ⟨by decide, zero_domain_update_is_identity ExampleWorld _ _ _ _ (Or.inr (by decide))⟩

/-- C14 (the claim as stated fails). In the example scene, during a drag on the X handle
with translation snapping enabled and the snapping value zero, UpdateTransform does consult
the gizmo: the log gains the request GetSnappedTransform and one request
GetSnappedTransformPerComponent for the selected component, each with the value zero. -/
theorem zero_snapping_value_still_consults_gizmo :
    ExampleZeroSnap.SnappingEnabled ExampleZeroSnap.CurrentTransformation = some true ∧
    ExampleZeroSnap.SnappingValues ExampleZeroSnap.CurrentTransformation = some 0 ∧
    SnapRequests ExampleZeroSnap.EventLog = [] ∧
    (UpdateTransform ExampleWorld ExampleZeroSnap ⟨1, 0, 0⟩ ⟨5, 0, 0⟩ ⟨0, 0, 1⟩).map
        (fun r => SnapRequests r.1.EventLog)
      = some [Event.GetSnappedTransform 0 ETransformationDomain.AxisX 0,
              Event.GetSnappedTransformPerComponent 0 ETransformationDomain.AxisX 0] := by
  refine ⟨by decide, by decide, by decide, ?_⟩
  decide

/-- C14 (amended). During a session (active gizmo, current domain not None): if snapping for
the current kind is disabled or has no entry in either table, UpdateTransform returns
exactly the raw delta computed by the gizmo, applies it with ApplyDeltaTransform, leaves the
accumulated transform unchanged and makes no snap request, and ApplyDeltaTransform makes no
snap request for any delta; if snapping is enabled and a value is stored, zero included,
UpdateTransform requests GetSnappedTransform with that value, returns the delta the gizmo
gives back and stores the accumulated transform the gizmo gives back. -/
theorem snapping_pass_through (w : World) (s : ATransformerActor)
    (LookingVector RayOrigin RayDirection : FVector) (g : GizmoId)
    (hg : s.Gizmo = some g) (hv : s.IsValidGizmo (some g) = true)
    (hd : s.CurrentDomain ≠ ETransformationDomain.TD_None) :
    ((s.SnappingEnabled s.CurrentTransformation = none ∨
      s.SnappingEnabled s.CurrentTransformation = some false ∨
      s.SnappingValues s.CurrentTransformation = none) →
      (∃ t, UpdateTransform w s LookingVector RayOrigin RayDirection
          = some (t, w.GetDeltaTransform g (s.GizmoActors g) s.ComponentTransforms
              LookingVector RayOrigin
              (FVector.Add RayOrigin (FVector.Scale 100000000 RayDirection))
              s.CurrentDomain) ∧
        ApplyDeltaTransform w s
          (w.GetDeltaTransform g (s.GizmoActors g) s.ComponentTransforms
              LookingVector RayOrigin
              (FVector.Add RayOrigin (FVector.Scale 100000000 RayDirection))
              s.CurrentDomain) = some t ∧
        t.AccumulatedDeltaTransform = s.AccumulatedDeltaTransform ∧
        SnapRequests t.EventLog = SnapRequests s.EventLog) ∧
      (∀ D : FTransform, ∃ t, ApplyDeltaTransform w s D = some t ∧
        SnapRequests t.EventLog = SnapRequests s.EventLog)) ∧
    (∀ v : ℚ, s.SnappingEnabled s.CurrentTransformation = some true →
      s.SnappingValues s.CurrentTransformation = some v →
      ∃ t k, UpdateTransform w s LookingVector RayOrigin RayDirection
          = some (t, (w.GetSnappedTransform g s.AccumulatedDeltaTransform
              (w.GetDeltaTransform g (s.GizmoActors g) s.ComponentTransforms
                LookingVector RayOrigin
                (FVector.Add RayOrigin (FVector.Scale 100000000 RayDirection))
                s.CurrentDomain)
              s.CurrentDomain v).1) ∧
        t.AccumulatedDeltaTransform
          = (w.GetSnappedTransform g s.AccumulatedDeltaTransform
              (w.GetDeltaTransform g (s.GizmoActors g) s.ComponentTransforms
                LookingVector RayOrigin
                (FVector.Add RayOrigin (FVector.Scale 100000000 RayDirection))
                s.CurrentDomain)
              s.CurrentDomain v).2 ∧
        t.EventLog = s.EventLog ++ Event.GetSnappedTransform g s.CurrentDomain v :: k) := by
  have hfree : s.ActiveSnappingValue = none → ∀ (D : FTransform) (t : ATransformerActor),
      ApplyDeltaTransform w s D = some t →
      SnapRequests t.EventLog = SnapRequests s.EventLog := by
    intro hn D t ht
    unfold ApplyDeltaTransform at ht
    obtain ⟨k, hk, hs⟩ := ApplyDeltaTransform.Loop_EventLog w D _ _ s t ht
    rw [hk, SnapRequests_append, hs hn, List.append_nil]
  refine ⟨fun hoff => ?_, fun v he hval => ?_⟩
  · have hn := ActiveSnappingValue_eq_none s hoff
    refine ⟨?_, fun D => ?_⟩
    · obtain ⟨t, ha, hu⟩ := UpdateTransform_raw w s LookingVector RayOrigin RayDirection g
        hg hv hd hn
      exact ⟨t, hu, ha, (ApplyDeltaTransform.Loop_transformFrame w _ _ _ s t ha).7,
        hfree hn _ t ha⟩
    · obtain ⟨t, ht⟩ := ApplyDeltaTransform_isSome w s D g hg hv
      exact ⟨t, ht, hfree hn D t ht⟩
  · have hs := ActiveSnappingValue_eq_some s v he hval
    obtain ⟨t, ha, hu⟩ := UpdateTransform_snapped w s LookingVector RayOrigin RayDirection g v
      hg hv hd hs
    obtain ⟨k, hk, _⟩ := ApplyDeltaTransform.Loop_EventLog w _ _ _ _ t ha
    refine ⟨t, k, hu, (ApplyDeltaTransform.Loop_transformFrame w _ _ _ _ t ha).7, ?_⟩
    rw [hk]
    simp [ATransformerActor.Emit]

theorem snapping_pass_through_witness :
    ExampleDragging.Gizmo = some 0 ∧
    ExampleDragging.CurrentDomain = ETransformationDomain.AxisX ∧
    ExampleDragging.SnappingEnabled ExampleDragging.CurrentTransformation = none ∧
    (∃ t, UpdateTransform ExampleWorld ExampleDragging ⟨1, 0, 0⟩ ⟨5, 0, 0⟩ ⟨0, 0, 1⟩
        = some (t, ExampleWorld.GetDeltaTransform 0 (ExampleDragging.GizmoActors 0)
            ExampleDragging.ComponentTransforms ⟨1, 0, 0⟩ ⟨5, 0, 0⟩
            (FVector.Add ⟨5, 0, 0⟩ (FVector.Scale 100000000 ⟨0, 0, 1⟩))
            ExampleDragging.CurrentDomain) ∧
      ApplyDeltaTransform ExampleWorld ExampleDragging
        (ExampleWorld.GetDeltaTransform 0 (ExampleDragging.GizmoActors 0)
            ExampleDragging.ComponentTransforms ⟨1, 0, 0⟩ ⟨5, 0, 0⟩
            (FVector.Add ⟨5, 0, 0⟩ (FVector.Scale 100000000 ⟨0, 0, 1⟩))
            ExampleDragging.CurrentDomain) = some t ∧
      t.AccumulatedDeltaTransform = ExampleDragging.AccumulatedDeltaTransform ∧
      SnapRequests t.EventLog = SnapRequests ExampleDragging.EventLog) :=
  ⟨by decide, by decide, by decide,
   ((snapping_pass_through ExampleWorld ExampleDragging ⟨1, 0, 0⟩ ⟨5, 0, 0⟩ ⟨0, 0, 1⟩ 0
      (by decide) (by decide) (by decide)).1 (Or.inl (by decide))).1⟩

/-- C17. Pivot correctness: with snapping inactive and a single movable selected object
located exactly at the gizmo, ApplyDeltaTransform with a pure rotation delta (zero
translation, rotation q, zero scale) hands SetTransform a transform with the object's
current location and scale and the rotation q times the current rotation, for either
value of bRotateOnLocalAxis. -/
theorem pure_rotation_about_pivot (w : World) (s : ATransformerActor) (c : CompId)
    (g : GizmoId) (q : FQuat) (hsel : s.SelectedComponents = [some c])
    (hg : s.Gizmo = some g) (hv : s.IsValidGizmo (some g) = true)
    (hm : s.Mobility c = EComponentMobility.Movable)
    (hsnap : s.ActiveSnappingValue = none)
    (hp : (s.ComponentTransforms c).Translation
      = w.GetActorLocation g (s.GizmoActors g) s.ComponentTransforms) :
    ApplyDeltaTransform w s ⟨q, FVector.ZeroVector, FVector.ZeroVector⟩
      = some (SetTransform w (s.SetMobility c EComponentMobility.Movable) (some c)
          ⟨FQuat.Mul q (s.ComponentTransforms c).Rotation,
           (s.ComponentTransforms c).Translation,
           (s.ComponentTransforms c).Scale3D⟩) := by
  unfold ApplyDeltaTransform
  rw [hsel, hsnap, ApplyDeltaTransform.Loop_cons_movable w _ none s c [] g hg hv (Or.inr hm)]
  simp only [ApplyDeltaTransform.Loop]
  congr 2
  rw [← hp]
  cases hb : s.bRotateOnLocalAxis <;>
    simp [ApplyDeltaTransform.NewTransform, FVector.Sub_self, FQuat.RotateVector_zero,
      FQuat.UnrotateVector_zero, FVector.ZeroVector_Add, FVector.Sub_Add_cancel,
      FVector.Add_ZeroVector]

theorem pure_rotation_about_pivot_witness :
    ExampleSelected.SelectedComponents = [some 10] ∧
    ExampleSelected.ActiveSnappingValue = none ∧
    (ExampleSelected.ComponentTransforms 10).Translation
      = ExampleWorld.GetActorLocation 0 (ExampleSelected.GizmoActors 0)
          ExampleSelected.ComponentTransforms ∧
    ApplyDeltaTransform ExampleWorld ExampleSelected
        ⟨⟨0, 0, 1, 0⟩, FVector.ZeroVector, FVector.ZeroVector⟩
      = some (SetTransform ExampleWorld
          (ExampleSelected.SetMobility 10 EComponentMobility.Movable) (some 10)
          ⟨FQuat.Mul ⟨0, 0, 1, 0⟩ (ExampleSelected.ComponentTransforms 10).Rotation,
           (ExampleSelected.ComponentTransforms 10).Translation,
           (ExampleSelected.ComponentTransforms 10).Scale3D⟩) :=
  ⟨by decide, by decide, by decide,
   pure_rotation_about_pivot ExampleWorld ExampleSelected 10 0 ⟨0, 0, 1, 0⟩ (by decide)
     (by decide) (by decide) (by decide) (by decide) (by decide)⟩

/-- C18 (the claim as stated fails). In binary64 arithmetic, with components 10 and 20
selected, snapping inactive, the gizmo on component 20 at x = 2^54 and the movable
component 10 at x = 1, the transform that ApplyDeltaTransform computes for component 10
from the reset delta has the location x = 0: the offset 1 - 2^54 is rounded to -2^54 and
adding the gizmo location gives 0. The call returns and component 10 is moved to x = 0. -/
theorem reset_delta_moves_object_far_from_gizmo :
    ExampleFarGizmo.SelectedComponents = [some 10, some 20] ∧
    ExampleFarGizmo.ActiveSnappingValue = none ∧
    ExampleFarGizmo.Mobility 10 = EComponentMobility.Movable ∧
    ExampleFarGizmo.ComponentTransforms 10 = ⟨FQuat.Identity, ⟨1, 0, 0⟩, FVector.OneVector⟩ ∧
    ExampleWorld.GetActorLocation 0 (ExampleFarGizmo.GizmoActors 0)
      ExampleFarGizmo.ComponentTransforms = ⟨18014398509481984, 0, 0⟩ ∧
    ApplyDeltaTransform.NewTransformRounded RoundToDouble ResetDeltaTransform
      (ExampleFarGizmo.ComponentTransforms 10) ⟨18014398509481984, 0, 0⟩
      ExampleFarGizmo.bRotateOnLocalAxis = ⟨FQuat.Identity, ⟨0, 0, 0⟩, FVector.OneVector⟩ ∧
    ∃ t, ApplyDeltaTransformRounded RoundToDouble ExampleWorld ExampleFarGizmo
        ResetDeltaTransform = some t ∧
      t.ComponentTransforms 10 = ⟨FQuat.Identity, ⟨0, 0, 0⟩, FVector.OneVector⟩ := by
  have hsel : ExampleFarGizmo.SelectedComponents = [some 10, some 20] := by decide
  have hsnap : ExampleFarGizmo.ActiveSnappingValue = none := by decide
  have hmob : ∀ c, ExampleFarGizmo.Mobility c = EComponentMobility.Movable := fun _ => rfl
  have hg : ExampleFarGizmo.Gizmo = some 0 := by decide
  have hv : ExampleFarGizmo.IsValidGizmo (some 0) = true := by decide
  have hT10 : ExampleFarGizmo.ComponentTransforms 10
      = ⟨FQuat.Identity, ⟨1, 0, 0⟩, FVector.OneVector⟩ := by
    simp [ExampleFarGizmo]
  have hT20 : ExampleFarGizmo.ComponentTransforms 20
      = ⟨FQuat.Identity, ⟨18014398509481984, 0, 0⟩, FVector.OneVector⟩ := by
    simp [ExampleFarGizmo]
  have hatt : (ExampleFarGizmo.GizmoActors 0).AttachParent = some 20 := by decide
  have hloc : ExampleWorld.GetActorLocation 0 (ExampleFarGizmo.GizmoActors 0)
      ExampleFarGizmo.ComponentTransforms = ⟨18014398509481984, 0, 0⟩ := by
    simp only [ExampleWorld, hatt, hT20]
  have hnew : ∀ b, ApplyDeltaTransform.NewTransformRounded RoundToDouble ResetDeltaTransform
      (ExampleFarGizmo.ComponentTransforms 10) ⟨18014398509481984, 0, 0⟩ b
      = ⟨FQuat.Identity, ⟨0, 0, 0⟩, FVector.OneVector⟩ := by
    intro b
    rw [hT10, ApplyDeltaTransform.NewTransformRounded_reset RoundToDouble RoundToDouble_zero
      RoundToDouble_idempotent _ _ b
      (FTransform.Identity_IsRounded_double _ RoundToDouble_one RoundToDouble_zero
        RoundToDouble_zero)]
    simp [RoundToDouble_far, RoundToDouble_zero]
  refine ⟨hsel, hsnap, hmob 10, hT10, hloc, hnew _, ?_⟩
  obtain ⟨t, ht⟩ := ApplyDeltaTransform.LoopRounded_isSome RoundToDouble ExampleWorld
    ResetDeltaTransform none [some 20]
    0 (SetTransform ExampleWorld (ExampleFarGizmo.SetMobility 10 EComponentMobility.Movable)
      (some 10) ⟨FQuat.Identity, ⟨0, 0, 0⟩, FVector.OneVector⟩) (by decide) (by decide)
  refine ⟨t, ?_, ?_⟩
  · unfold ApplyDeltaTransformRounded
    rw [hsnap, hsel, ApplyDeltaTransform.LoopRounded_cons_movable RoundToDouble ExampleWorld _
      _ 10 _ 0 hg hv (Or.inr (hmob 10)), hloc, hnew]
    exact ht
  · rw [ApplyDeltaTransform.LoopRounded_cons_movable RoundToDouble ExampleWorld _ _ 20 _ 0
      (by decide) (by decide) (Or.inr rfl)] at ht
    simp only [ApplyDeltaTransform.LoopRounded, Option.some.injEq] at ht
    rw [← ht, SetTransform_ComponentTransforms_other _ _ _ _ _ (by decide)]
    have hf : GetUFocusable ExampleWorld
        (ExampleFarGizmo.SetMobility 10 EComponentMobility.Movable) (some 10) = none := by
      decide
    show (SetTransform ExampleWorld (ExampleFarGizmo.SetMobility 10
      EComponentMobility.Movable) (some 10)
      ⟨FQuat.Identity, ⟨0, 0, 0⟩, FVector.OneVector⟩).ComponentTransforms 10 = _
    rw [SetTransform_ComponentTransforms_self, if_pos (Or.inl hf)]

/-- C18 (amended). For every rounding `rnd` of the scalar type (zero is kept, results of
operations are kept), with a valid gizmo and snapping inactive: from the reset delta the
code computes for an object with floating-point transform T a transform with the rotation
and the scale of T and with the location rnd (rnd (p - g) + g) in every coordinate, p the
location of T and g that of the gizmo; it is T whenever the offset p - g is computed
without rounding error, as it is when the gizmo is at the object. Every iteration of the
loop of ApplyDeltaTransform hands a movable object that transform, the call returns, and
when the offset of every selected component is exact it leaves every component transform
as it was. -/
theorem reset_delta_is_neutral_up_to_rounding (rnd : ℚ → ℚ) (w : World)
    (s : ATransformerActor) (g : GizmoId) (h0 : rnd 0 = 0) (hi : ∀ x, rnd (rnd x) = rnd x)
    (hg : s.Gizmo = some g) (hv : s.IsValidGizmo (some g) = true)
    (hsnap : s.ActiveSnappingValue = none) :
    (∀ (T : FTransform) (GizmoLocation : FVector) (b : Bool), T.IsRounded rnd →
      ApplyDeltaTransform.NewTransformRounded rnd ResetDeltaTransform T GizmoLocation b
        = ⟨T.Rotation,
           ⟨rnd (rnd (T.Translation.X - GizmoLocation.X) + GizmoLocation.X),
            rnd (rnd (T.Translation.Y - GizmoLocation.Y) + GizmoLocation.Y),
            rnd (rnd (T.Translation.Z - GizmoLocation.Z) + GizmoLocation.Z)⟩,
           T.Scale3D⟩) ∧
    (∀ (T : FTransform) (GizmoLocation : FVector) (b : Bool), T.IsRounded rnd →
      FVector.SubRounded rnd T.Translation GizmoLocation
        = FVector.Sub T.Translation GizmoLocation →
      ApplyDeltaTransform.NewTransformRounded rnd ResetDeltaTransform T GizmoLocation b = T) ∧
    (∀ (T : FTransform) (b : Bool), T.IsRounded rnd →
      ApplyDeltaTransform.NewTransformRounded rnd ResetDeltaTransform T T.Translation b = T) ∧
    (∀ (c : CompId) (rest : List (Option CompId)),
      s.Mobility c = EComponentMobility.Movable →
      ApplyDeltaTransform.LoopRounded rnd w ResetDeltaTransform none (some c :: rest) s
        = ApplyDeltaTransform.LoopRounded rnd w ResetDeltaTransform none rest
            (SetTransform w (s.SetMobility c EComponentMobility.Movable) (some c)
              (ApplyDeltaTransform.NewTransformRounded rnd ResetDeltaTransform
                (s.ComponentTransforms c)
                (w.GetActorLocation g (s.GizmoActors g) s.ComponentTransforms)
                s.bRotateOnLocalAxis))) ∧
    (∃ t, ApplyDeltaTransformRounded rnd w s ResetDeltaTransform = some t ∧
      ((∀ c, some c ∈ s.SelectedComponents →
        (s.ComponentTransforms c).IsRounded rnd ∧
        FVector.SubRounded rnd (s.ComponentTransforms c).Translation
            (w.GetActorLocation g (s.GizmoActors g) s.ComponentTransforms)
          = FVector.Sub (s.ComponentTransforms c).Translation
            (w.GetActorLocation g (s.GizmoActors g) s.ComponentTransforms)) →
        t.ComponentTransforms = s.ComponentTransforms)) := by
  refine ⟨?_, ?_, ?_, ?_, ?_⟩
  · intro T G b hT
    exact ApplyDeltaTransform.NewTransformRounded_reset rnd h0 hi T G b hT
  · intro T G b hT hx
    exact ApplyDeltaTransform.NewTransformRounded_exact rnd h0 hi T G b hT hx
  · intro T b hT
    apply ApplyDeltaTransform.NewTransformRounded_exact rnd h0 hi T _ b hT
    simp [FVector.SubRounded, FVector.Sub, h0]
  · intro c rest hm
    exact ApplyDeltaTransform.LoopRounded_cons_movable rnd w _ s c rest g hg hv (Or.inr hm)
  · obtain ⟨t, ht⟩ := ApplyDeltaTransform.LoopRounded_isSome rnd w ResetDeltaTransform none
      s.SelectedComponents g s hg hv
    refine ⟨t, ?_, ?_⟩
    · unfold ApplyDeltaTransformRounded
      rw [hsnap]
      exact ht
    · intro hx
      refine ApplyDeltaTransform.LoopRounded_exact rnd h0 hi w _ s t ?_ ht
      intro c g' hc hg'
      rw [hg] at hg'
      cases hg'
      exact hx c hc

theorem reset_delta_is_neutral_up_to_rounding_witness :
    RoundToDouble 0 = 0 ∧
    ExampleSelected.Gizmo = some 0 ∧ ExampleSelected.IsValidGizmo (some 0) = true ∧
    ExampleSelected.ActiveSnappingValue = none ∧
    ApplyDeltaTransform.NewTransformRounded RoundToDouble ResetDeltaTransform
      ⟨FQuat.Identity, ⟨1, 0, 0⟩, FVector.OneVector⟩ ⟨18014398509481984, 0, 0⟩ false
      = ⟨FQuat.Identity,
         ⟨RoundToDouble (RoundToDouble (1 - 18014398509481984) + 18014398509481984),
          RoundToDouble (RoundToDouble (0 - 0) + 0),
          RoundToDouble (RoundToDouble (0 - 0) + 0)⟩,
         FVector.OneVector⟩ ∧
    ApplyDeltaTransform.NewTransformRounded RoundToDouble ResetDeltaTransform
      ⟨FQuat.Identity, ⟨1, 0, 0⟩, FVector.OneVector⟩ ⟨1, 0, 0⟩ false
      = ⟨FQuat.Identity, ⟨1, 0, 0⟩, FVector.OneVector⟩ ∧
    ∃ t, ApplyDeltaTransformRounded RoundToDouble ExampleWorld ExampleSelected
      ResetDeltaTransform = some t :=
  ⟨RoundToDouble_zero, by decide, by decide, by decide,
   (reset_delta_is_neutral_up_to_rounding RoundToDouble ExampleWorld ExampleSelected 0
      RoundToDouble_zero RoundToDouble_idempotent (by decide) (by decide) (by decide)).1
      ⟨FQuat.Identity, ⟨1, 0, 0⟩, FVector.OneVector⟩ ⟨18014398509481984, 0, 0⟩ false
      (FTransform.Identity_IsRounded_double _ RoundToDouble_one RoundToDouble_zero
        RoundToDouble_zero),
   (reset_delta_is_neutral_up_to_rounding RoundToDouble ExampleWorld ExampleSelected 0
      RoundToDouble_zero RoundToDouble_idempotent (by decide) (by decide) (by decide)).2.2.1
      ⟨FQuat.Identity, ⟨1, 0, 0⟩, FVector.OneVector⟩ false
      (FTransform.Identity_IsRounded_double _ RoundToDouble_one RoundToDouble_zero
        RoundToDouble_zero),
   (reset_delta_is_neutral_up_to_rounding RoundToDouble ExampleWorld ExampleSelected 0
      RoundToDouble_zero RoundToDouble_idempotent (by decide) (by decide)
      (by decide)).2.2.2.2.imp (fun _ h => h.1)⟩

/-- C19. SetTransform calls OnNewTransformation with the transform when the component (in
component mode) or its owner (in actor mode) implements the focusable interface, and then
writes the transform only if bTransformUFocusableObjects is true; when the object is not
focusable it writes the transform and makes no call. No other component is written. -/
theorem set_transform_notifies_and_writes (w : World) (s : ATransformerActor) (c : CompId)
    (T : FTransform) :
    (s.bComponentBased = true → w.ComponentImplementsFocusable c = true →
      (SetTransform w s (some c) T).EventLog
        = s.EventLog ++ [Event.OnNewTransformation (UObject.component c) c T true] ∧
      (SetTransform w s (some c) T).ComponentTransforms c
        = if s.bTransformUFocusableObjects then T else s.ComponentTransforms c) ∧
    (∀ o, s.bComponentBased = false → w.GetOwner c = some o →
      w.ActorImplementsFocusable o = true →
      (SetTransform w s (some c) T).EventLog
        = s.EventLog ++ [Event.OnNewTransformation (UObject.actor o) c T false] ∧
      (SetTransform w s (some c) T).ComponentTransforms c
        = if s.bTransformUFocusableObjects then T else s.ComponentTransforms c) ∧
    (GetUFocusable w s (some c) = none →
      (SetTransform w s (some c) T).EventLog = s.EventLog ∧
      (SetTransform w s (some c) T).ComponentTransforms c = T) ∧
    ((GetUFocusable w s (some c) = none) ↔
      (if s.bComponentBased then w.ComponentImplementsFocusable c = false
       else ∀ o, w.GetOwner c = some o → w.ActorImplementsFocusable o = false)) ∧
    (∀ x, x ≠ c →
      (SetTransform w s (some c) T).ComponentTransforms x = s.ComponentTransforms x) := by
  refine ⟨?_, ?_, ?_, ?_, ?_⟩
  · intro hb hi
    have hf : GetUFocusable w s (some c) = some (UObject.component c) := by
      simp [GetUFocusable, hb, hi]
    cases ht : s.bTransformUFocusableObjects <;>
      simp [SetTransform, hf, ht, hb, ATransformerActor.Emit,
        ATransformerActor.SetWorldTransform]
  · intro o hb ho hi
    have hf : GetUFocusable w s (some c) = some (UObject.actor o) := by
      simp [GetUFocusable, hb, ho, hi]
    cases ht : s.bTransformUFocusableObjects <;>
      simp [SetTransform, hf, ht, hb, ATransformerActor.Emit,
        ATransformerActor.SetWorldTransform]
  · intro hf
    simp [SetTransform, hf, ATransformerActor.SetWorldTransform]
  · unfold GetUFocusable
    cases hb : s.bComponentBased
    · cases ho : w.GetOwner c with
      | none => simp [ho]
      | some o => cases hi : w.ActorImplementsFocusable o <;> simp [ho, hi]
    · cases hi : w.ComponentImplementsFocusable c <;> simp [hi]
  · intro x hx
    unfold SetTransform
    dsimp only
    split
    · split
      · simp [ATransformerActor.SetWorldTransform, ATransformerActor.Emit, hx]
      · rfl
    · simp [ATransformerActor.SetWorldTransform, hx]

theorem set_transform_notifies_and_writes_witness :
    ExampleFocusable.bComponentBased = true ∧
    FocusableWorld.ComponentImplementsFocusable 20 = true ∧
    ExampleFocusable.bTransformUFocusableObjects = false ∧
    (SetTransform FocusableWorld ExampleFocusable (some 20) ExampleDelta).EventLog
      = ExampleFocusable.EventLog
        ++ [Event.OnNewTransformation (UObject.component 20) 20 ExampleDelta true] ∧
    (SetTransform FocusableWorld ExampleFocusable (some 20) ExampleDelta).ComponentTransforms 20
      = ExampleFocusable.ComponentTransforms 20 ∧
    GetUFocusable FocusableWorld ExampleFocusable (some 10) = none ∧
    (SetTransform FocusableWorld ExampleFocusable (some 10) ExampleDelta).ComponentTransforms 10
      = ExampleDelta := by
  have h := (set_transform_notifies_and_writes FocusableWorld ExampleFocusable 20
    ExampleDelta).1 (by decide) (by decide)
  have h2 := (set_transform_notifies_and_writes FocusableWorld ExampleFocusable 10
    ExampleDelta).2.2.1 (by decide)
  have hb : ExampleFocusable.bTransformUFocusableObjects = false := by decide
  refine ⟨by decide, by decide, hb, h.1, ?_, by decide, h2.2⟩
  rw [h.2, hb]
  rfl

/-- C20. Session reset: after every HandleTracedObjects call, so in particular after one that
moved the current domain from None to another domain, and after every SetTransformationType
call that changes the current kind, the accumulated transform is the zero sentinel (zero
translation, identity rotation, zero scale). UpdateTransform always returns and never resets
it: it leaves it unchanged when snapping is inactive or no session is running, and
otherwise stores what the gizmo's GetSnappedTransform left in it. -/
theorem accumulated_transform_reset_on_session_start (w : World) (s : ATransformerActor) :
    (∀ (hits : List FHitResult) (b : Bool),
      (HandleTracedObjects w s hits b).1.AccumulatedDeltaTransform
        = ⟨FQuat.Identity, FVector.ZeroVector, FVector.ZeroVector⟩) ∧
    (∀ t : ETransformationType, s.CurrentTransformation ≠ t →
      (SetTransformationType w s t).CurrentTransformation = t ∧
      (SetTransformationType w s t).AccumulatedDeltaTransform
        = ⟨FQuat.Identity, FVector.ZeroVector, FVector.ZeroVector⟩) ∧
    (∀ LookingVector RayOrigin RayDirection : FVector, ∃ t T,
      UpdateTransform w s LookingVector RayOrigin RayDirection = some (t, T) ∧
      (s.ActiveSnappingValue = none →
        t.AccumulatedDeltaTransform = s.AccumulatedDeltaTransform) ∧
      (∀ g v, s.Gizmo = some g → s.IsValidGizmo (some g) = true →
        s.CurrentDomain ≠ ETransformationDomain.TD_None →
        s.ActiveSnappingValue = some v →
        t.AccumulatedDeltaTransform
          = (w.GetSnappedTransform g s.AccumulatedDeltaTransform
              (w.GetDeltaTransform g (s.GizmoActors g) s.ComponentTransforms LookingVector
                RayOrigin (FVector.Add RayOrigin (FVector.Scale 100000000 RayDirection))
                s.CurrentDomain)
              s.CurrentDomain v).2)) := by
  refine ⟨?_, ?_, ?_⟩
  · intro hits b
    exact HandleTracedObjects_AccumulatedDeltaTransform w s hits b
  · intro t ht
    unfold SetTransformationType
    simp only [ht, if_false]
    have h := UpdateGizmoPlacement_session w
      { (if t = ETransformationType.TT_NoTransform then
            s.Emit (Event.Log LogMessage.TransformationTypeNone) else s) with
        CurrentTransformation := t, AccumulatedDeltaTransform := ResetDeltaTransform }
    exact ⟨h.2, h.3⟩
  · intro L O Dir
    obtain ⟨t, T, h⟩ := UpdateTransform_isSome w s L O Dir
    refine ⟨t, T, h, ?_⟩
    unfold UpdateTransform at h
    dsimp only at h
    cases hg : s.Gizmo with
    | none =>
      rw [hg] at h
      cases h
      exact ⟨fun _ => rfl, fun g v hg' => by simp [hg] at hg'⟩
    | some g =>
      rw [hg] at h
      dsimp only at h
      split at h
      · rename_i hcond
        cases h
        refine ⟨fun _ => rfl, fun g' v hg' hv hd _ => ?_⟩
        cases hg'
        simp [hv, hd] at hcond
      · cases hsnap : s.ActiveSnappingValue with
        | none =>
          rw [hsnap] at h
          dsimp only at h
          cases ha : ApplyDeltaTransform w s
              (w.GetDeltaTransform g (s.GizmoActors g) s.ComponentTransforms L O
                (FVector.Add O (FVector.Scale 100000000 Dir)) s.CurrentDomain) with
          | none => rw [ha] at h; cases h
          | some u =>
            rw [ha] at h
            cases h
            exact ⟨fun _ => (ApplyDeltaTransform_transformFrame w s t _ ha).7,
              fun g' v _ _ _ hv' => by cases hv'⟩
        | some v =>
          rw [hsnap] at h
          dsimp only at h
          split at h
          · rename_i u ha
            cases h
            refine ⟨fun hn => (by cases hn), fun g' v' hg' _ _ hv' => ?_⟩
            cases hg'
            cases hv'
            exact (ApplyDeltaTransform_transformFrame w _ t _ ha).7
          · cases h

theorem accumulated_transform_reset_on_session_start_witness :
    ExampleDragging.CurrentTransformation ≠ ETransformationType.TT_Rotation ∧
    (SetTransformationType ExampleWorld ExampleDragging
      ETransformationType.TT_Rotation).AccumulatedDeltaTransform
      = ⟨FQuat.Identity, FVector.ZeroVector, FVector.ZeroVector⟩ ∧
    (HandleTracedObjects ExampleWorld ExampleSelected
      [⟨some (ActorId.gizmo 0), some 1001⟩] false).1.AccumulatedDeltaTransform
      = ⟨FQuat.Identity, FVector.ZeroVector, FVector.ZeroVector⟩ :=
  ⟨by decide,
   ((accumulated_transform_reset_on_session_start ExampleWorld ExampleDragging).2.1
      ETransformationType.TT_Rotation (by decide)).2,
   (accumulated_transform_reset_on_session_start ExampleWorld ExampleSelected).1 _ _⟩

/-- C21. After BeginPlay on a transformer that has not spawned a gizmo yet (as after the
constructor, whatever its settings) and any sequence of selection calls,
SetTransformationType and SetSpaceType calls, every valid gizmo actor the transformer has
spawned, so every pooled one, is hidden with tick and collision disabled unless it is the
active gizmo: at most the active gizmo is visible and enabled. On a kind switch with an
active gizmo of another kind, SetGizmo first resets that gizmo (hidden, tick and collision
off, no gizmo active) and only then acquires the gizmo for the new kind. BeginPlay returns
whenever the world exists and the translation gizmo class is set. -/
theorem at_most_the_active_gizmo_is_visible (w : World) (s₀ s₁ : ATransformerActor)
    (calls : List PublicCall) (h0 : s₀.SpawnCount = 0) (hp : s₀.GizmoActorPool = [])
    (hb : BeginPlay w s₀ = some s₁) :
    (∀ g, g < (RunPublicCalls w s₁ calls).SpawnCount →
      (RunPublicCalls w s₁ calls).IsValidGizmo (some g) = true →
      (RunPublicCalls w s₁ calls).Gizmo ≠ some g →
      ((RunPublicCalls w s₁ calls).GizmoActors g).bHidden = true ∧
      ((RunPublicCalls w s₁ calls).GizmoActors g).bTickEnabled = false ∧
      ((RunPublicCalls w s₁ calls).GizmoActors g).bEnableCollision = false) ∧
    (∀ g, some g ∈ (RunPublicCalls w s₁ calls).GizmoActorPool →
      g < (RunPublicCalls w s₁ calls).SpawnCount) ∧
    (∀ (t : ETransformationType) (g : GizmoId),
      (RunPublicCalls w s₁ calls).Gizmo = some g →
      (RunPublicCalls w s₁ calls).IsValidGizmo (some g) = true →
      (RunPublicCalls w s₁ calls).SelectedComponents ≠ [] →
      ((RunPublicCalls w s₁ calls).GizmoActors g).GizmoType ≠ t →
      (RunPublicCalls w s₁ calls).CurrentTransformation ≠ t →
      ∃ x : ATransformerActor,
        SetTransformationType w (RunPublicCalls w s₁ calls) t = UpdateGizmoPlacement w x ∧
        SetGizmo w x = SetGizmo.Acquire w (ResetGizmo x) ∧
        (ResetGizmo x).Gizmo = none ∧
        ((ResetGizmo x).GizmoActors g).IsOff = true) ∧
    (w.bHasWorld = true → s₀.TranslationGizmoClass ≠ none → ∃ t, BeginPlay w s₀ = some t) := by
  have hinit : GizmoInvariant s₀ := by
    constructor
    · intro g hlt
      rw [h0] at hlt
      exact absurd hlt (Nat.not_lt_zero g)
    · intro g hg
      rw [hp] at hg
      cases hg
  have h1 := (BeginPlay_effect w s₀ s₁ hinit hb).1
  have h2 := RunPublicCalls_invariant w calls s₁ h1
  refine ⟨fun g hlt hv hne => ?_, h2.pooled, fun t g hg hv hsel hk hc => ?_,
    BeginPlay_isSome w s₀⟩
  · have := h2.off g hlt hv hne
    simp only [ABaseGizmo.IsOff, Bool.and_eq_true, Bool.not_eq_true'] at this
    exact ⟨this.1.1, this.1.2, this.2⟩
  · refine ⟨_, ?_, SetTransformationType_switch w _ t g hg hv hsel hk⟩
    unfold SetTransformationType
    rw [if_neg hc]

theorem at_most_the_active_gizmo_is_visible_witness :
    ATransformerActor.Constructed.SpawnCount = 0 ∧
    BeginPlay ExampleWorld ATransformerActor.Constructed = some ExamplePlaying ∧
    (RunPublicCalls ExampleWorld ExamplePlaying
      [PublicCall.Selection (SelectionCall.SelectComponent (some 10) false),
       PublicCall.SetTransformationType ETransformationType.TT_Rotation,
       PublicCall.SetSpaceType ESpaceType.ST_Local]).Gizmo = some 2 ∧
    (RunPublicCalls ExampleWorld ExamplePlaying
      [PublicCall.Selection (SelectionCall.SelectComponent (some 10) false),
       PublicCall.SetTransformationType ETransformationType.TT_Rotation,
       PublicCall.SetSpaceType ESpaceType.ST_Local]).SpawnCount = 3 ∧
    ((RunPublicCalls ExampleWorld ExamplePlaying
      [PublicCall.Selection (SelectionCall.SelectComponent (some 10) false),
       PublicCall.SetTransformationType ETransformationType.TT_Rotation,
       PublicCall.SetSpaceType ESpaceType.ST_Local]).GizmoActors 1).bHidden = true ∧
    ((RunPublicCalls ExampleWorld ExamplePlaying
      [PublicCall.Selection (SelectionCall.SelectComponent (some 10) false),
       PublicCall.SetTransformationType ETransformationType.TT_Rotation,
       PublicCall.SetSpaceType ESpaceType.ST_Local]).GizmoActors 1).bTickEnabled = false ∧
    ((RunPublicCalls ExampleWorld ExamplePlaying
      [PublicCall.Selection (SelectionCall.SelectComponent (some 10) false),
       PublicCall.SetTransformationType ETransformationType.TT_Rotation,
       PublicCall.SetSpaceType ESpaceType.ST_Local]).GizmoActors 1).bEnableCollision = false :=
  ⟨rfl, rfl, by decide, by decide,
   (at_most_the_active_gizmo_is_visible ExampleWorld ATransformerActor.Constructed
      ExamplePlaying
      [PublicCall.Selection (SelectionCall.SelectComponent (some 10) false),
       PublicCall.SetTransformationType ETransformationType.TT_Rotation,
       PublicCall.SetSpaceType ESpaceType.ST_Local] rfl rfl rfl).1 1 (by decide) (by decide)
      (by decide)⟩

/-- C22 (the claim as stated fails). In the example scene with the default placement
GP_OnLastSelection and component 10 selected, SelectActor(append=true) on the actor without
root component appends a null entry: the selection is [10, null], a gizmo is active, and it
stays attached to component 10, which is the first and not the last selected entry. -/
theorem gizmo_not_on_last_entry_when_null :
    (SelectActor ExampleWorld ExampleSelected (some (ActorId.scene 0)) true).SelectedComponents
      = [some 10, none] ∧
    (SelectActor ExampleWorld ExampleSelected (some (ActorId.scene 0)) true).GizmoPlacement
      = EGizmoPlacement.GP_OnLastSelection ∧
    (SelectActor ExampleWorld ExampleSelected (some (ActorId.scene 0)) true).Gizmo = some 0 ∧
    (SelectActor ExampleWorld ExampleSelected (some (ActorId.scene 0)) true).IsValidGizmo
      (some 0) = true ∧
    ((SelectActor ExampleWorld ExampleSelected (some (ActorId.scene 0)) true).GizmoActors
      0).AttachParent = some 10 ∧
    (SelectActor ExampleWorld ExampleSelected (some (ActorId.scene 0)) true
      ).SelectedComponents.getLast? = some none := by
  decide

/-- C22 (amended). Every public selection call either returns the state it was given or
ends by placing the gizmo; so after every selection call that changes the membership, with
an empty selection no gizmo is active, and an active gizmo is attached to the first
selected entry under GP_OnFirstSelection and to the last one under GP_OnLastSelection and
GP_None, provided that entry is a component (not null). The same placement holds after
SetComponentBased when it returns. -/
theorem gizmo_follows_selection (w : World) (s : ATransformerActor) :
    (∀ call : SelectionCall, call.Run w s = s ∨ GizmoPlaced (call.Run w s)) ∧
    (∀ call : SelectionCall,
      (call.Run w s).SelectedComponents ≠ s.SelectedComponents →
      GizmoPlaced (call.Run w s)) ∧
    (∀ (b : Bool) (t : ATransformerActor), SetComponentBased w s b = some t →
      GizmoPlaced t) := by
  have hcalls : ∀ call : SelectionCall, call.Run w s = s ∨ GizmoPlaced (call.Run w s) := by
    intro call
    cases call with
    | SelectComponent c b =>
      show RuntimeTransformer.SelectComponent w s c b = s ∨
        GizmoPlaced (RuntimeTransformer.SelectComponent w s c b)
      unfold RuntimeTransformer.SelectComponent
      split
      · exact Or.inl rfl
      · split
        · exact Or.inr (UpdateGizmoPlacement_placed w _)
        · exact Or.inl rfl
    | SelectActor a b =>
      show RuntimeTransformer.SelectActor w s a b = s ∨
        GizmoPlaced (RuntimeTransformer.SelectActor w s a b)
      unfold RuntimeTransformer.SelectActor
      split
      · exact Or.inl rfl
      · split
        · exact Or.inr (UpdateGizmoPlacement_placed w _)
        · exact Or.inl rfl
    | SelectMultipleComponents cs b =>
      show RuntimeTransformer.SelectMultipleComponents w s cs b = s ∨
        GizmoPlaced (RuntimeTransformer.SelectMultipleComponents w s cs b)
      rcases SelectMultipleComponents_unchanged_or_updated w s cs b with h | ⟨x, h⟩
      · exact Or.inl h
      · rw [h]; exact Or.inr (UpdateGizmoPlacement_placed w x)
    | SelectMultipleActors as b =>
      show RuntimeTransformer.SelectMultipleActors w s as b = s ∨
        GizmoPlaced (RuntimeTransformer.SelectMultipleActors w s as b)
      rcases SelectMultipleActors_unchanged_or_updated w s as b with h | ⟨x, h⟩
      · exact Or.inl h
      · rw [h]; exact Or.inr (UpdateGizmoPlacement_placed w x)
    | DeselectComponent c =>
      show RuntimeTransformer.DeselectComponent w s c = s ∨
        GizmoPlaced (RuntimeTransformer.DeselectComponent w s c)
      unfold RuntimeTransformer.DeselectComponent
      split
      · exact Or.inl rfl
      · exact Or.inr (UpdateGizmoPlacement_placed w _)
    | DeselectActor a =>
      show RuntimeTransformer.DeselectActor w s a = s ∨
        GizmoPlaced (RuntimeTransformer.DeselectActor w s a)
      unfold RuntimeTransformer.DeselectActor
      split
      · unfold RuntimeTransformer.DeselectComponent
        split
        · exact Or.inl rfl
        · exact Or.inr (UpdateGizmoPlacement_placed w _)
      · exact Or.inl rfl
    | DeselectAll b => exact Or.inr (DeselectAll_placed w s b)
  refine ⟨hcalls, ?_, ?_⟩
  · intro call hne
    rcases hcalls call with h | h
    · exact absurd (congrArg ATransformerActor.SelectedComponents h) hne
    · exact h
  · intro b t ht
    have hd := DeselectAll_placed w s false
    have hd' : GizmoPlaced { (DeselectAll w s false).1 with bComponentBased := b } :=
      hd.of_frame ⟨rfl, rfl, rfl, rfl, rfl, fun _ h => h⟩ rfl
    unfold SetComponentBased at ht
    dsimp only at ht
    split at ht
    · cases ht
      rcases SelectMultipleComponents_unchanged_or_updated w
        { (DeselectAll w s false).1 with bComponentBased := b } (DeselectAll w s false).2 false
        with h | ⟨x, h⟩
      · rw [h]; exact hd'
      · rw [h]; exact UpdateGizmoPlacement_placed w x
    · split at ht
      · rename_i actors _
        cases ht
        rcases SelectMultipleActors_unchanged_or_updated w
          { (DeselectAll w s false).1 with bComponentBased := b } actors false
          with h | ⟨x, h⟩
        · rw [h]; exact hd'
        · rw [h]; exact UpdateGizmoPlacement_placed w x
      · cases ht

theorem gizmo_follows_selection_witness :
    (SelectionCall.Run ExampleWorld ExampleSelected
      (SelectionCall.SelectComponent (some 20) true)).SelectedComponents
      = [some 10, some 20] ∧
    ((SelectionCall.Run ExampleWorld ExampleSelected
      (SelectionCall.SelectComponent (some 20) true)).GizmoActors 0).AttachParent
      = some 20 ∧
    (SelectionCall.Run ExampleWorld ExampleSelected
      (SelectionCall.DeselectAll false)).IsValidGizmo
      (SelectionCall.Run ExampleWorld ExampleSelected
        (SelectionCall.DeselectAll false)).Gizmo = false := by
  have h1 := (gizmo_follows_selection ExampleWorld ExampleSelected).2.1
    (SelectionCall.SelectComponent (some 20) true) (by decide)
  have h2 := (gizmo_follows_selection ExampleWorld ExampleSelected).2.1
    (SelectionCall.DeselectAll false) (by decide)
  exact ⟨by decide, h1.last 0 20 (by decide) (by decide) (by decide) (by decide),
    h2.empty (by decide)⟩

/-- C24. The walk of the reparenting phase ends: from a component whose attach-parent
links reach the root component of the owner in `n` steps, the loop returns within `n + 1`
iterations for every map of cloned components, either with the original parent because the
root was reached, or with the clone of an ancestor; and when the components to clone and
their attach parents are existing components whose links reach the root component of their
actor, `CloneComponents` returns for every large enough bound on the iterations. -/
theorem reparenting_walk_terminates (w : World) (s : ATransformerActor)
    (Components : List (Option CompId))
    (hexist : ∀ c p, s.AttachParents c = some p → p < s.ComponentCount)
    (htemp : ∀ c, c ∈ ClonedTemplates w Components → c < s.ComponentCount)
    (hrooted : ∀ c, (c ∈ ClonedTemplates w Components ∨
        ∃ t, t ∈ ClonedTemplates w Components ∧ s.AttachParents t = some c) →
      ∃ a r n, w.GetOwner c = some a ∧ w.GetRootComponent a = some r ∧
        s.Ancestor n (some c) = some r) :
    (∀ (OcCc : List (Option CompId × Option CompId)) (a : ActorId) (r : CompId)
        (cpValue : Option CompId) (n : Nat) (parent : Option CompId),
      w.GetRootComponent a = some r → s.Ancestor n parent = some r →
      ∃ x, (∀ fuel, n < fuel →
          CloneComponents.Walk w s OcCc (some a) cpValue fuel parent = Outcome.done x) ∧
        (x = cpValue ∨ ∃ k anc, k < n ∧ s.Ancestor (k + 1) parent = some anc ∧
          TMap.Find OcCc (some anc) = some x)) ∧
    ∃ bound, ∀ fuel, bound ≤ fuel →
      ∃ t clones, CloneComponents w s fuel Components = Outcome.done (t, clones) := by
  refine ⟨?_, ?_⟩
  · intro OcCc a r cpValue n parent hr hn
    exact CloneComponents.Walk_done w s OcCc a r cpValue hr n parent hn
  · cases hw : w.bHasWorld with
    | false =>
      refine ⟨0, fun fuel _ => ⟨s, [], ?_⟩⟩
      simp only [CloneComponents, hw, Bool.not_false, if_true]
    | true =>
      obtain ⟨b, hb⟩ := Clonable.of_rooted w s Components hw hexist htemp hrooted
      refine ⟨b, fun fuel hfuel => ?_⟩
      obtain ⟨t, ht, _⟩ := CloneComponents_spec w s fuel Components (hb fuel hfuel)
      exact ⟨t, _, ht⟩

theorem reparenting_walk_terminates_witness :
    (∃ x, (∀ fuel, 1 < fuel →
        CloneComponents.Walk ExampleWorld ExampleCloning [(some 40, some 1000)]
          (some (ActorId.scene 4)) (some 41) fuel (some 41) = Outcome.done x) ∧
      (x = some 41 ∨ ∃ k anc, k < 1 ∧ ExampleCloning.Ancestor (k + 1) (some 41) = some anc ∧
        TMap.Find [(some 40, some 1000)] (some anc) = some x)) ∧
    ∃ bound, ∀ fuel, bound ≤ fuel →
      ∃ t clones, CloneComponents ExampleWorld ExampleCloning fuel [some 40, some 44]
        = Outcome.done (t, clones) :=
  ⟨(reparenting_walk_terminates ExampleWorld ExampleCloning [some 40, some 44]
      ExampleCloning_existing
      (fun c h => by
        have hc : c = 40 ∨ c = 44 := by simpa [ClonedTemplates, ExampleWorld] using h
        rcases hc with rfl | rfl <;> decide)
      ExampleCloning_rooted).1 [(some 40, some 1000)] (ActorId.scene 4) 40 (some 41) 1
      (some 41) rfl rfl,
   (reparenting_walk_terminates ExampleWorld ExampleCloning [some 40, some 44]
      ExampleCloning_existing
      (fun c h => by
        have hc : c = 40 ∨ c = 44 := by simpa [ClonedTemplates, ExampleWorld] using h
        rcases hc with rfl | rfl <;> decide)
      ExampleCloning_rooted).2⟩

/-- C26. After `SelectComponent` and `SetTransformationType(TT_NoTransform)` component 10 is
selected and no gizmo is active, and `ApplyDeltaTransform` dereferences the null gizmo;
the same happens after `BeginPlay` when the scale gizmo class is not set and the kind is
switched to scaling. `UpdateTransform` returns in both states. -/
theorem apply_delta_transform_without_gizmo_is_fatal :
    ExampleNoTransform.SelectedComponents = [some 10] ∧
    ExampleNoTransform.Gizmo = none ∧
    (ApplyDeltaTransform ExampleWorld ExampleNoTransform ExampleDelta).isSome = false ∧
    (UpdateTransform ExampleWorld ExampleNoTransform ⟨1, 0, 0⟩ ⟨0, 0, 0⟩ ⟨1, 0, 0⟩).isSome
      = true ∧
    (BeginPlay ExampleWorld
      { ATransformerActor.Constructed with ScaleGizmoClass := none }).isSome = true ∧
    ExampleNoScaleGizmo.SelectedComponents = [some 10] ∧
    ExampleNoScaleGizmo.Gizmo = none ∧
    (ApplyDeltaTransform ExampleWorld ExampleNoScaleGizmo ExampleDelta).isSome = false := by
  decide

/-- C27. When every entry of the list is null or rejected by ShouldSelect (in particular
when the list is empty), SelectMultipleComponents and SelectMultipleActors return the state
they were given, for either value of the append flag: the selection list, the gizmo and
the notifications are untouched and the existing selection is not cleared. -/
theorem select_multiple_without_valid_entry_is_noop (w : World) (s : ATransformerActor)
    (bAppendToList : Bool) :
    (∀ Components : List (Option CompId),
      (∀ x ∈ Components, x = none ∨
        ∃ c, x = some c ∧ w.ShouldSelect (w.GetOwner c) (some c) = false) →
      SelectMultipleComponents w s Components bAppendToList = s) ∧
    (∀ Actors : List (Option ActorId),
      (∀ x ∈ Actors, x = none ∨
        ∃ a, x = some a ∧ w.ShouldSelect (some a) (w.GetRootComponent a) = false) →
      SelectMultipleActors w s Actors bAppendToList = s) := by
  constructor
  · intro cs h
    have hacc : AcceptedComponents w cs = [] := by
      unfold AcceptedComponents
      rw [List.filterMap_eq_nil_iff]
      intro x hx
      rcases h x hx with rfl | ⟨c, rfl, hc⟩
      · rfl
      · simp [hc]
    unfold SelectMultipleComponents
    rw [SelectMultipleComponents.Loop_rejected w cs hacc]
    rfl
  · intro as h
    have hacc : AcceptedActors w as = [] := by
      unfold AcceptedActors
      rw [List.filterMap_eq_nil_iff]
      intro x hx
      rcases h x hx with rfl | ⟨a, rfl, ha⟩
      · rfl
      · simp [ha]
    unfold SelectMultipleActors
    rw [SelectMultipleActors.Loop_rejected_actors w as hacc]
    rfl

theorem select_multiple_without_valid_entry_is_noop_witness :
    SelectMultipleComponents PickyWorld ExampleSelected [none, some 20, none] false
      = ExampleSelected ∧
    ExampleSelected.SelectedComponents = [some 10] ∧
    SelectMultipleActors PickyWorld ExampleSelected [some (ActorId.scene 2), none] false
      = ExampleSelected :=
  ⟨(select_multiple_without_valid_entry_is_noop PickyWorld ExampleSelected false).1
      [none, some 20, none] (by decide),
   by decide,
   (select_multiple_without_valid_entry_is_noop PickyWorld ExampleSelected false).2
      [some (ActorId.scene 2), none] (by decide)⟩

/-- C28. For a list with at least one non-null entry accepted by ShouldSelect,
SelectMultipleComponents(L, append=false) discards the previous selection and leaves a
duplicate-free selection without null entry in which, with the toggle policy on, a
component is selected if and only if it occurs an odd number of times among the accepted
entries of L, and, with the toggle policy off, if and only if it occurs among them. -/
theorem select_multiple_toggles_by_parity (w : World) (s : ATransformerActor)
    (Components : List (Option CompId)) (hacc : AcceptedComponents w Components ≠ []) :
    (SelectMultipleComponents w s Components false).SelectedComponents.Nodup ∧
    none ∉ (SelectMultipleComponents w s Components false).SelectedComponents ∧
    (s.bToggleSelectedInMultiSelection = true → ∀ c : CompId,
      some c ∈ (SelectMultipleComponents w s Components false).SelectedComponents ↔
        Odd (Occurrences c (AcceptedComponents w Components))) ∧
    (s.bToggleSelectedInMultiSelection = false → ∀ c : CompId,
      some c ∈ (SelectMultipleComponents w s Components false).SelectedComponents ↔
        c ∈ AcceptedComponents w Components) := by
  obtain ⟨h1, _, _⟩ := SelectMultipleComponents.Loop_selection w Components s false false
  have hsel : (SelectMultipleComponents w s Components false).SelectedComponents
      = ((AcceptedComponents w Components).map some).foldl
          (ToggleEntry s.bToggleSelectedInMultiSelection) [] := by
    unfold SelectMultipleComponents
    dsimp only
    split
    · rw [(UpdateGizmoPlacement_frame w _).1, h1]
      simp [hacc]
    · rw [h1]
      simp [hacc]
  rw [hsel]
  cases ht : s.bToggleSelectedInMultiSelection with
  | true =>
    obtain ⟨n1, n2, n3⟩ := foldl_ToggleEntry_toggle (AcceptedComponents w Components) []
      List.nodup_nil
    refine ⟨n1, by simp [n2], fun _ c => ?_, fun h => (by cases h)⟩
    rw [n3 c, Nat.odd_iff]
    simp
  | false =>
    obtain ⟨n1, n2, n3⟩ := foldl_ToggleEntry_keep (AcceptedComponents w Components) []
      List.nodup_nil
    refine ⟨n1, by simp [n2], fun h => (by cases h), fun _ c => ?_⟩
    rw [n3 c]
    simp

theorem select_multiple_toggles_by_parity_witness :
    AcceptedComponents PickyWorld [some 10, some 20, some 30, none, some 10, some 30, some 30]
      = [10, 30, 10, 30, 30] ∧
    (SelectMultipleComponents PickyWorld ExampleSelected
      [some 10, some 20, some 30, none, some 10, some 30, some 30] false).SelectedComponents
      = [some 30] ∧
    (some 30 ∈ (SelectMultipleComponents PickyWorld ExampleSelected
      [some 10, some 20, some 30, none, some 10, some 30, some 30] false).SelectedComponents ↔
      Odd (Occurrences 30 (AcceptedComponents PickyWorld
        [some 10, some 20, some 30, none, some 10, some 30, some 30]))) :=
  ⟨by decide, by decide,
   (select_multiple_toggles_by_parity PickyWorld ExampleSelected
      [some 10, some 20, some 30, none, some 10, some 30, some 30] (by decide)).2.2.1
      (by decide) 30⟩

end RuntimeTransformer
